import Mathlib

/-!
Verification of the Lode Runner 2099 level-generation core.

This file shallowly embeds the grid data model (`TileMap`), the seeded
random source (`SeededRandom`), the level generator (`LevelGenerator`)
and the solvability checker (`SolvabilityChecker`) of the repository,
translated from the TypeScript sources, and proves or refutes the listed
properties about them.

Modelling conventions:
* JavaScript numbers used as timers, probabilities and scores are
  modelled as rationals (`ℚ`); integer-valued quantities as `Nat`/`Int`.
  The 32-bit integer arithmetic of the random source is modelled exactly
  with `Nat` arithmetic modulo `2 ^ 32`.
* Mutation is modelled by explicit state passing: a method that mutates
  the map returns the new map.
* Iteration (for-loops, BFS work lists) is modelled with folds over
  `List.range` or with explicit fuel where the source uses a while loop;
  the fuel bounds are chosen at least as large as the loop could run.
-/

namespace LR2099

/-- Tile categories, from `config.ts` (`enum TileType`). -/
inductive TileT where
  | EMPTY
  | BRICK
  | BRICK_HARD
  | LADDER
  | POLE
  | BRICK_TRAP
  | LADDER_EXIT
  | GOLD
  | ENEMY
  | PLAYER
  | HOLE
  deriving DecidableEq, Repr, Inhabited

/-- A grid coordinate.  The TypeScript code passes plain numbers; movement
logic may query out-of-bounds coordinates, so both components are `Int`. -/
structure Pos where
  x : Int
  y : Int
  deriving DecidableEq, Repr, Inhabited

/-- `Hole` record from `TileMap.ts`: position, remaining countdown in
milliseconds, and the tile category to restore on expiry. -/
structure Hole where
  x : Int
  y : Int
  timerMs : ℚ
  originalTile : TileT
  deriving DecidableEq, Repr, Inhabited

/-- Modelled from the spec: the latest `config.ts` (the one defining
`HOLE_DURATION_MS` / `HOLE_WARNING_MS`, referenced by `TileMap.ts`) is not
present under `src/`; the spec only says holes expire on a countdown with a
warning window (about 10 seconds / 2 seconds in the older frame-based
config).  The concrete values are irrelevant to every property proved
below. -/
def HOLE_DURATION_MS : ℚ := 10000

/-- Modelled from the spec: warning window before a hole refills; see
`HOLE_DURATION_MS`. -/
def HOLE_WARNING_MS : ℚ := 2000

/-- Grid dimensions from `config.ts` (`GRID_WIDTH`). -/
def GRID_WIDTH : Nat := 28

/-- Grid dimensions from `config.ts` (`GRID_HEIGHT`). -/
def GRID_HEIGHT : Nat := 16

/-- The in-place countdown decrement `hole.timerMs -= adjustedDelta` from
`updateHoles`. -/
def decHole (delta : ℚ) (h : Hole) : Hole :=
  { h with timerMs := h.timerMs - delta }

/-- The `TileMap` class state from `TileMap.ts`. -/
structure TileMap where
  width : Nat
  height : Nat
  tiles : List (List TileT)
  holes : List Hole
  playerStart : Pos
  enemyStarts : List Pos
  goldPositions : List Pos
  exitLadders : List Pos
  holeDurationMultiplier : ℚ
  deriving DecidableEq, Repr, Inhabited

namespace TileMap

/-- `new TileMap(width, height)`: a fresh all-`EMPTY` grid with empty
position lists and default hole-duration multiplier (`clear()` inlined). -/
def new (width : Nat := GRID_WIDTH) (height : Nat := GRID_HEIGHT) : TileMap :=
  { width := width
    height := height
    tiles := (List.range height).map fun _ => (List.range width).map fun _ => TileT.EMPTY
    holes := []
    playerStart := ⟨0, 0⟩
    enemyStarts := []
    goldPositions := []
    exitLadders := []
    holeDurationMultiplier := 1 }

/-- `getTile`: out-of-bounds coordinates resolve to the solid hard brick.
For in-bounds reads the row/cell defaults can only fire on a grid whose
`tiles` matrix does not have `height × width` shape, which the constructor
rules out. -/
def getTile (m : TileMap) (x y : Int) : TileT :=
  if x < 0 ∨ x ≥ (m.width : Int) ∨ y < 0 ∨ y ≥ (m.height : Int) then
    TileT.BRICK_HARD
  else
    ((m.tiles.getD y.toNat []).getD x.toNat TileT.BRICK_HARD)

/-- `setTile`: writes in bounds, silently ignores out-of-bounds writes. -/
def setTile (m : TileMap) (x y : Int) (t : TileT) : TileMap :=
  if 0 ≤ x ∧ x < (m.width : Int) ∧ 0 ≤ y ∧ y < (m.height : Int) then
    { m with tiles := m.tiles.set y.toNat ((m.tiles.getD y.toNat []).set x.toNat t) }
  else m

/-- `isSolid`: blocks movement. -/
def isSolid (m : TileMap) (x y : Int) : Bool :=
  let tile := m.getTile x y
  tile = TileT.BRICK ∨ tile = TileT.BRICK_HARD ∨ tile = TileT.BRICK_TRAP

/-- `isSupport`: can be stood on. -/
def isSupport (m : TileMap) (x y : Int) : Bool :=
  let tile := m.getTile x y
  tile = TileT.BRICK ∨ tile = TileT.BRICK_HARD ∨ tile = TileT.LADDER ∨
    tile = TileT.LADDER_EXIT

/-- `isClimbable`. -/
def isClimbable (m : TileMap) (x y : Int) : Bool :=
  let tile := m.getTile x y
  tile = TileT.LADDER ∨ tile = TileT.LADDER_EXIT

/-- `isBar`: horizontal pole traverse. -/
def isBar (m : TileMap) (x y : Int) : Bool :=
  m.getTile x y = TileT.POLE

/-- `canDig`: only soft or trap bricks are diggable, and not when a ladder
(or hidden exit ladder) sits directly on top of the brick. -/
def canDig (m : TileMap) (x y : Int) : Bool :=
  let tile := m.getTile x y
  if tile ≠ TileT.BRICK ∧ tile ≠ TileT.BRICK_TRAP then
    false
  else if y > 0 ∧
      (m.getTile x (y - 1) = TileT.LADDER ∨ m.getTile x (y - 1) = TileT.LADDER_EXIT) then
    false
  else
    true

/-- `digHole`: turn a diggable brick into a hole and record the restore
target with a countdown scaled by the difficulty multiplier.  Returns the
success flag together with the mutated map. -/
def digHole (m : TileMap) (x y : Int) : Bool × TileMap :=
  if ¬ m.canDig x y then (false, m)
  else
    let originalTile := m.getTile x y
    let m' := m.setTile x y TileT.HOLE
    let durationMs := HOLE_DURATION_MS * m.holeDurationMultiplier
    (true, { m' with holes := m'.holes ++ [⟨x, y, durationMs, originalTile⟩] })

/-- One step of the `updateHoles` filter body: processes the hole list in
order, decrementing each countdown, collecting warning-window holes,
restoring and collecting expired holes (which are dropped from the list).
Returns (filled, warning, surviving holes, map with restored tiles). -/
def updateHolesGo (adjustedDelta : ℚ) :
    List Hole → TileMap → (List Hole × List Hole × List Hole × TileMap)
  | [], m => ([], [], [], m)
  | h :: rest, m =>
    let h' : Hole := decHole adjustedDelta h
    let warnHere : List Hole :=
      if h'.timerMs ≤ HOLE_WARNING_MS ∧ h'.timerMs > 0 then [h'] else []
    if h'.timerMs ≤ 0 then
      let m' := m.setTile h'.x h'.y h'.originalTile
      let (filled, warning, remaining, m'') := updateHolesGo adjustedDelta rest m'
      (h' :: filled, warnHere ++ warning, remaining, m'')
    else
      let (filled, warning, remaining, m'') := updateHolesGo adjustedDelta rest m
      (filled, warnHere ++ warning, h' :: remaining, m'')

/-- `updateHoles(deltaMs, speedMultiplier)`: advances all countdowns by the
speed-adjusted delta, restores and reports expired holes, reports holes in
the warning window, and keeps the surviving holes. -/
def updateHoles (m : TileMap) (deltaMs : ℚ) (speedMultiplier : ℚ := 1) :
    List Hole × List Hole × TileMap :=
  let adjustedDelta := deltaMs * speedMultiplier
  let (filled, warning, remaining, m') := updateHolesGo adjustedDelta m.holes m
  (filled, warning, { m' with holes := remaining })

/-- `wouldFall`. -/
def wouldFall (m : TileMap) (x y : Int) : Bool :=
  if m.isClimbable x y then false
  else if m.isBar x y then false
  else if y + 1 ≥ (m.height : Int) then false
  else if m.isSupport x (y + 1) then false
  else true

/-- `clone`: a fresh `new TileMap(width, height)` whose tile matrix is
copied cell by cell and whose position lists are copied; the hole list and
the hole-duration multiplier keep their constructor defaults. -/
def clone (m : TileMap) : TileMap :=
  let copy := TileMap.new m.width m.height
  { copy with
    tiles := (List.range m.height).map fun y =>
      (List.range m.width).map fun x => ((m.tiles.getD y []).getD x TileT.EMPTY)
    playerStart := m.playerStart
    enemyStarts := m.enemyStarts
    goldPositions := m.goldPositions
    exitLadders := m.exitLadders }

end TileMap

/-! ## The deterministic random source (`SeededRandom.ts`)

JavaScript's 32-bit integer coercions are modelled on `Nat` by working
with the unsigned 32-bit representative (congruent mod `2 ^ 32` to the
signed value), under which `^`, `|`, `>>>`, `Math.imul` and wrap-around
addition agree with the source exactly.  `next()` returns the 32-bit
numerator `k`; the JS float result is exactly `k / 2 ^ 32`. -/

/-- Truncation to 32 bits. -/
def u32 (n : Nat) : Nat := n % 4294967296

/-- `Math.imul`: 32-bit multiplication (unsigned representative). -/
def imul (a b : Nat) : Nat := u32 (a * b)

namespace SeededRandom

/-- One step of `hashString`: `hash = ((hash << 5) - hash) + char`,
coerced to a 32-bit integer (`hash = hash & hash`), kept as the unsigned
representative. -/
def hashStep (hash : Nat) (c : Nat) : Nat :=
  (((hash : Int) * 32 - hash + c) % 4294967296).toNat

/-- `hashString`: rolling hash of the seed string's code units, with
`Math.abs` of the signed 32-bit interpretation at the end. -/
def hashString (s : String) : Nat :=
  let rep := s.data.foldl (fun h ch => hashStep h ch.toNat) 0
  if rep < 2147483648 then rep else 4294967296 - rep

/-- A seed input to the `SeededRandom` constructor: numeric or string. -/
inductive Seed where
  | num (n : Nat)
  | str (s : String)
  deriving DecidableEq, Repr

/-- The constructor: strings are hashed to a 32-bit integer. -/
def seedInit : Seed → Nat
  | .num n => n
  | .str s => hashString s

/-- `next()`: the mulberry32 recurrence.  The stored seed only ever grows
by the fixed increment (the source stores it as a float and never
truncates it; truncation happens inside the bit mixing), so the state is
the unbounded sum.  Returns the 32-bit numerator of the result together
with the new state. -/
def next (seed : Nat) : Nat × Nat :=
  let seed' := seed + 0x6D2B79F5
  let t0 := u32 seed'
  let t1 := imul (t0 ^^^ (t0 >>> 15)) (t0 ||| 1)
  let t2 := t1 ^^^ u32 (t1 + imul (t1 ^^^ (t1 >>> 7)) (t1 ||| 61))
  (t2 ^^^ (t2 >>> 14), seed')

/-- `range(min, maxExclusive)` = `Math.floor(next() * (max - min)) + min`.
Since `next()` is exactly `k / 2 ^ 32` and the products involved stay
within the exact double range, the floor is `k * (max - min) / 2 ^ 32` in
natural division.  (The generator never calls it with `max ≤ min` except
via `range(4, segmentWidth)` where the JS float result can dip one below
`min`; that call site is reproduced faithfully for all profile values in
the documented ranges.) -/
def range (st : Nat) (lo hi : Nat) : Nat × Nat :=
  let (k, st') := next st
  (lo + k * (hi - lo) / 4294967296, st')

/-- `chance(p)` = `next() < p`, with the probability as an exact
rational.  A missing probability (JavaScript `NaN` arithmetic on an
absent `complexity`) compares false while still consuming one `next()`. -/
def chanceOpt (st : Nat) (p : Option ℚ) : Bool × Nat :=
  let (k, st') := next st
  (match p with
   | some q => decide (mkRat k 4294967296 < q)
   | none => false, st')

/-- `chance(p)` with a present probability. -/
def chance (st : Nat) (p : ℚ) : Bool × Nat :=
  chanceOpt st (some p)

/-- `pick(list)`: a uniformly chosen element (the generator only calls it
on nonempty lists; the default is never produced then). -/
def pick {α : Type} [Inhabited α] (st : Nat) (l : List α) : α × Nat :=
  let (i, st') := range st 0 l.length
  (l.getD i default, st')

/-- Swap two list entries (the destructuring swap of `shuffle`). -/
def swapL {α : Type} (l : List α) (i j : Nat) [Inhabited α] : List α :=
  let vi := l.getD i default
  let vj := l.getD j default
  (l.set i vj).set j vi

/-- The Fisher-Yates loop of `shuffle`, from index `i` downwards. -/
def shuffleGo {α : Type} [Inhabited α] : Nat → List α → Nat → List α × Nat
  | 0, l, st => (l, st)
  | i + 1, l, st =>
    let (j, st') := range st 0 (i + 2)
    shuffleGo i (swapL l (i + 1) j) st'

/-- `shuffle(list)`: in-place unbiased shuffle. -/
def shuffle {α : Type} [Inhabited α] (st : Nat) (l : List α) : List α × Nat :=
  shuffleGo (l.length - 1) l st

end SeededRandom

/-! ## Difficulty profiles (`config.ts`) -/

/-- The difficulty profile fields consumed by the generator
(`DifficultySettings`).  `complexity` is optional: the generator reads it
as `difficulty.complexity ?? 0.6`, and `createPoles` uses it unguarded
(an absent value makes the connection chance `NaN`, i.e. never taken). -/
structure DifficultySettings where
  name : String
  lives : Nat
  enemies : Nat × Nat
  gold : Nat × Nat
  ladderDensity : ℚ
  trapBrickChance : ℚ
  enemySpeed : ℚ
  holeTime : ℚ
  complexity : Option ℚ
  deriving DecidableEq, Repr, Inhabited

/-- Modelled from the spec: the difficulty table of the latest
`config.ts` is not under `src/` (the snapshot there lacks the
`complexity` field and the millisecond hole timings the newer code
reads).  Tier values follow the older snapshot; `complexity` follows the
generator's own comment ("complexity 0.4 = 2 platforms, 0.6 = 3, 0.8 = 4,
1.0 = 5") mapped over the four tiers.  Every generator theorem below
quantifies over arbitrary profiles, so these concrete values only seed
concrete evaluations. -/
def DIFFICULTIES : String → Option DifficultySettings := fun key =>
  if key = "easy" then
    some ⟨"EASY", 5, (1, 2), (5, 8), mkRat 7 10, mkRat 5 100, mkRat 7 10, mkRat 13 10, some (mkRat 4 10)⟩
  else if key = "normal" then
    some ⟨"NORMAL", 7, (2, 3), (8, 12), mkRat 1 2, mkRat 1 10, 1, 1, some (mkRat 6 10)⟩
  else if key = "hard" then
    some ⟨"HARD", 9, (3, 4), (12, 16), mkRat 35 100, mkRat 15 100, mkRat 12 10, mkRat 8 10, some (mkRat 8 10)⟩
  else if key = "ninja" then
    some ⟨"NINJA", 11, (4, 5), (16, 20), mkRat 25 100, mkRat 2 10, mkRat 14 10, mkRat 6 10, some (mkRat 1 1)⟩
  else none

/-- `DIFFICULTIES[difficultyKey] || DIFFICULTIES.normal`. -/
def difficultyFor (key : String) : DifficultySettings :=
  (DIFFICULTIES key).getD ⟨"NORMAL", 7, (2, 3), (8, 12), mkRat 1 2, mkRat 1 10, 1, 1, some (mkRat 6 10)⟩

/-! ## The solvability checker (`SolvabilityChecker.ts`) -/

/-- Result record of `checkSolvability` (the presentation-only `debug`
string is omitted). -/
structure SolvabilityResult where
  solvable : Bool
  score : ℚ
  directGold : Nat
  enemyAssistedGold : Nat
  unreachableGold : Nat
  enemyAssistedPositions : List Pos
  deriving DecidableEq, Repr

namespace SolvabilityChecker

/-- `getMaxEnemyAssistedGold`: difficulty-specific ceiling on
enemy-assisted gold (`switch` on the difficulty key). -/
def getMaxEnemyAssistedGold (difficultyKey : String) : Nat :=
  if difficultyKey = "easy" ∨ difficultyKey = "normal" then 0
  else if difficultyKey = "hard" then 1
  else if difficultyKey = "ninja" then 2
  else 0

/-- Checker-level `isClimbable`: the map's climbable tiles, plus the
hidden exit-ladder cells when `includeExit` is set (pass B). -/
def isClimbableC (m : TileMap) (exitSet : List Pos) (includeExit : Bool) (x y : Int) : Bool :=
  if m.isClimbable x y then true
  else if includeExit then exitSet.contains ⟨x, y⟩
  else false

/-- Checker-level `hasSupport`. -/
def hasSupportC (m : TileMap) (exitSet : List Pos) (includeExit : Bool) (x y : Int) : Bool :=
  if isClimbableC m exitSet includeExit x y then true
  else if m.isBar x y then true
  else if y + 1 ≥ (m.height : Int) then true
  else if includeExit ∧ exitSet.contains ⟨x, y + 1⟩ then true
  else m.isSupport x (y + 1)

/-- `canEnter`: in bounds and not a solid brick.  The enemy variant
`canEnemyEnter` of the source is the identical test. -/
def canEnter (m : TileMap) (x y : Int) : Bool :=
  if x < 0 ∨ x ≥ (m.width : Int) ∨ y < 0 ∨ y ≥ (m.height : Int) then false
  else
    let tile := m.getTile x y
    tile ≠ TileT.BRICK ∧ tile ≠ TileT.BRICK_HARD ∧ tile ≠ TileT.BRICK_TRAP

/-- The falling simulation of `addFallDestination`: starting at `(x, y)`,
descend while no ladder/bar/support/solid stops the fall, and return the
resting row.  The fuel is an upper bound on the remaining descent; the
enemy variant `addEnemyFallDestination` is the identical loop with
`includeExit = false`. -/
def fallY (m : TileMap) (exitSet : List Pos) (includeExit : Bool) (x : Int) :
    Nat → Int → Int
  | 0, y => y
  | fuel + 1, y =>
    if y < (m.height : Int) - 1 then
      if isClimbableC m exitSet includeExit x y then y
      else if m.isBar x y then y
      else if m.isSupport x (y + 1) then y
      else if m.isSolid x (y + 1) then y
      else fallY m exitSet includeExit x fuel (y + 1)
    else y

/-- `getReachableNeighbors` (player variant, with dig-assisted edges). -/
def getReachableNeighbors (m : TileMap) (exitSet : List Pos) (includeExit : Bool)
    (pos : Pos) : List Pos :=
  let x := pos.x
  let y := pos.y
  let fuel := m.height
  let onLadder := isClimbableC m exitSet includeExit x y
  let onBar := m.isBar x y
  let hasSupport := hasSupportC m exitSet includeExit x y
  let canMove := onLadder || onBar || hasSupport
  (if canMove ∧ canEnter m (x - 1) y then
    [⟨x - 1, fallY m exitSet includeExit (x - 1) fuel y⟩] else []) ++
  (if canMove ∧ canEnter m (x + 1) y then
    [⟨x + 1, fallY m exitSet includeExit (x + 1) fuel y⟩] else []) ++
  (if onLadder ∧ canEnter m x (y - 1) then [⟨x, y - 1⟩] else []) ++
  (if (onLadder ∨ isClimbableC m exitSet includeExit x (y + 1)) ∧ canEnter m x (y + 1) then
    [⟨x, y + 1⟩] else []) ++
  (if canMove ∧ m.canDig (x - 1) (y + 1) then
    [⟨x - 1, fallY m exitSet includeExit (x - 1) fuel (y + 1)⟩] else []) ++
  (if canMove ∧ m.canDig (x + 1) (y + 1) then
    [⟨x + 1, fallY m exitSet includeExit (x + 1) fuel (y + 1)⟩] else [])

/-- `getEnemyReachableNeighbors` (restricted variant: no dig edges, no
exit-ladder awareness). -/
def getEnemyReachableNeighbors (m : TileMap) (pos : Pos) : List Pos :=
  let x := pos.x
  let y := pos.y
  let fuel := m.height
  let onLadder := m.isClimbable x y
  let onBar := m.isBar x y
  let hasSupport := hasSupportC m [] false x y
  let canMove := onLadder || onBar || hasSupport
  (if canMove ∧ canEnter m (x - 1) y then [⟨x - 1, fallY m [] false (x - 1) fuel y⟩] else []) ++
  (if canMove ∧ canEnter m (x + 1) y then [⟨x + 1, fallY m [] false (x + 1) fuel y⟩] else []) ++
  (if onLadder ∧ canEnter m x (y - 1) then [⟨x, y - 1⟩] else []) ++
  (if (onLadder ∨ m.isClimbable x (y + 1)) ∧ canEnter m x (y + 1) then [⟨x, y + 1⟩] else [])

/-- Work-list BFS: pop the queue head, mark-and-enqueue unvisited
neighbors.  Visited entries are kept in insertion order, like the
`Set` of the source.  The fuel bounds the number of pops; callers pass at
least one more than the number of positions that can ever be enqueued. -/
def bfsGo (neighbors : Pos → List Pos) : Nat → List Pos → List Pos → List Pos
  | 0, _, visited => visited
  | _ + 1, [], visited => visited
  | fuel + 1, cur :: queue, visited =>
    let step := (neighbors cur).foldl
      (fun (acc : List Pos × List Pos) nxt =>
        if acc.1.contains nxt then acc else (acc.1 ++ [nxt], acc.2 ++ [nxt]))
      (visited, queue)
    bfsGo neighbors fuel step.2 step.1

/-- `findAllReachable`: BFS from one start with the player movement
model. -/
def findAllReachable (m : TileMap) (exitSet : List Pos) (includeExit : Bool)
    (start : Pos) : List Pos :=
  bfsGo (getReachableNeighbors m exitSet includeExit)
    (m.width * m.height + 2) [start] [start]

/-- `findAllEnemyReachable`: BFS from one start with the restricted
movement model. -/
def findAllEnemyReachable (m : TileMap) (start : Pos) : List Pos :=
  bfsGo (getEnemyReachableNeighbors m) (m.width * m.height + 2) [start] [start]

/-- `computeEnemySpawnPositions`: top-row (rows 0-4) ladder/empty/pole
cells, then the initial enemy starts not already present. -/
def computeEnemySpawnPositions (m : TileMap) : List Pos :=
  let primary := (List.range 5).foldl
    (fun acc y => acc ++ (List.range m.width).filterMap
      (fun xn =>
        let x : Int := xn
        let yi : Int := y
        let tile := m.getTile x yi
        if tile = TileT.LADDER ∨ tile = TileT.LADDER_EXIT ∨
            tile = TileT.EMPTY ∨ tile = TileT.POLE then
          some ⟨x, yi⟩
        else none))
    []
  m.enemyStarts.foldl
    (fun spawns start =>
      if spawns.any (fun s => s.x = start.x ∧ s.y = start.y) then spawns
      else spawns ++ [start])
    primary

/-- `computeEnemyReachablePositions`: multi-source BFS from all spawn
positions with the restricted movement model. -/
def computeEnemyReachablePositions (m : TileMap) (spawns : List Pos) : List Pos :=
  let seed := spawns.foldl
    (fun (acc : List Pos × List Pos) spawn =>
      if acc.1.contains spawn then acc else (acc.1 ++ [spawn], acc.2 ++ [spawn]))
    ([], [])
  bfsGo (getEnemyReachableNeighbors m) (m.width * m.height + spawns.length + 1) seed.2 seed.1

/-- The `deliveryTileCount` loop of `canEnemyDeliverGold`: count
player-reachable cells also enemy-reachable from the gold, breaking out
once three are found. -/
def deliveryCountGo (enemyPathFromGold : List Pos) : List Pos → Nat → Nat
  | [], acc => acc
  | k :: ks, acc =>
    if enemyPathFromGold.contains k then
      if acc + 1 ≥ 3 then acc + 1
      else deliveryCountGo enemyPathFromGold ks (acc + 1)
    else deliveryCountGo enemyPathFromGold ks acc

/-- `canEnemyDeliverGold`: the gold must be enemy-reachable, and the
restricted-reachable set from the gold's own cell must meet the
player-reachable set in at least two cells. -/
def canEnemyDeliverGold (m : TileMap) (goldPos : Pos)
    (playerReachable enemyReachable : List Pos) : Bool :=
  if ¬ enemyReachable.contains goldPos then false
  else
    let enemyPathFromGold := findAllEnemyReachable m goldPos
    let hasDeliveryPath := playerReachable.any (fun k => enemyPathFromGold.contains k)
    if ¬ hasDeliveryPath then false
    else deliveryCountGo enemyPathFromGold playerReachable 0 ≥ 2

/-- The per-item classification performed by the gold loop of
`checkSolvability`. -/
inductive GoldClass where
  | direct
  | assisted
  | unreachable
  deriving DecidableEq, Repr

/-- Classification of one gold item, mirroring the branch structure of
the gold loop in `checkSolvability`. -/
def classifyGold (m : TileMap) (playerReachable enemyReachable : List Pos)
    (gold : Pos) : GoldClass :=
  if playerReachable.contains gold then .direct
  else if enemyReachable.contains gold ∧
      canEnemyDeliverGold m gold playerReachable enemyReachable then .assisted
  else .unreachable

/-- The Pass-A player-reachable set (exit ladders treated as ordinary
terrain). -/
def playerReachableSet (m : TileMap) : List Pos :=
  findAllReachable m m.exitLadders false m.playerStart

/-- The enemy-reachable set from all plausible spawn cells. -/
def enemyReachableSet (m : TileMap) : List Pos :=
  computeEnemyReachablePositions m (computeEnemySpawnPositions m)

/-- The Pass-B reachable set (exit ladders climbable). -/
def reachableWithExitSet (m : TileMap) : List Pos :=
  findAllReachable m m.exitLadders true m.playerStart

/-- The exit-reachability block of `checkSolvability`: some exit column
has its row-0 cell, or any of its exit-ladder cells, in the Pass-B
reachable set. -/
def exitReachableB (m : TileMap) : Bool :=
  let reachableWithExit := reachableWithExitSet m
  let exitColumns := (m.exitLadders.map (·.x)).dedup
  exitColumns.any fun col =>
    reachableWithExit.contains ⟨col, 0⟩ ||
    ((m.exitLadders.filter (fun e => e.x = col)).any fun e =>
      reachableWithExit.contains ⟨e.x, e.y⟩)

/-- `checkSolvability`, as a function of the configured difficulty key
and the grid.  The gold loop's three counters are the number of items in
each class; `enemyAssistedPositions` collects the assisted items in list
order. -/
def checkSolvability (difficultyKey : String) (m : TileMap) : SolvabilityResult :=
  if m.goldPositions.length = 0 then
    { solvable := false, score := 0, directGold := 0, enemyAssistedGold := 0,
      unreachableGold := 0, enemyAssistedPositions := [] }
  else if m.exitLadders.length = 0 then
    { solvable := false, score := 0, directGold := 0, enemyAssistedGold := 0,
      unreachableGold := 0, enemyAssistedPositions := [] }
  else
    let playerReachable := playerReachableSet m
    let enemyReachable := enemyReachableSet m
    let directGold := (m.goldPositions.filter
      (fun g => classifyGold m playerReachable enemyReachable g = .direct)).length
    let enemyAssistedGold := (m.goldPositions.filter
      (fun g => classifyGold m playerReachable enemyReachable g = .assisted)).length
    let unreachableGold := (m.goldPositions.filter
      (fun g => classifyGold m playerReachable enemyReachable g = .unreachable)).length
    let enemyAssistedPositions := m.goldPositions.filter
      (fun g => classifyGold m playerReachable enemyReachable g = .assisted)
    let exitReachable := exitReachableB m
    let totalGold := m.goldPositions.length
    let collectableGold := directGold + enemyAssistedGold
    let goldScore : ℚ := (collectableGold : ℚ) / (totalGold : ℚ)
    let exitScore : ℚ := if exitReachable then 1 else 0
    let score := goldScore * exitScore
    let maxEnemyAssisted := getMaxEnemyAssistedGold difficultyKey
    let solvable := collectableGold = totalGold ∧
      enemyAssistedGold ≤ maxEnemyAssisted ∧ exitReachable
    { solvable := solvable, score := score, directGold := directGold,
      enemyAssistedGold := enemyAssistedGold, unreachableGold := unreachableGold,
      enemyAssistedPositions := enemyAssistedPositions }

/-- `isSolvable` wrapper. -/
def isSolvable (difficultyKey : String) (m : TileMap) : Bool :=
  (checkSolvability difficultyKey m).solvable

end SolvabilityChecker

/-- The checker object's mutable fields (`exitLadderPositions`,
`includeExitLadders`, `difficultyKey`).  `checkSolvability` overwrites the
first before any use and the second before any use in its main path, so
its result can only depend on `difficultyKey` and the grid; the stateful
wrapper below records the field writes. -/
structure CheckerState where
  exitLadderPositions : List Pos
  includeExitLadders : Bool
  difficultyKey : String
  deriving DecidableEq, Repr

/-- Stateful `checkSolvability` call on a checker object: returns the
result together with the checker state after the call (the early returns
leave `includeExitLadders` untouched; the main path leaves it `true`
after pass B). -/
def checkSolvabilityS (s : CheckerState) (m : TileMap) :
    SolvabilityResult × CheckerState :=
  (SolvabilityChecker.checkSolvability s.difficultyKey m,
   { s with
     exitLadderPositions := m.exitLadders
     includeExitLadders :=
       if m.goldPositions.length = 0 ∨ m.exitLadders.length = 0 then
         s.includeExitLadders
       else true })

/-! ## The level generator (`LevelGenerator.ts`)

Every stage threads the `SeededRandom` state (a `Nat`) explicitly;
`(value, state)` tuples replace the source's in-object mutation.  Loops
with early exits become `find?`/fueled recursion; `for` loops become
folds over index ranges. -/

/-- Closed integer interval `[lo, hi]` (empty when `hi < lo`). -/
def intRange (lo hi : Int) : List Int :=
  (List.range (hi + 1 - lo).toNat).map fun i => lo + i

namespace LevelGenerator

open SeededRandom (next range chance chanceOpt pick shuffle)

/-- Step 1, `createGround`: solid bottom row. -/
def createGround (m : TileMap) : TileMap :=
  let y : Int := (m.height : Int) - 1
  (List.range m.width).foldl (fun mm x => mm.setTile (x : Int) y TileT.BRICK) m

/-- `extendLadderDown` descent loop: place ladder cells downward until a
hard brick stops it or a soft/trap brick is converted into the access
point (except on the ground row). -/
def extendLadderDownGo (x : Int) : Nat → TileMap → Int → TileMap
  | 0, m, _ => m
  | fuel + 1, m, y =>
    if y < (m.height : Int) then
      let tile := m.getTile x y
      if tile = TileT.BRICK_HARD then m
      else if tile = TileT.BRICK ∨ tile = TileT.BRICK_TRAP then
        if y < (m.height : Int) - 1 then m.setTile x y TileT.LADDER else m
      else extendLadderDownGo x fuel (m.setTile x y TileT.LADDER) (y + 1)
    else m

/-- `extendLadderDown`. -/
def extendLadderDown (m : TileMap) (x fromRow : Int) : TileMap :=
  extendLadderDownGo x ((m.height : Int) - fromRow).toNat m fromRow

/-- Step 2, `createMainSpine`: the full-height ladder corridor, optionally
zig-zagging for high complexity. -/
def createMainSpine (dif : DifficultySettings) (m : TileMap) (st : Nat) :
    TileMap × Nat :=
  let complexity := dif.complexity.getD (mkRat 6 10)
  let (spineX0, st) := range st (m.width / 4) (m.width * 3 / 4)
  let (zigzag, st) :=
    if complexity > mkRat 1 2 then
      let (k, st') := next st
      (decide (mkRat k 4294967296 < complexity), st')
    else (false, st)
  let (zigzagInterval, st) := if zigzag then range st 3 5 else (999, st)
  let res := (List.range' 4 (m.height - 1 - 4)).foldl
    (fun (acc : TileMap × Int × Nat) yn =>
      let (mm, spineX, st) := acc
      let y : Int := yn
      let mm := mm.setTile spineX y TileT.LADDER
      if zigzag ∧ yn > 0 ∧ yn % zigzagInterval = 0 ∧ y < (m.height : Int) - 3 then
        let (sh, st) := range st 2 5
        let (k, st) := next st
        let shift : Int := (sh : Int) * (if mkRat k 4294967296 < mkRat 1 2 then -1 else 1)
        let newX : Int := max 2 (min ((m.width : Int) - 3) (spineX + shift))
        let mm := (intRange (min spineX newX) (max spineX newX)).foldl
          (fun m2 x =>
            if m2.getTile x y = TileT.EMPTY then m2.setTile x y TileT.LADDER else m2)
          mm
        (mm, newX, st)
      else (mm, spineX, st))
    (m, (spineX0 : Int), st)
  (res.1, res.2.2)

/-- One platform row of step 3, `createPlatformWithLadders`: gapped brick
segments, density-scaled segment ladders, and a forced connection to a
ladder column of the previous band. -/
def createPlatformWithLadders (dif : DifficultySettings) (m : TileMap)
    (row : Int) (connectFrom : List Int) (st : Nat) :
    (List Int × TileMap × Nat) :=
  let complexity := dif.complexity.getD (mkRat 6 10)
  let minSegments := (mkRat 2 1 + complexity).floor.toNat
  let maxSegments := (mkRat 3 1 + complexity * mkRat 3 1).floor.toNat
  let (numSegments, st) := range st minSegments (maxSegments + 1)
  let segmentWidth := m.width / numSegments
  let segs := (List.range numSegments).foldl
    (fun (acc : TileMap × List Int × Nat) seg =>
      let (mm, lps, st) := acc
      let (r0, st) := range st 0 3
      let startX : Int := (seg * segmentWidth + r0 : Nat)
      let (r1, st) := range st 4 segmentWidth
      let endX : Int := min (startX + (r1 : Int)) ((m.width : Int) - 1)
      if seg > 0 ∧ startX < (seg * segmentWidth + 2 : Nat) then (mm, lps, st)
      else
        let mm := (intRange startX endX).foldl
          (fun m2 x => m2.setTile x row TileT.BRICK) mm
        let (k, st) := next st
        if mkRat k 4294967296 < dif.ladderDensity then
          let (r2, st) := range st 1 (max 2 (endX - startX - 1).toNat)
          let ladderX := startX + (r2 : Int)
          if startX ≤ ladderX ∧ ladderX ≤ endX then
            (extendLadderDown mm ladderX row, lps ++ [ladderX], st)
          else (mm, lps, st)
        else (mm, lps, st))
    (m, [], st)
  let (mm, ladderPositions, st) := segs
  if connectFrom.length > 0 then
    let (targetX, st) := pick st connectFrom
    let res := (List.range 5).foldl
      (fun (acc : TileMap × List Int) dxn =>
        let (m2, lps) := acc
        let dx : Int := dxn
        match [dx, -dx].find? (fun off =>
            let x := targetX + off
            0 ≤ x ∧ x < (m.width : Int) ∧ m2.getTile x row = TileT.BRICK) with
        | some off =>
          let x := targetX + off
          let m3 := extendLadderDown m2 x row
          (m3, if lps.contains x then lps else lps ++ [x])
        | none => (m2, lps))
      (mm, ladderPositions)
    (res.2, res.1, st)
  else (ladderPositions, mm, st)

/-- Step 3, `createConnectedPlatforms`: complexity-scaled platform bands,
each chained by ladder to the previous band. -/
def createConnectedPlatforms (dif : DifficultySettings) (m : TileMap) (st : Nat) :
    TileMap × Nat :=
  let h : Int := m.height
  let platformRows : List Int := [h - 4, h - 7, h - 10, 3, h - 13]
  let complexity := dif.complexity.getD (mkRat 6 10)
  let numPlatforms := (mkRat 1 1 + complexity * mkRat 4 1).floor.toNat
  let activePlatforms := platformRows.take (min numPlatforms platformRows.length)
  let res := activePlatforms.foldl
    (fun (acc : TileMap × List Int × Nat) row =>
      let (mm, prev, st) := acc
      let (lps, mm, st) := createPlatformWithLadders dif mm row prev st
      (mm, lps, st))
    (m, [], st)
  (res.1, res.2.2)

/-- Step 4, `addExtraLadders`: density-scaled stub ladders on platform
tops. -/
def addExtraLadders (dif : DifficultySettings) (m : TileMap) (st : Nat) :
    TileMap × Nat :=
  let extraLadders := (dif.ladderDensity * mkRat 10 1).floor.toNat
  (List.range extraLadders).foldl
    (fun (acc : TileMap × Nat) _ =>
      let (mm, st) := acc
      let (xn, st) := range st 2 (m.width - 2)
      let x : Int := xn
      match (List.range' 2 (m.height - 4)).find? (fun yn =>
          mm.getTile x (yn : Int) = TileT.BRICK ∧
            mm.getTile x ((yn : Int) - 1) = TileT.EMPTY) with
      | some yn => (extendLadderDown mm x ((yn : Int) - 1), st)
      | none => (mm, st))
    (m, st)

/-- A maximal run of walkable surface cells, recorded at the row above
its surface (`createPoles`). -/
structure Platform where
  y : Int
  startX : Int
  endX : Int
  deriving DecidableEq, Repr, Inhabited

/-- `isWalkableSurface`. -/
def isWalkableSurface (m : TileMap) (x y : Int) : Bool :=
  if y ≥ (m.height : Int) then false
  else
    let tile := m.getTile x y
    tile = TileT.BRICK ∨ tile = TileT.BRICK_HARD ∨ tile = TileT.BRICK_TRAP ∨
      tile = TileT.LADDER

/-- The platform-segment scan of `createPoles`. -/
def findPlatforms (m : TileMap) : List Platform :=
  (List.range' 1 (m.height - 2)).foldl
    (fun acc yn =>
      let y : Int := yn
      let inner := (List.range m.width).foldl
        (fun (a : List Platform × Option Int) xn =>
          let x : Int := xn
          let (ps, start) := a
          if isWalkableSurface m x y then
            match start with
            | none => (ps, some x)
            | some s => (ps, some s)
          else
            match start with
            | none => (ps, none)
            | some s => (ps ++ [⟨y - 1, s, x - 1⟩], none))
        (acc, none)
      match inner.2 with
      | some s => inner.1 ++ [⟨y - 1, s, (m.width : Int) - 1⟩]
      | none => inner.1)
    []

/-- The inward scan of the secondary pole loop: look up to eight cells in
the given direction for a landing spot, stopping at walls or
non-empty/non-pole cells. -/
def poleScanGo (m : TileMap) (y dir : Int) (x : Int) : Nat → Int → Option Int
  | 0, _ => none
  | fuel + 1, dx =>
    if dx > 8 then none
    else
      let checkX := x + dir * dx
      if checkX < 0 ∨ checkX ≥ (m.width : Int) then none
      else
        let tile := m.getTile checkX y
        if tile ≠ TileT.EMPTY ∧ tile ≠ TileT.POLE then none
        else
          let below := m.getTile checkX (y + 1)
          if below = TileT.BRICK ∨ below = TileT.BRICK_HARD ∨ below = TileT.LADDER then
            some checkX
          else poleScanGo m y dir x fuel (dx + 1)

/-- Step 5, `createPoles`: bridge same-height platform pairs over genuine
drop zones, then extend poles from ladders toward nearby landings. -/
def createPoles (dif : DifficultySettings) (m : TileMap) (st : Nat) :
    TileMap × Nat :=
  let platforms := findPlatforms m
  let connectionChance : Option ℚ := dif.complexity.map fun c => mkRat 1 2 + c * mkRat 3 10
  -- first loop: all platform pairs (i, j) with i < j
  let first := (List.range platforms.length).foldl
    (fun (acc : TileMap × List Platform × Nat) i =>
      (List.range' (i + 1) (platforms.length - (i + 1))).foldl
        (fun (acc2 : TileMap × List Platform × Nat) j =>
          let (mm, polesCreated, st) := acc2
          let p1 := platforms.getD i default
          let p2 := platforms.getD j default
          if p1.y ≠ p2.y then (mm, polesCreated, st)
          else
            let leftPlatform := if p1.endX < p2.startX then p1 else p2
            let rightPlatform := if p1.endX < p2.startX then p2 else p1
            let gapStart := leftPlatform.endX + 1
            let gapEnd := rightPlatform.startX - 1
            let gapLength := gapEnd - gapStart + 1
            if gapLength < 3 ∨ gapLength > 15 then (mm, polesCreated, st)
            else
              let pathClear := (intRange gapStart gapEnd).all fun x =>
                let tile := mm.getTile x p1.y
                tile = TileT.EMPTY ∨ tile = TileT.GOLD
              if ¬ pathClear then (mm, polesCreated, st)
              else
                let hasDropZone := (intRange gapStart gapEnd).any fun x =>
                  let below := mm.getTile x (p1.y + 1)
                  ¬(below = TileT.BRICK ∨ below = TileT.BRICK_HARD ∨
                    below = TileT.BRICK_TRAP)
                if ¬ hasDropZone then (mm, polesCreated, st)
                else
                  let overlaps := polesCreated.any fun e =>
                    e.y = p1.y ∧ ¬(gapEnd < e.startX ∨ gapStart > e.endX)
                  if overlaps then (mm, polesCreated, st)
                  else
                    let (go, st) := chanceOpt st connectionChance
                    if go then
                      let mm := (intRange leftPlatform.endX rightPlatform.startX).foldl
                        (fun m2 x =>
                          if m2.getTile x p1.y = TileT.EMPTY then
                            m2.setTile x p1.y TileT.POLE
                          else m2)
                        mm
                      (mm, polesCreated ++
                        [⟨p1.y, leftPlatform.endX, rightPlatform.startX⟩], st)
                    else (mm, polesCreated, st))
        acc)
    (m, [], st)
  let (m1, _, st) := first
  -- second loop: poles from ladders toward isolated landings
  let second := (List.range' 2 (m.height - 5)).foldl
    (fun (accY : TileMap × Nat) yn =>
      (List.range' 2 (m.width - 4)).foldl
        (fun (accX : TileMap × Nat) xn =>
          let (mm, st) := accX
          let x : Int := xn
          let y : Int := yn
          if mm.getTile x y ≠ TileT.LADDER then (mm, st)
          else
            [(-1 : Int), 1].foldl
              (fun (accD : TileMap × Nat) dir =>
                let (m2, st) := accD
                match poleScanGo m2 y dir x 9 1 with
                | some targetX =>
                  if 3 ≤ (targetX - x).natAbs then
                    let needsPole := (intRange (min x targetX) (max x targetX)).any
                      fun cx =>
                        let below := m2.getTile cx (y + 1)
                        ¬(below = TileT.BRICK ∨ below = TileT.BRICK_HARD ∨
                          below = TileT.LADDER)
                    if needsPole then
                      let (go, st) := chance st (mkRat 35 100)
                      if go then
                        let m3 := (intRange (min x targetX) (max x targetX)).foldl
                          (fun m4 fillX =>
                            if m4.getTile fillX y = TileT.EMPTY then
                              m4.setTile fillX y TileT.POLE
                            else m4)
                          m2
                        (m3, st)
                      else (m2, st)
                    else (m2, st)
                  else (m2, st)
                | none => (m2, st))
              (mm, st))
        accY)
    (m1, st)
  second

/-- Step 6, `addHardBricks`: sparse conversion of soft bricks to
indestructible ones. -/
def addHardBricks (m : TileMap) (st : Nat) : TileMap × Nat :=
  (List.range' 1 (m.height - 2)).foldl
    (fun (accY : TileMap × Nat) yn =>
      (List.range m.width).foldl
        (fun (acc : TileMap × Nat) xn =>
          let (mm, st) := acc
          let x : Int := xn
          let y : Int := yn
          if mm.getTile x y = TileT.BRICK then
            let (go, st) := chance st (mkRat 5 100)
            if go then (mm.setTile x y TileT.BRICK_HARD, st) else (mm, st)
          else (mm, st))
        accY)
    (m, st)

/-- Step 7, `addTrapBricks`: probabilistic trap conversion, skipped when
the cell below is a ladder. -/
def addTrapBricks (dif : DifficultySettings) (m : TileMap) (st : Nat) :
    TileMap × Nat :=
  (List.range' 1 (m.height - 2)).foldl
    (fun (accY : TileMap × Nat) yn =>
      (List.range m.width).foldl
        (fun (acc : TileMap × Nat) xn =>
          let (mm, st) := acc
          let x : Int := xn
          let y : Int := yn
          if mm.getTile x y = TileT.BRICK then
            let (go, st) := chance st dif.trapBrickChance
            if go then
              if mm.getTile x (y + 1) = TileT.LADDER then (mm, st)
              else (mm.setTile x y TileT.BRICK_TRAP, st)
            else (mm, st)
          else (mm, st))
        accY)
    (m, st)

/-- The `while` of step 8 that walks to the top cell of a ladder run. -/
def ladderTopGo (m : TileMap) (x : Int) : Nat → Int → Int
  | 0, t => t
  | fuel + 1, t =>
    if t > 0 ∧ (m.getTile x (t - 1) = TileT.LADDER ∨
        m.getTile x (t - 1) = TileT.LADDER_EXIT) then
      ladderTopGo m x fuel (t - 1)
    else t

/-- One column of step 8 (`x` iteration of `ensureLadderAccessibility`):
clear bricks boxing in ladder cells or ladder tops with no side access.
The first argument only supplies the fixed loop bounds (`width`/`height`
never change during the stage). -/
def elaCol (m : TileMap) (accX : TileMap) (xn : Nat) : TileMap :=
  (List.range' 1 (m.height - 2)).foldl
        (fun mm (yn : Nat) =>
          let x : Int := xn
          let y : Int := yn
          let tile := mm.getTile x y
          if tile = TileT.LADDER ∨ tile = TileT.LADDER_EXIT then
            let mm :=
              let above := mm.getTile x (y - 1)
              if above = TileT.BRICK ∨ above = TileT.BRICK_TRAP then
                let leftClear := x > 0 ∧ ¬ mm.isSolid (x - 1) y
                let rightClear := x < (m.width : Int) - 1 ∧ ¬ mm.isSolid (x + 1) y
                if ¬ leftClear ∧ ¬ rightClear then mm.setTile x (y - 1) TileT.EMPTY
                else mm
              else mm
            let ladderTop := ladderTopGo mm x (yn + 1) y
            if ladderTop = 0 then mm
            else
              let aboveTop := mm.getTile x (ladderTop - 1)
              if aboveTop = TileT.BRICK ∨ aboveTop = TileT.BRICK_HARD ∨
                  aboveTop = TileT.BRICK_TRAP then
                let leftAccessible := x > 0 ∧ ¬ mm.isSolid (x - 1) ladderTop ∧
                  mm.isSupport (x - 1) (ladderTop + 1)
                let rightAccessible := x < (m.width : Int) - 1 ∧
                  ¬ mm.isSolid (x + 1) ladderTop ∧ mm.isSupport (x + 1) (ladderTop + 1)
                if ¬ leftAccessible ∧ ¬ rightAccessible then
                  mm.setTile x (ladderTop - 1) TileT.EMPTY
                else mm
              else mm
          else mm)
        accX

/-- Step 8, `ensureLadderAccessibility`: the column loop. -/
def ensureLadderAccessibility (m : TileMap) : TileMap :=
  (List.range m.width).foldl (elaCol m) m

/-- The bounded random scan of step 9, `placePlayer`. -/
def placePlayerGo (m : TileMap) (groundY : Int) : Nat → Nat → Option Pos × Nat
  | 0, st => (none, st)
  | att + 1, st =>
    let (xn, st) := range st 2 (m.width - 2)
    let x : Int := xn
    if m.getTile x groundY = TileT.EMPTY ∨ m.getTile x groundY = TileT.LADDER then
      (some ⟨x, groundY⟩, st)
    else placePlayerGo m groundY att st

/-- Step 9, `placePlayer`: random walkable ground cell, then first
non-solid ground cell, then the fixed fallback column. -/
def placePlayer (m : TileMap) (st : Nat) : TileMap × Nat :=
  let groundY : Int := (m.height : Int) - 2
  match placePlayerGo m groundY 20 st with
  | (some p, st) => ({ m with playerStart := p }, st)
  | (none, st) =>
    match (List.range' 1 (m.width - 2)).find?
        (fun xn => ¬ m.isSolid (xn : Int) groundY) with
    | some xn => ({ m with playerStart := ⟨xn, groundY⟩ }, st)
    | none => ({ m with playerStart := ⟨2, groundY⟩ }, st)

/-- `isValidGoldSpot`: empty cell with stand-on support below. -/
def isValidGoldSpot (m : TileMap) (x y : Int) : Bool :=
  if m.getTile x y ≠ TileT.EMPTY then false
  else
    let below := m.getTile x (y + 1)
    below = TileT.BRICK ∨ below = TileT.BRICK_HARD ∨ below = TileT.LADDER ∨
      below = TileT.BRICK_TRAP

/-- Step 10, `placeGold`: shuffled valid spots, spaced placement first,
then fill the remainder anywhere. -/
def placeGold (dif : DifficultySettings) (m : TileMap) (st : Nat) :
    TileMap × Nat :=
  let (goldCount, st) := range st dif.gold.1 (dif.gold.2 + 1)
  let validSpots₀ := (List.range' 1 (m.height - 2)).foldl
    (fun acc yn => acc ++ (List.range m.width).filterMap
      (fun xn =>
        if isValidGoldSpot m (xn : Int) (yn : Int) then some (⟨xn, yn⟩ : Pos)
        else none))
    []
  let (validSpots, st) := shuffle st validSpots₀
  let pass1 := validSpots.foldl
    (fun (acc : TileMap × List Pos) spot =>
      let (mm, placed) := acc
      if placed.length ≥ goldCount then acc
      else if placed.any (fun p =>
          (p.x - spot.x).natAbs + (p.y - spot.y).natAbs < 4) then acc
      else
        let m2 := mm.setTile spot.x spot.y TileT.GOLD
        ({ m2 with goldPositions := m2.goldPositions ++ [spot] }, placed ++ [spot]))
    (m, [])
  let pass2 := validSpots.foldl
    (fun (acc : TileMap × List Pos) spot =>
      let (mm, placed) := acc
      if placed.length ≥ goldCount then acc
      else if placed.any (fun p => p.x = spot.x ∧ p.y = spot.y) then acc
      else
        let m2 := mm.setTile spot.x spot.y TileT.GOLD
        ({ m2 with goldPositions := m2.goldPositions ++ [spot] }, placed ++ [spot]))
    pass1
  (pass2.1, st)

/-- `isValidEnemySpot`: empty or ladder cell with support below. -/
def isValidEnemySpot (m : TileMap) (x y : Int) : Bool :=
  let tile := m.getTile x y
  if tile ≠ TileT.EMPTY ∧ tile ≠ TileT.LADDER then false
  else
    let below := m.getTile x (y + 1)
    below = TileT.BRICK ∨ below = TileT.BRICK_HARD ∨ below = TileT.LADDER

/-- Step 11, `placeEnemies`: difficulty- and level-scaled enemy count on
shuffled valid spots, far from the start and spaced out.  (The level
index is 1-based, as in the claims; the embedding uses natural
subtraction in the level bonus.) -/
def placeEnemies (dif : DifficultySettings) (difficultyKey : String)
    (levelNumber : Nat) (m : TileMap) (st : Nat) : TileMap × Nat :=
  let levelBonus := (levelNumber - 1) / 5
  let maxCap : Nat :=
    if difficultyKey = "easy" then 4
    else if difficultyKey = "normal" then 5
    else if difficultyKey = "hard" then 6
    else if difficultyKey = "ninja" then 7
    else 5
  let minEnemies := min (dif.enemies.1 + levelBonus) (maxCap - 1)
  let maxEnemies := min (dif.enemies.2 + levelBonus) maxCap
  let (enemyCount, st) := range st minEnemies (maxEnemies + 1)
  let validSpots₀ := (List.range (m.height - 1)).foldl
    (fun acc yn => acc ++ (List.range m.width).filterMap
      (fun xn =>
        if isValidEnemySpot m (xn : Int) (yn : Int) then
          let dist := ((xn : Int) - m.playerStart.x).natAbs +
            ((yn : Int) - m.playerStart.y).natAbs
          if dist > 8 then some (⟨xn, yn⟩ : Pos) else none
        else none))
    []
  let (validSpots, st) := shuffle st validSpots₀
  let placed := validSpots.foldl
    (fun (starts : List Pos) spot =>
      if starts.length ≥ enemyCount then starts
      else if starts.any (fun e => e.x = spot.x ∧ e.y = spot.y) then starts
      else if starts.any (fun e =>
          (e.x - spot.x).natAbs + (e.y - spot.y).natAbs < 3) then starts
      else starts ++ [spot])
    m.enemyStarts
  ({ m with enemyStarts := placed }, st)

/-- An exit-column candidate of step 12. -/
structure ExitCandidate where
  x : Int
  topY : Int
  deriving DecidableEq, Repr, Inhabited

/-- The inner `x` loop of the hidden-zone clearing pass of step 12:
replace any ordinary ladder tile at `(x, yn)`, `x < k`, with an empty
cell. -/
def clearCols (accY : TileMap) (yn : Nat) (k : Nat) : TileMap :=
  (List.range k).foldl
    (fun mm (xn : Nat) =>
      if mm.getTile (xn : Int) (yn : Int) = TileT.LADDER then
        mm.setTile (xn : Int) (yn : Int) TileT.EMPTY
      else mm)
    accY

/-- The second half of step 12, after the hidden zone has been cleared:
pick a ladder column with a clear hidden path (or force the center
column), and record its four hidden-zone cells as exit-ladder metadata
without writing ladder tiles there. -/
def pickExit (m : TileMap) (st : Nat) : TileMap × Nat :=
  -- candidate ladder columns with a clear hidden-zone path
  let exitCandidates : List ExitCandidate := (List.range' 2 (m.width - 4)).foldl
    (fun acc xn =>
      let x : Int := xn
      let pathClear := (List.range 4).all fun yn =>
        let tile := m.getTile x (yn : Int)
        ¬(tile = TileT.POLE ∨ tile = TileT.BRICK ∨ tile = TileT.BRICK_HARD ∨
          tile = TileT.BRICK_TRAP)
      if ¬ pathClear then acc
      else
        match (List.range' 4 3).find? (fun yn => m.getTile x (yn : Int) = TileT.LADDER) with
        | some yn => acc ++ [⟨x, (yn : Int)⟩]
        | none => acc)
    []
  let exitCandidates := exitCandidates.mergeSort (fun a b => a.topY ≤ b.topY)
  if exitCandidates.length > 0 then
    let candidateCount := min 3 exitCandidates.length
    let (pickIdx, st) := range st 0 candidateCount
    let exitX := (exitCandidates.getD pickIdx default).x
    (({ m with exitLadders := m.exitLadders ++
        (List.range 4).map fun yn => (⟨exitX, yn⟩ : Pos) }), st)
  else
    let exitX : Int := m.width / 2
    let m := (List.range' 4 4).foldl
      (fun mm yn =>
        if mm.getTile exitX (yn : Int) ≠ TileT.LADDER then
          mm.setTile exitX (yn : Int) TileT.LADDER
        else mm)
      m
    (({ m with exitLadders := m.exitLadders ++
        (List.range 4).map fun yn => (⟨exitX, yn⟩ : Pos) }), st)

/-- Step 12, `addExitLadders`: clear ordinary ladders from the hidden
zone (rows 0-3), then pick and record the exit column. -/
def addExitLadders (m : TileMap) (st : Nat) : TileMap × Nat :=
  pickExit ((List.range 4).foldl (fun accY yn => clearCols accY yn accY.width) m) st

/-- `generateFallback`: the hand-authored guaranteed-solvable layout. -/
def generateFallback : TileMap :=
  let m := TileMap.new
  let m := (List.range m.width).foldl
    (fun mm xn => mm.setTile (xn : Int) ((mm.height : Int) - 1) TileT.BRICK) m
  let m := (List.range' 3 15).foldl
    (fun mm xn => mm.setTile (xn : Int) 10 TileT.BRICK) m
  let m := (List.range' 10 15).foldl
    (fun mm xn => mm.setTile (xn : Int) 6 TileT.BRICK) m
  let m := (List.range' 10 (m.height - 1 - 10)).foldl
    (fun mm yn => mm.setTile 8 (yn : Int) TileT.LADDER) m
  let m := (List.range' 6 4).foldl
    (fun mm yn => mm.setTile 14 (yn : Int) TileT.LADDER) m
  let m := (List.range' 4 2).foldl
    (fun mm yn => mm.setTile 20 (yn : Int) TileT.LADDER) m
  let m := { m with exitLadders := (List.range 4).map fun yn => (⟨20, yn⟩ : Pos) }
  let m := (List.range' 18 6).foldl
    (fun mm xn => mm.setTile (xn : Int) 10 TileT.POLE) m
  let m := { m with playerStart := ⟨3, (m.height : Int) - 2⟩ }
  let goldSpots : List Pos :=
    [⟨5, 9⟩, ⟨10, 9⟩, ⟨15, 9⟩, ⟨12, 5⟩, ⟨18, 5⟩, ⟨22, 5⟩]
  let m := goldSpots.foldl
    (fun mm spot =>
      let m2 := mm.setTile spot.x spot.y TileT.GOLD
      { m2 with goldPositions := m2.goldPositions ++ [spot] })
    m
  { m with enemyStarts := [⟨22, (m.height : Int) - 2⟩, ⟨16, 9⟩] }

/-- `generateCandidate`: the twelve-stage pipeline on a fresh grid. -/
def generateCandidate (dif : DifficultySettings) (difficultyKey : String)
    (levelNumber : Nat) (st : Nat) : TileMap × Nat :=
  let m := TileMap.new
  let m := createGround m
  let (m, st) := createMainSpine dif m st
  let (m, st) := createConnectedPlatforms dif m st
  let (m, st) := addExtraLadders dif m st
  let (m, st) := createPoles dif m st
  let (m, st) := addHardBricks m st
  let (m, st) := addTrapBricks dif m st
  let m := ensureLadderAccessibility m
  let (m, st) := placePlayer m st
  let (m, st) := placeGold dif m st
  let (m, st) := placeEnemies dif difficultyKey levelNumber m st
  addExitLadders m st

/-- The retry loop of `generate`, by recursion on the remaining attempt
budget (`ih` is the loop continuation for the remaining attempts).  The
generator's checker is constructed without a `setDifficulty` call, so it
scores every candidate under its default key, `normal`. -/
def generateGo (dif : DifficultySettings) (difficultyKey : String)
    (levelNumber : Nat) (attempts : Nat) : Nat → Option TileMap → ℚ → TileMap :=
  Nat.rec
    (fun _st bestMap bestScore =>
      match bestMap with
      | some bm => if bestScore ≥ mkRat 99 100 then bm else generateFallback
      | none => generateFallback)
    (fun _att ih st bestMap bestScore =>
      let p := generateCandidate dif difficultyKey levelNumber st
      let r := SolvabilityChecker.checkSolvability "normal" p.1
      if r.solvable then p.1
      else if r.score > bestScore then ih p.2 (some p.1) r.score
      else ih p.2 bestMap bestScore)
    attempts

/-- The `LevelGenerator` constructor followed by `generate(maxAttempts)`:
seed the random source, look up the difficulty profile (unknown keys fall
back to normal), and run the retry loop. -/
def generate (seed : SeededRandom.Seed) (difficultyKey : String := "normal")
    (levelNumber : Nat := 1) (maxAttempts : Nat := 100) : TileMap :=
  generateGo (difficultyFor difficultyKey) difficultyKey levelNumber
    maxAttempts (SeededRandom.seedInit seed) none (-1)

end LevelGenerator

/-! ## Trace model for the hole lifecycle -/

/-- Restore the original tiles of a list of expired holes, in order. -/
def applyRestores (ws : List Hole) (m : TileMap) : TileMap :=
  ws.foldl (fun mm h => mm.setTile h.x h.y h.originalTile) m

/-- Number of holes of a hole list lying at position `p`. -/
def countPosAt (hs : List Hole) (p : Pos) : Nat :=
  (hs.filter fun h => h.x = p.x ∧ h.y = p.y).length

/-- Number of holes of `m` registered at position `p`. -/
def holeCountAt (m : TileMap) (p : Pos) : Nat :=
  countPosAt m.holes p

/-- Shape well-formedness: the tile matrix really is `height × width`
(guaranteed by the `TileMap` constructor). -/
def WFShape (m : TileMap) : Prop :=
  m.tiles.length = m.height ∧ ∀ row ∈ m.tiles, row.length = m.width

/-- Hole well-formedness: every registered hole sits on a `HOLE` tile
(which also forces it in bounds), and no two registered holes share a
position.  Both facts hold for grids coming out of the generator (no
holes at all) and are preserved by `digHole` / `updateHoles` below. -/
def WFHoles (m : TileMap) : Prop :=
  (∀ h ∈ m.holes, m.getTile h.x h.y = TileT.HOLE) ∧
  m.holes.Pairwise fun h1 h2 => ¬(h1.x = h2.x ∧ h1.y = h2.y)

/-- Combined grid well-formedness. -/
def WF (m : TileMap) : Prop := WFShape m ∧ WFHoles m

/-- Invariant carried through the generator pipeline up to the exit
stage: the matrix keeps its shape, no stage records exit-ladder metadata
before `addExitLadders`, and no stage ever writes a hidden exit-ladder
tile into the grid. -/
def GenInv (m : TileMap) : Prop :=
  WFShape m ∧ m.exitLadders = [] ∧
    ∀ x y : Int, m.getTile x y ≠ TileT.LADDER_EXIT

/-- The exit-placement invariant every grid leaving the generator
satisfies: the metadata list holds exactly the four hidden-zone cells of
one column, and no cell of rows 0-3 holds an ordinary or exit ladder
tile (so in particular the metadata cells are never written as ladder
tiles). -/
def ExitInvariant (m : TileMap) : Prop :=
  (∃ x : Int, m.exitLadders = [⟨x, 0⟩, ⟨x, 1⟩, ⟨x, 2⟩, ⟨x, 3⟩]) ∧
  ∀ x y : Int, 0 ≤ y → y < 4 →
    m.getTile x y ≠ TileT.LADDER ∧ m.getTile x y ≠ TileT.LADDER_EXIT

/-- Decidable scan of the hidden zone: no ordinary or exit ladder tile in
rows 0-3. -/
def hiddenZoneLadderFree (m : TileMap) : Bool :=
  (List.range m.width).all fun xn => (List.range 4).all fun yn =>
    m.getTile (xn : Int) (yn : Int) ≠ TileT.LADDER ∧
      m.getTile (xn : Int) (yn : Int) ≠ TileT.LADDER_EXIT

instance (m : TileMap) : Decidable (WFShape m) := by
  unfold WFShape; infer_instance

instance (m : TileMap) : Decidable (WFHoles m) := by
  unfold WFHoles; infer_instance

instance (m : TileMap) : Decidable (WF m) := by
  unfold WF; infer_instance

/-- A gameplay operation touching the hole lifecycle: a `digHole` call or
an `updateHoles` tick. -/
inductive MapOp where
  | dig (x y : Int)
  | update (deltaMs speedMultiplier : ℚ)

/-- Apply an operation to the grid. -/
def MapOp.apply (op : MapOp) (m : TileMap) : TileMap :=
  match op with
  | .dig x y => (m.digHole x y).2
  | .update d s => (m.updateHoles d s).2.2

/-- The holes an operation reports as filled (`digHole` reports none). -/
def MapOp.filledBy (op : MapOp) (m : TileMap) : List Hole :=
  match op with
  | .dig _ _ => []
  | .update d s => (m.updateHoles d s).1

/-- Number of filled-hole reports at position `p` along a trace. -/
def traceFilledAt (p : Pos) : TileMap → List MapOp → Nat
  | _, [] => 0
  | m, op :: ops =>
      countPosAt (op.filledBy m) p + traceFilledAt p (op.apply m) ops

/-- Number of successful digs at position `p` along a trace. -/
def traceDigsAt (p : Pos) : TileMap → List MapOp → Nat
  | _, [] => 0
  | m, op :: ops =>
      (match op with
       | .dig x y => if (m.digHole x y).1 ∧ x = p.x ∧ y = p.y then 1 else 0
       | .update _ _ => 0) +
        traceDigsAt p (op.apply m) ops

/-- Run a trace of operations left to right. -/
def runTrace (m : TileMap) (ops : List MapOp) : TileMap :=
  ops.foldl (fun mm op => op.apply mm) m

/-! ## Concrete fixtures used by witnesses and counterexamples -/

/-- Fixture: a 5×5 grid with a solid bottom row. -/
def floor5 : TileMap :=
  (List.range 5).foldl (fun m x => TileMap.setTile m (x : Int) 4 TileT.BRICK) (TileMap.new 5 5)

/-- Fixture for the C2 counterexample: no gold at all, yet the exit
column is reachable. -/
def mapC2x : TileMap :=
  { floor5 with
    playerStart := ⟨1, 3⟩
    exitLadders := [⟨2, 0⟩, ⟨2, 1⟩, ⟨2, 2⟩, ⟨2, 3⟩] }

/-- Fixture for the C2 witness: one reachable gold and a reachable exit
column. -/
def mapC2w : TileMap :=
  { floor5.setTile 3 3 TileT.GOLD with
    playerStart := ⟨1, 3⟩
    goldPositions := [⟨3, 3⟩]
    exitLadders := [⟨2, 0⟩, ⟨2, 1⟩, ⟨2, 2⟩, ⟨2, 3⟩] }

/-- Fixture for the C4 counterexample: one directly reachable gold, but
no exit-ladder metadata at all. -/
def mapC4x : TileMap :=
  { floor5.setTile 3 3 TileT.GOLD with
    playerStart := ⟨1, 3⟩
    goldPositions := [⟨3, 3⟩]
    exitLadders := [] }

/-- Fixture for the C4 witness. -/
def mapC4w : TileMap :=
  { floor5.setTile 3 3 TileT.GOLD with
    playerStart := ⟨1, 3⟩
    goldPositions := [⟨3, 3⟩]
    exitLadders := [⟨2, 0⟩, ⟨2, 1⟩, ⟨2, 2⟩, ⟨2, 3⟩] }

/-- Fixture for the C6 witness. -/
def mapC6w : TileMap :=
  { floor5.setTile 1 3 TileT.GOLD with
    playerStart := ⟨3, 3⟩
    goldPositions := [⟨1, 3⟩]
    exitLadders := [⟨2, 0⟩, ⟨2, 1⟩, ⟨2, 2⟩, ⟨2, 3⟩] }

/-- Fixture for the C9 witness. -/
def mapC9w : TileMap :=
  { floor5.setTile 3 3 TileT.GOLD with
    playerStart := ⟨1, 3⟩
    goldPositions := [⟨3, 3⟩]
    exitLadders := [⟨2, 0⟩, ⟨2, 1⟩, ⟨2, 2⟩, ⟨2, 3⟩] }

/-- Checker states for the C9 witness. -/
def stateC9 : CheckerState := ⟨[], false, "normal"⟩

/-- A second checker state, differing in everything but the configured
difficulty key. -/
def stateC9' : CheckerState := ⟨[⟨0, 0⟩], true, "normal"⟩

/-- Concrete map for the C7 witness: a freshly dug hole at (1, 1). -/
def mapC7 : TileMap := (((TileMap.new 3 3).setTile 1 1 TileT.BRICK).digHole 1 1).2

/-- Concrete trace for the C7 witness: one update tick past expiry. -/
def opsC7 : List MapOp := [MapOp.update 20000 1]

/-- Concrete map for the C8 witness: a ladder directly above a soft brick. -/
def mapC8 : TileMap :=
  ((TileMap.new 2 3).setTile 0 1 TileT.LADDER).setTile 0 2 TileT.BRICK

/-- Concrete map for the C10 witness: a dug hole and a non-default
hole-duration multiplier that the clone must not inherit. -/
def mapC10 : TileMap :=
  ({ (TileMap.new 3 3).setTile 1 1 TileT.BRICK with holeDurationMultiplier := 2 }.digHole 1 1).2

/-! ### Intermediate grids of the hard pipeline at seed 9072 (for C5)

The twelve stage outputs (`M1` … `M12`) and random-source states
(`S2` … `S12`) of `generateCandidate` on difficulty `hard` with initial
state 9072, together with the quarter points `E7`/`E14`/`E21`/`E28` of the
column loop of `ensureLadderAccessibility`.  Each literal is verified
against the stage function by kernel evaluation below; the chain
culminates in the C5 counterexample: the candidate is accepted as
solvable on the first attempt while the forced center exit column (14)
crosses a pole at row 2 of the hidden zone. -/

def M1 : TileMap := ⟨28, 16, [[.EMPTY, .EMPTY, .EMPTY, .EMPTY, .EMPTY, .EMPTY, .EMPTY, .EMPTY, .EMPTY, .EMPTY, .EMPTY, .EMPTY, .EMPTY, .EMPTY, .EMPTY, .EMPTY, .EMPTY, .EMPTY, .EMPTY, .EMPTY, .EMPTY, .EMPTY, .EMPTY, .EMPTY, .EMPTY, .EMPTY, .EMPTY, .EMPTY],
  [.EMPTY, .EMPTY, .EMPTY, .EMPTY, .EMPTY, .EMPTY, .EMPTY, .EMPTY, .EMPTY, .EMPTY, .EMPTY, .EMPTY, .EMPTY, .EMPTY, .EMPTY, .EMPTY, .EMPTY, .EMPTY, .EMPTY, .EMPTY, .EMPTY, .EMPTY, .EMPTY, .EMPTY, .EMPTY, .EMPTY, .EMPTY, .EMPTY],
  [.EMPTY, .EMPTY, .EMPTY, .EMPTY, .EMPTY, .EMPTY, .EMPTY, .EMPTY, .EMPTY, .EMPTY, .EMPTY, .EMPTY, .EMPTY, .EMPTY, .EMPTY, .EMPTY, .EMPTY, .EMPTY, .EMPTY, .EMPTY, .EMPTY, .EMPTY, .EMPTY, .EMPTY, .EMPTY, .EMPTY, .EMPTY, .EMPTY],
  [.EMPTY, .EMPTY, .EMPTY, .EMPTY, .EMPTY, .EMPTY, .EMPTY, .EMPTY, .EMPTY, .EMPTY, .EMPTY, .EMPTY, .EMPTY, .EMPTY, .EMPTY, .EMPTY, .EMPTY, .EMPTY, .EMPTY, .EMPTY, .EMPTY, .EMPTY, .EMPTY, .EMPTY, .EMPTY, .EMPTY, .EMPTY, .EMPTY],
  [.EMPTY, .EMPTY, .EMPTY, .EMPTY, .EMPTY, .EMPTY, .EMPTY, .EMPTY, .EMPTY, .EMPTY, .EMPTY, .EMPTY, .EMPTY, .EMPTY, .EMPTY, .EMPTY, .EMPTY, .EMPTY, .EMPTY, .EMPTY, .EMPTY, .EMPTY, .EMPTY, .EMPTY, .EMPTY, .EMPTY, .EMPTY, .EMPTY],
  [.EMPTY, .EMPTY, .EMPTY, .EMPTY, .EMPTY, .EMPTY, .EMPTY, .EMPTY, .EMPTY, .EMPTY, .EMPTY, .EMPTY, .EMPTY, .EMPTY, .EMPTY, .EMPTY, .EMPTY, .EMPTY, .EMPTY, .EMPTY, .EMPTY, .EMPTY, .EMPTY, .EMPTY, .EMPTY, .EMPTY, .EMPTY, .EMPTY],
  [.EMPTY, .EMPTY, .EMPTY, .EMPTY, .EMPTY, .EMPTY, .EMPTY, .EMPTY, .EMPTY, .EMPTY, .EMPTY, .EMPTY, .EMPTY, .EMPTY, .EMPTY, .EMPTY, .EMPTY, .EMPTY, .EMPTY, .EMPTY, .EMPTY, .EMPTY, .EMPTY, .EMPTY, .EMPTY, .EMPTY, .EMPTY, .EMPTY],
  [.EMPTY, .EMPTY, .EMPTY, .EMPTY, .EMPTY, .EMPTY, .EMPTY, .EMPTY, .EMPTY, .EMPTY, .EMPTY, .EMPTY, .EMPTY, .EMPTY, .EMPTY, .EMPTY, .EMPTY, .EMPTY, .EMPTY, .EMPTY, .EMPTY, .EMPTY, .EMPTY, .EMPTY, .EMPTY, .EMPTY, .EMPTY, .EMPTY],
  [.EMPTY, .EMPTY, .EMPTY, .EMPTY, .EMPTY, .EMPTY, .EMPTY, .EMPTY, .EMPTY, .EMPTY, .EMPTY, .EMPTY, .EMPTY, .EMPTY, .EMPTY, .EMPTY, .EMPTY, .EMPTY, .EMPTY, .EMPTY, .EMPTY, .EMPTY, .EMPTY, .EMPTY, .EMPTY, .EMPTY, .EMPTY, .EMPTY],
  [.EMPTY, .EMPTY, .EMPTY, .EMPTY, .EMPTY, .EMPTY, .EMPTY, .EMPTY, .EMPTY, .EMPTY, .EMPTY, .EMPTY, .EMPTY, .EMPTY, .EMPTY, .EMPTY, .EMPTY, .EMPTY, .EMPTY, .EMPTY, .EMPTY, .EMPTY, .EMPTY, .EMPTY, .EMPTY, .EMPTY, .EMPTY, .EMPTY],
  [.EMPTY, .EMPTY, .EMPTY, .EMPTY, .EMPTY, .EMPTY, .EMPTY, .EMPTY, .EMPTY, .EMPTY, .EMPTY, .EMPTY, .EMPTY, .EMPTY, .EMPTY, .EMPTY, .EMPTY, .EMPTY, .EMPTY, .EMPTY, .EMPTY, .EMPTY, .EMPTY, .EMPTY, .EMPTY, .EMPTY, .EMPTY, .EMPTY],
  [.EMPTY, .EMPTY, .EMPTY, .EMPTY, .EMPTY, .EMPTY, .EMPTY, .EMPTY, .EMPTY, .EMPTY, .EMPTY, .EMPTY, .EMPTY, .EMPTY, .EMPTY, .EMPTY, .EMPTY, .EMPTY, .EMPTY, .EMPTY, .EMPTY, .EMPTY, .EMPTY, .EMPTY, .EMPTY, .EMPTY, .EMPTY, .EMPTY],
  [.EMPTY, .EMPTY, .EMPTY, .EMPTY, .EMPTY, .EMPTY, .EMPTY, .EMPTY, .EMPTY, .EMPTY, .EMPTY, .EMPTY, .EMPTY, .EMPTY, .EMPTY, .EMPTY, .EMPTY, .EMPTY, .EMPTY, .EMPTY, .EMPTY, .EMPTY, .EMPTY, .EMPTY, .EMPTY, .EMPTY, .EMPTY, .EMPTY],
  [.EMPTY, .EMPTY, .EMPTY, .EMPTY, .EMPTY, .EMPTY, .EMPTY, .EMPTY, .EMPTY, .EMPTY, .EMPTY, .EMPTY, .EMPTY, .EMPTY, .EMPTY, .EMPTY, .EMPTY, .EMPTY, .EMPTY, .EMPTY, .EMPTY, .EMPTY, .EMPTY, .EMPTY, .EMPTY, .EMPTY, .EMPTY, .EMPTY],
  [.EMPTY, .EMPTY, .EMPTY, .EMPTY, .EMPTY, .EMPTY, .EMPTY, .EMPTY, .EMPTY, .EMPTY, .EMPTY, .EMPTY, .EMPTY, .EMPTY, .EMPTY, .EMPTY, .EMPTY, .EMPTY, .EMPTY, .EMPTY, .EMPTY, .EMPTY, .EMPTY, .EMPTY, .EMPTY, .EMPTY, .EMPTY, .EMPTY],
  [.BRICK, .BRICK, .BRICK, .BRICK, .BRICK, .BRICK, .BRICK, .BRICK, .BRICK, .BRICK, .BRICK, .BRICK, .BRICK, .BRICK, .BRICK, .BRICK, .BRICK, .BRICK, .BRICK, .BRICK, .BRICK, .BRICK, .BRICK, .BRICK, .BRICK, .BRICK, .BRICK, .BRICK]], [], ⟨0, 0⟩, [], [], [], 1⟩
def M2 : TileMap := ⟨28, 16, [[.EMPTY, .EMPTY, .EMPTY, .EMPTY, .EMPTY, .EMPTY, .EMPTY, .EMPTY, .EMPTY, .EMPTY, .EMPTY, .EMPTY, .EMPTY, .EMPTY, .EMPTY, .EMPTY, .EMPTY, .EMPTY, .EMPTY, .EMPTY, .EMPTY, .EMPTY, .EMPTY, .EMPTY, .EMPTY, .EMPTY, .EMPTY, .EMPTY],
  [.EMPTY, .EMPTY, .EMPTY, .EMPTY, .EMPTY, .EMPTY, .EMPTY, .EMPTY, .EMPTY, .EMPTY, .EMPTY, .EMPTY, .EMPTY, .EMPTY, .EMPTY, .EMPTY, .EMPTY, .EMPTY, .EMPTY, .EMPTY, .EMPTY, .EMPTY, .EMPTY, .EMPTY, .EMPTY, .EMPTY, .EMPTY, .EMPTY],
  [.EMPTY, .EMPTY, .EMPTY, .EMPTY, .EMPTY, .EMPTY, .EMPTY, .EMPTY, .EMPTY, .EMPTY, .EMPTY, .EMPTY, .EMPTY, .EMPTY, .EMPTY, .EMPTY, .EMPTY, .EMPTY, .EMPTY, .EMPTY, .EMPTY, .EMPTY, .EMPTY, .EMPTY, .EMPTY, .EMPTY, .EMPTY, .EMPTY],
  [.EMPTY, .EMPTY, .EMPTY, .EMPTY, .EMPTY, .EMPTY, .EMPTY, .EMPTY, .EMPTY, .EMPTY, .EMPTY, .EMPTY, .EMPTY, .EMPTY, .EMPTY, .EMPTY, .EMPTY, .EMPTY, .EMPTY, .EMPTY, .EMPTY, .EMPTY, .EMPTY, .EMPTY, .EMPTY, .EMPTY, .EMPTY, .EMPTY],
  [.EMPTY, .EMPTY, .EMPTY, .EMPTY, .EMPTY, .EMPTY, .EMPTY, .EMPTY, .EMPTY, .EMPTY, .EMPTY, .EMPTY, .LADDER, .LADDER, .LADDER, .LADDER, .EMPTY, .EMPTY, .EMPTY, .EMPTY, .EMPTY, .EMPTY, .EMPTY, .EMPTY, .EMPTY, .EMPTY, .EMPTY, .EMPTY],
  [.EMPTY, .EMPTY, .EMPTY, .EMPTY, .EMPTY, .EMPTY, .EMPTY, .EMPTY, .EMPTY, .EMPTY, .EMPTY, .EMPTY, .LADDER, .EMPTY, .EMPTY, .EMPTY, .EMPTY, .EMPTY, .EMPTY, .EMPTY, .EMPTY, .EMPTY, .EMPTY, .EMPTY, .EMPTY, .EMPTY, .EMPTY, .EMPTY],
  [.EMPTY, .EMPTY, .EMPTY, .EMPTY, .EMPTY, .EMPTY, .EMPTY, .EMPTY, .EMPTY, .EMPTY, .EMPTY, .EMPTY, .LADDER, .EMPTY, .EMPTY, .EMPTY, .EMPTY, .EMPTY, .EMPTY, .EMPTY, .EMPTY, .EMPTY, .EMPTY, .EMPTY, .EMPTY, .EMPTY, .EMPTY, .EMPTY],
  [.EMPTY, .EMPTY, .EMPTY, .EMPTY, .EMPTY, .EMPTY, .EMPTY, .EMPTY, .EMPTY, .EMPTY, .EMPTY, .EMPTY, .LADDER, .EMPTY, .EMPTY, .EMPTY, .EMPTY, .EMPTY, .EMPTY, .EMPTY, .EMPTY, .EMPTY, .EMPTY, .EMPTY, .EMPTY, .EMPTY, .EMPTY, .EMPTY],
  [.EMPTY, .EMPTY, .EMPTY, .EMPTY, .EMPTY, .EMPTY, .EMPTY, .EMPTY, .EMPTY, .EMPTY, .LADDER, .LADDER, .LADDER, .EMPTY, .EMPTY, .EMPTY, .EMPTY, .EMPTY, .EMPTY, .EMPTY, .EMPTY, .EMPTY, .EMPTY, .EMPTY, .EMPTY, .EMPTY, .EMPTY, .EMPTY],
  [.EMPTY, .EMPTY, .EMPTY, .EMPTY, .EMPTY, .EMPTY, .EMPTY, .EMPTY, .EMPTY, .EMPTY, .LADDER, .EMPTY, .EMPTY, .EMPTY, .EMPTY, .EMPTY, .EMPTY, .EMPTY, .EMPTY, .EMPTY, .EMPTY, .EMPTY, .EMPTY, .EMPTY, .EMPTY, .EMPTY, .EMPTY, .EMPTY],
  [.EMPTY, .EMPTY, .EMPTY, .EMPTY, .EMPTY, .EMPTY, .EMPTY, .EMPTY, .EMPTY, .EMPTY, .LADDER, .EMPTY, .EMPTY, .EMPTY, .EMPTY, .EMPTY, .EMPTY, .EMPTY, .EMPTY, .EMPTY, .EMPTY, .EMPTY, .EMPTY, .EMPTY, .EMPTY, .EMPTY, .EMPTY, .EMPTY],
  [.EMPTY, .EMPTY, .EMPTY, .EMPTY, .EMPTY, .EMPTY, .EMPTY, .EMPTY, .EMPTY, .EMPTY, .LADDER, .EMPTY, .EMPTY, .EMPTY, .EMPTY, .EMPTY, .EMPTY, .EMPTY, .EMPTY, .EMPTY, .EMPTY, .EMPTY, .EMPTY, .EMPTY, .EMPTY, .EMPTY, .EMPTY, .EMPTY],
  [.EMPTY, .EMPTY, .EMPTY, .EMPTY, .EMPTY, .EMPTY, .LADDER, .LADDER, .LADDER, .LADDER, .LADDER, .EMPTY, .EMPTY, .EMPTY, .EMPTY, .EMPTY, .EMPTY, .EMPTY, .EMPTY, .EMPTY, .EMPTY, .EMPTY, .EMPTY, .EMPTY, .EMPTY, .EMPTY, .EMPTY, .EMPTY],
  [.EMPTY, .EMPTY, .EMPTY, .EMPTY, .EMPTY, .EMPTY, .LADDER, .EMPTY, .EMPTY, .EMPTY, .EMPTY, .EMPTY, .EMPTY, .EMPTY, .EMPTY, .EMPTY, .EMPTY, .EMPTY, .EMPTY, .EMPTY, .EMPTY, .EMPTY, .EMPTY, .EMPTY, .EMPTY, .EMPTY, .EMPTY, .EMPTY],
  [.EMPTY, .EMPTY, .EMPTY, .EMPTY, .EMPTY, .EMPTY, .LADDER, .EMPTY, .EMPTY, .EMPTY, .EMPTY, .EMPTY, .EMPTY, .EMPTY, .EMPTY, .EMPTY, .EMPTY, .EMPTY, .EMPTY, .EMPTY, .EMPTY, .EMPTY, .EMPTY, .EMPTY, .EMPTY, .EMPTY, .EMPTY, .EMPTY],
  [.BRICK, .BRICK, .BRICK, .BRICK, .BRICK, .BRICK, .BRICK, .BRICK, .BRICK, .BRICK, .BRICK, .BRICK, .BRICK, .BRICK, .BRICK, .BRICK, .BRICK, .BRICK, .BRICK, .BRICK, .BRICK, .BRICK, .BRICK, .BRICK, .BRICK, .BRICK, .BRICK, .BRICK]], [], ⟨0, 0⟩, [], [], [], 1⟩
def S2 : Nat := 16484101389
def M3 : TileMap := ⟨28, 16, [[.EMPTY, .EMPTY, .EMPTY, .EMPTY, .EMPTY, .EMPTY, .EMPTY, .EMPTY, .EMPTY, .EMPTY, .EMPTY, .EMPTY, .EMPTY, .EMPTY, .EMPTY, .EMPTY, .EMPTY, .EMPTY, .EMPTY, .EMPTY, .EMPTY, .EMPTY, .EMPTY, .EMPTY, .EMPTY, .EMPTY, .EMPTY, .EMPTY],
  [.EMPTY, .EMPTY, .EMPTY, .EMPTY, .EMPTY, .EMPTY, .EMPTY, .EMPTY, .EMPTY, .EMPTY, .EMPTY, .EMPTY, .EMPTY, .EMPTY, .EMPTY, .EMPTY, .EMPTY, .EMPTY, .EMPTY, .EMPTY, .EMPTY, .EMPTY, .EMPTY, .EMPTY, .EMPTY, .EMPTY, .EMPTY, .EMPTY],
  [.EMPTY, .EMPTY, .EMPTY, .EMPTY, .EMPTY, .EMPTY, .EMPTY, .EMPTY, .EMPTY, .EMPTY, .EMPTY, .EMPTY, .EMPTY, .EMPTY, .EMPTY, .EMPTY, .EMPTY, .EMPTY, .EMPTY, .EMPTY, .EMPTY, .EMPTY, .EMPTY, .EMPTY, .EMPTY, .EMPTY, .EMPTY, .EMPTY],
  [.EMPTY, .EMPTY, .BRICK, .BRICK, .LADDER, .BRICK, .BRICK, .BRICK, .BRICK, .EMPTY, .EMPTY, .EMPTY, .EMPTY, .EMPTY, .EMPTY, .EMPTY, .EMPTY, .EMPTY, .EMPTY, .EMPTY, .EMPTY, .EMPTY, .EMPTY, .BRICK, .BRICK, .BRICK, .BRICK, .BRICK],
  [.EMPTY, .EMPTY, .EMPTY, .EMPTY, .EMPTY, .EMPTY, .EMPTY, .EMPTY, .EMPTY, .EMPTY, .EMPTY, .EMPTY, .LADDER, .LADDER, .LADDER, .LADDER, .EMPTY, .EMPTY, .EMPTY, .EMPTY, .EMPTY, .EMPTY, .EMPTY, .EMPTY, .EMPTY, .EMPTY, .EMPTY, .EMPTY],
  [.EMPTY, .EMPTY, .EMPTY, .EMPTY, .EMPTY, .EMPTY, .EMPTY, .EMPTY, .EMPTY, .EMPTY, .EMPTY, .EMPTY, .LADDER, .EMPTY, .EMPTY, .EMPTY, .EMPTY, .EMPTY, .EMPTY, .EMPTY, .EMPTY, .EMPTY, .EMPTY, .EMPTY, .EMPTY, .EMPTY, .EMPTY, .EMPTY],
  [.EMPTY, .EMPTY, .BRICK, .BRICK, .BRICK, .BRICK, .BRICK, .BRICK, .BRICK, .BRICK, .BRICK, .EMPTY, .LADDER, .EMPTY, .EMPTY, .EMPTY, .BRICK, .LADDER, .BRICK, .BRICK, .BRICK, .BRICK, .EMPTY, .EMPTY, .EMPTY, .EMPTY, .EMPTY, .EMPTY],
  [.EMPTY, .EMPTY, .EMPTY, .EMPTY, .EMPTY, .EMPTY, .EMPTY, .EMPTY, .EMPTY, .EMPTY, .EMPTY, .EMPTY, .LADDER, .EMPTY, .EMPTY, .EMPTY, .EMPTY, .EMPTY, .EMPTY, .EMPTY, .EMPTY, .EMPTY, .EMPTY, .EMPTY, .EMPTY, .EMPTY, .EMPTY, .EMPTY],
  [.EMPTY, .EMPTY, .EMPTY, .EMPTY, .EMPTY, .EMPTY, .EMPTY, .EMPTY, .EMPTY, .EMPTY, .LADDER, .LADDER, .LADDER, .EMPTY, .EMPTY, .EMPTY, .EMPTY, .EMPTY, .EMPTY, .EMPTY, .EMPTY, .EMPTY, .EMPTY, .EMPTY, .EMPTY, .EMPTY, .EMPTY, .EMPTY],
  [.EMPTY, .EMPTY, .BRICK, .BRICK, .BRICK, .BRICK, .BRICK, .EMPTY, .EMPTY, .EMPTY, .LADDER, .EMPTY, .EMPTY, .EMPTY, .EMPTY, .EMPTY, .EMPTY, .BRICK, .BRICK, .BRICK, .BRICK, .BRICK, .EMPTY, .EMPTY, .EMPTY, .EMPTY, .EMPTY, .EMPTY],
  [.EMPTY, .EMPTY, .EMPTY, .EMPTY, .EMPTY, .EMPTY, .EMPTY, .EMPTY, .EMPTY, .EMPTY, .LADDER, .EMPTY, .EMPTY, .EMPTY, .EMPTY, .EMPTY, .EMPTY, .EMPTY, .EMPTY, .EMPTY, .EMPTY, .EMPTY, .EMPTY, .EMPTY, .EMPTY, .EMPTY, .EMPTY, .EMPTY],
  [.EMPTY, .EMPTY, .EMPTY, .EMPTY, .EMPTY, .EMPTY, .EMPTY, .EMPTY, .EMPTY, .EMPTY, .LADDER, .EMPTY, .EMPTY, .EMPTY, .EMPTY, .EMPTY, .EMPTY, .EMPTY, .EMPTY, .EMPTY, .EMPTY, .EMPTY, .EMPTY, .EMPTY, .EMPTY, .EMPTY, .EMPTY, .EMPTY],
  [.EMPTY, .BRICK, .BRICK, .BRICK, .BRICK, .BRICK, .BRICK, .LADDER, .LADDER, .LADDER, .LADDER, .BRICK, .BRICK, .BRICK, .BRICK, .BRICK, .BRICK, .BRICK, .EMPTY, .EMPTY, .BRICK, .BRICK, .BRICK, .BRICK, .BRICK, .BRICK, .BRICK, .BRICK],
  [.EMPTY, .EMPTY, .EMPTY, .EMPTY, .EMPTY, .EMPTY, .LADDER, .EMPTY, .EMPTY, .EMPTY, .EMPTY, .EMPTY, .EMPTY, .EMPTY, .EMPTY, .EMPTY, .EMPTY, .EMPTY, .EMPTY, .EMPTY, .EMPTY, .EMPTY, .EMPTY, .EMPTY, .EMPTY, .EMPTY, .EMPTY, .EMPTY],
  [.EMPTY, .EMPTY, .EMPTY, .EMPTY, .EMPTY, .EMPTY, .LADDER, .EMPTY, .EMPTY, .EMPTY, .EMPTY, .EMPTY, .EMPTY, .EMPTY, .EMPTY, .EMPTY, .EMPTY, .EMPTY, .EMPTY, .EMPTY, .EMPTY, .EMPTY, .EMPTY, .EMPTY, .EMPTY, .EMPTY, .EMPTY, .EMPTY],
  [.BRICK, .BRICK, .BRICK, .BRICK, .BRICK, .BRICK, .BRICK, .BRICK, .BRICK, .BRICK, .BRICK, .BRICK, .BRICK, .BRICK, .BRICK, .BRICK, .BRICK, .BRICK, .BRICK, .BRICK, .BRICK, .BRICK, .BRICK, .BRICK, .BRICK, .BRICK, .BRICK, .BRICK]], [], ⟨0, 0⟩, [], [], [], 1⟩
def S3 : Nat := 97072997161
def M4 : TileMap := ⟨28, 16, [[.EMPTY, .EMPTY, .EMPTY, .EMPTY, .EMPTY, .EMPTY, .EMPTY, .EMPTY, .EMPTY, .EMPTY, .EMPTY, .EMPTY, .EMPTY, .EMPTY, .EMPTY, .EMPTY, .EMPTY, .EMPTY, .EMPTY, .EMPTY, .EMPTY, .EMPTY, .EMPTY, .EMPTY, .EMPTY, .EMPTY, .EMPTY, .EMPTY],
  [.EMPTY, .EMPTY, .EMPTY, .EMPTY, .EMPTY, .EMPTY, .EMPTY, .EMPTY, .EMPTY, .EMPTY, .EMPTY, .EMPTY, .EMPTY, .EMPTY, .EMPTY, .EMPTY, .EMPTY, .EMPTY, .EMPTY, .EMPTY, .EMPTY, .EMPTY, .EMPTY, .EMPTY, .EMPTY, .EMPTY, .EMPTY, .EMPTY],
  [.EMPTY, .EMPTY, .EMPTY, .LADDER, .EMPTY, .EMPTY, .EMPTY, .LADDER, .EMPTY, .EMPTY, .EMPTY, .EMPTY, .EMPTY, .EMPTY, .EMPTY, .EMPTY, .EMPTY, .EMPTY, .EMPTY, .EMPTY, .EMPTY, .EMPTY, .EMPTY, .EMPTY, .EMPTY, .EMPTY, .EMPTY, .EMPTY],
  [.EMPTY, .EMPTY, .BRICK, .LADDER, .LADDER, .BRICK, .BRICK, .LADDER, .BRICK, .EMPTY, .EMPTY, .EMPTY, .EMPTY, .EMPTY, .EMPTY, .EMPTY, .EMPTY, .EMPTY, .EMPTY, .EMPTY, .EMPTY, .EMPTY, .EMPTY, .BRICK, .BRICK, .BRICK, .BRICK, .BRICK],
  [.EMPTY, .EMPTY, .EMPTY, .EMPTY, .EMPTY, .EMPTY, .EMPTY, .EMPTY, .EMPTY, .EMPTY, .EMPTY, .EMPTY, .LADDER, .LADDER, .LADDER, .LADDER, .EMPTY, .EMPTY, .EMPTY, .EMPTY, .EMPTY, .EMPTY, .EMPTY, .EMPTY, .EMPTY, .EMPTY, .EMPTY, .EMPTY],
  [.EMPTY, .EMPTY, .EMPTY, .LADDER, .EMPTY, .EMPTY, .EMPTY, .EMPTY, .EMPTY, .EMPTY, .EMPTY, .EMPTY, .LADDER, .EMPTY, .EMPTY, .EMPTY, .EMPTY, .EMPTY, .EMPTY, .EMPTY, .EMPTY, .EMPTY, .EMPTY, .EMPTY, .EMPTY, .EMPTY, .EMPTY, .EMPTY],
  [.EMPTY, .EMPTY, .BRICK, .LADDER, .BRICK, .BRICK, .BRICK, .BRICK, .BRICK, .BRICK, .BRICK, .EMPTY, .LADDER, .EMPTY, .EMPTY, .EMPTY, .BRICK, .LADDER, .BRICK, .BRICK, .BRICK, .BRICK, .EMPTY, .EMPTY, .EMPTY, .EMPTY, .EMPTY, .EMPTY],
  [.EMPTY, .EMPTY, .EMPTY, .EMPTY, .EMPTY, .EMPTY, .EMPTY, .EMPTY, .EMPTY, .EMPTY, .EMPTY, .EMPTY, .LADDER, .EMPTY, .EMPTY, .EMPTY, .EMPTY, .EMPTY, .EMPTY, .EMPTY, .EMPTY, .EMPTY, .EMPTY, .EMPTY, .EMPTY, .EMPTY, .EMPTY, .EMPTY],
  [.EMPTY, .EMPTY, .EMPTY, .EMPTY, .EMPTY, .EMPTY, .EMPTY, .EMPTY, .EMPTY, .EMPTY, .LADDER, .LADDER, .LADDER, .EMPTY, .EMPTY, .EMPTY, .EMPTY, .EMPTY, .EMPTY, .EMPTY, .EMPTY, .EMPTY, .EMPTY, .EMPTY, .EMPTY, .EMPTY, .EMPTY, .EMPTY],
  [.EMPTY, .EMPTY, .BRICK, .BRICK, .BRICK, .BRICK, .BRICK, .EMPTY, .EMPTY, .EMPTY, .LADDER, .EMPTY, .EMPTY, .EMPTY, .EMPTY, .EMPTY, .EMPTY, .BRICK, .BRICK, .BRICK, .BRICK, .BRICK, .EMPTY, .EMPTY, .EMPTY, .EMPTY, .EMPTY, .EMPTY],
  [.EMPTY, .EMPTY, .EMPTY, .EMPTY, .EMPTY, .EMPTY, .EMPTY, .EMPTY, .EMPTY, .EMPTY, .LADDER, .EMPTY, .EMPTY, .EMPTY, .EMPTY, .EMPTY, .EMPTY, .EMPTY, .EMPTY, .EMPTY, .EMPTY, .EMPTY, .EMPTY, .EMPTY, .EMPTY, .EMPTY, .EMPTY, .EMPTY],
  [.EMPTY, .EMPTY, .EMPTY, .EMPTY, .EMPTY, .EMPTY, .EMPTY, .EMPTY, .EMPTY, .EMPTY, .LADDER, .EMPTY, .EMPTY, .EMPTY, .EMPTY, .EMPTY, .EMPTY, .EMPTY, .EMPTY, .EMPTY, .EMPTY, .EMPTY, .EMPTY, .EMPTY, .EMPTY, .EMPTY, .EMPTY, .EMPTY],
  [.EMPTY, .BRICK, .BRICK, .BRICK, .BRICK, .BRICK, .BRICK, .LADDER, .LADDER, .LADDER, .LADDER, .BRICK, .BRICK, .BRICK, .BRICK, .BRICK, .BRICK, .BRICK, .EMPTY, .EMPTY, .BRICK, .BRICK, .BRICK, .BRICK, .BRICK, .BRICK, .BRICK, .BRICK],
  [.EMPTY, .EMPTY, .EMPTY, .EMPTY, .EMPTY, .EMPTY, .LADDER, .EMPTY, .EMPTY, .EMPTY, .EMPTY, .EMPTY, .EMPTY, .EMPTY, .EMPTY, .EMPTY, .EMPTY, .EMPTY, .EMPTY, .EMPTY, .EMPTY, .EMPTY, .EMPTY, .EMPTY, .EMPTY, .EMPTY, .EMPTY, .EMPTY],
  [.EMPTY, .EMPTY, .EMPTY, .EMPTY, .EMPTY, .EMPTY, .LADDER, .EMPTY, .EMPTY, .EMPTY, .EMPTY, .EMPTY, .EMPTY, .EMPTY, .EMPTY, .EMPTY, .EMPTY, .EMPTY, .EMPTY, .EMPTY, .EMPTY, .EMPTY, .EMPTY, .EMPTY, .EMPTY, .EMPTY, .EMPTY, .EMPTY],
  [.BRICK, .BRICK, .BRICK, .BRICK, .BRICK, .BRICK, .BRICK, .BRICK, .BRICK, .BRICK, .BRICK, .BRICK, .BRICK, .BRICK, .BRICK, .BRICK, .BRICK, .BRICK, .BRICK, .BRICK, .BRICK, .BRICK, .BRICK, .BRICK, .BRICK, .BRICK, .BRICK, .BRICK]], [], ⟨0, 0⟩, [], [], [], 1⟩
def S4 : Nat := 102567694600
def M5 : TileMap := ⟨28, 16, [[.EMPTY, .EMPTY, .EMPTY, .EMPTY, .EMPTY, .EMPTY, .EMPTY, .EMPTY, .EMPTY, .EMPTY, .EMPTY, .EMPTY, .EMPTY, .EMPTY, .EMPTY, .EMPTY, .EMPTY, .EMPTY, .EMPTY, .EMPTY, .EMPTY, .EMPTY, .EMPTY, .EMPTY, .EMPTY, .EMPTY, .EMPTY, .EMPTY],
  [.EMPTY, .EMPTY, .EMPTY, .POLE, .POLE, .POLE, .POLE, .POLE, .EMPTY, .EMPTY, .EMPTY, .EMPTY, .EMPTY, .EMPTY, .EMPTY, .EMPTY, .EMPTY, .EMPTY, .EMPTY, .EMPTY, .EMPTY, .EMPTY, .EMPTY, .EMPTY, .EMPTY, .EMPTY, .EMPTY, .EMPTY],
  [.EMPTY, .EMPTY, .EMPTY, .LADDER, .EMPTY, .EMPTY, .EMPTY, .LADDER, .POLE, .POLE, .POLE, .POLE, .POLE, .POLE, .POLE, .POLE, .POLE, .POLE, .POLE, .POLE, .POLE, .POLE, .POLE, .POLE, .EMPTY, .EMPTY, .EMPTY, .EMPTY],
  [.EMPTY, .EMPTY, .BRICK, .LADDER, .LADDER, .BRICK, .BRICK, .LADDER, .BRICK, .EMPTY, .EMPTY, .EMPTY, .EMPTY, .EMPTY, .EMPTY, .EMPTY, .EMPTY, .EMPTY, .EMPTY, .EMPTY, .EMPTY, .EMPTY, .EMPTY, .BRICK, .BRICK, .BRICK, .BRICK, .BRICK],
  [.EMPTY, .EMPTY, .EMPTY, .POLE, .POLE, .POLE, .POLE, .POLE, .POLE, .POLE, .POLE, .POLE, .LADDER, .LADDER, .LADDER, .LADDER, .EMPTY, .EMPTY, .EMPTY, .EMPTY, .EMPTY, .EMPTY, .EMPTY, .EMPTY, .EMPTY, .EMPTY, .EMPTY, .EMPTY],
  [.EMPTY, .EMPTY, .EMPTY, .LADDER, .EMPTY, .EMPTY, .EMPTY, .EMPTY, .EMPTY, .EMPTY, .EMPTY, .EMPTY, .LADDER, .POLE, .POLE, .POLE, .POLE, .EMPTY, .EMPTY, .EMPTY, .EMPTY, .EMPTY, .EMPTY, .EMPTY, .EMPTY, .EMPTY, .EMPTY, .EMPTY],
  [.EMPTY, .EMPTY, .BRICK, .LADDER, .BRICK, .BRICK, .BRICK, .BRICK, .BRICK, .BRICK, .BRICK, .EMPTY, .LADDER, .EMPTY, .EMPTY, .EMPTY, .BRICK, .LADDER, .BRICK, .BRICK, .BRICK, .BRICK, .EMPTY, .EMPTY, .EMPTY, .EMPTY, .EMPTY, .EMPTY],
  [.EMPTY, .EMPTY, .EMPTY, .EMPTY, .EMPTY, .EMPTY, .EMPTY, .EMPTY, .EMPTY, .EMPTY, .EMPTY, .EMPTY, .LADDER, .EMPTY, .EMPTY, .EMPTY, .EMPTY, .EMPTY, .EMPTY, .EMPTY, .EMPTY, .EMPTY, .EMPTY, .EMPTY, .EMPTY, .EMPTY, .EMPTY, .EMPTY],
  [.EMPTY, .EMPTY, .EMPTY, .EMPTY, .EMPTY, .EMPTY, .POLE, .POLE, .POLE, .POLE, .LADDER, .LADDER, .LADDER, .EMPTY, .EMPTY, .EMPTY, .EMPTY, .EMPTY, .EMPTY, .EMPTY, .EMPTY, .EMPTY, .EMPTY, .EMPTY, .EMPTY, .EMPTY, .EMPTY, .EMPTY],
  [.EMPTY, .EMPTY, .BRICK, .BRICK, .BRICK, .BRICK, .BRICK, .EMPTY, .EMPTY, .EMPTY, .LADDER, .EMPTY, .EMPTY, .EMPTY, .EMPTY, .EMPTY, .EMPTY, .BRICK, .BRICK, .BRICK, .BRICK, .BRICK, .EMPTY, .EMPTY, .EMPTY, .EMPTY, .EMPTY, .EMPTY],
  [.EMPTY, .EMPTY, .EMPTY, .EMPTY, .EMPTY, .EMPTY, .EMPTY, .EMPTY, .EMPTY, .EMPTY, .LADDER, .EMPTY, .EMPTY, .EMPTY, .EMPTY, .EMPTY, .EMPTY, .EMPTY, .EMPTY, .EMPTY, .EMPTY, .EMPTY, .EMPTY, .EMPTY, .EMPTY, .EMPTY, .EMPTY, .EMPTY],
  [.EMPTY, .EMPTY, .EMPTY, .EMPTY, .EMPTY, .EMPTY, .EMPTY, .EMPTY, .EMPTY, .EMPTY, .LADDER, .EMPTY, .EMPTY, .EMPTY, .EMPTY, .EMPTY, .EMPTY, .EMPTY, .EMPTY, .EMPTY, .EMPTY, .EMPTY, .EMPTY, .EMPTY, .EMPTY, .EMPTY, .EMPTY, .EMPTY],
  [.EMPTY, .BRICK, .BRICK, .BRICK, .BRICK, .BRICK, .BRICK, .LADDER, .LADDER, .LADDER, .LADDER, .BRICK, .BRICK, .BRICK, .BRICK, .BRICK, .BRICK, .BRICK, .EMPTY, .EMPTY, .BRICK, .BRICK, .BRICK, .BRICK, .BRICK, .BRICK, .BRICK, .BRICK],
  [.EMPTY, .EMPTY, .EMPTY, .EMPTY, .EMPTY, .EMPTY, .LADDER, .EMPTY, .EMPTY, .EMPTY, .EMPTY, .EMPTY, .EMPTY, .EMPTY, .EMPTY, .EMPTY, .EMPTY, .EMPTY, .EMPTY, .EMPTY, .EMPTY, .EMPTY, .EMPTY, .EMPTY, .EMPTY, .EMPTY, .EMPTY, .EMPTY],
  [.EMPTY, .EMPTY, .EMPTY, .EMPTY, .EMPTY, .EMPTY, .LADDER, .EMPTY, .EMPTY, .EMPTY, .EMPTY, .EMPTY, .EMPTY, .EMPTY, .EMPTY, .EMPTY, .EMPTY, .EMPTY, .EMPTY, .EMPTY, .EMPTY, .EMPTY, .EMPTY, .EMPTY, .EMPTY, .EMPTY, .EMPTY, .EMPTY],
  [.BRICK, .BRICK, .BRICK, .BRICK, .BRICK, .BRICK, .BRICK, .BRICK, .BRICK, .BRICK, .BRICK, .BRICK, .BRICK, .BRICK, .BRICK, .BRICK, .BRICK, .BRICK, .BRICK, .BRICK, .BRICK, .BRICK, .BRICK, .BRICK, .BRICK, .BRICK, .BRICK, .BRICK]], [], ⟨0, 0⟩, [], [], [], 1⟩
def S5 : Nat := 117220221104
def M6 : TileMap := ⟨28, 16, [[.EMPTY, .EMPTY, .EMPTY, .EMPTY, .EMPTY, .EMPTY, .EMPTY, .EMPTY, .EMPTY, .EMPTY, .EMPTY, .EMPTY, .EMPTY, .EMPTY, .EMPTY, .EMPTY, .EMPTY, .EMPTY, .EMPTY, .EMPTY, .EMPTY, .EMPTY, .EMPTY, .EMPTY, .EMPTY, .EMPTY, .EMPTY, .EMPTY],
  [.EMPTY, .EMPTY, .EMPTY, .POLE, .POLE, .POLE, .POLE, .POLE, .EMPTY, .EMPTY, .EMPTY, .EMPTY, .EMPTY, .EMPTY, .EMPTY, .EMPTY, .EMPTY, .EMPTY, .EMPTY, .EMPTY, .EMPTY, .EMPTY, .EMPTY, .EMPTY, .EMPTY, .EMPTY, .EMPTY, .EMPTY],
  [.EMPTY, .EMPTY, .EMPTY, .LADDER, .EMPTY, .EMPTY, .EMPTY, .LADDER, .POLE, .POLE, .POLE, .POLE, .POLE, .POLE, .POLE, .POLE, .POLE, .POLE, .POLE, .POLE, .POLE, .POLE, .POLE, .POLE, .EMPTY, .EMPTY, .EMPTY, .EMPTY],
  [.EMPTY, .EMPTY, .BRICK_HARD, .LADDER, .LADDER, .BRICK, .BRICK, .LADDER, .BRICK, .EMPTY, .EMPTY, .EMPTY, .EMPTY, .EMPTY, .EMPTY, .EMPTY, .EMPTY, .EMPTY, .EMPTY, .EMPTY, .EMPTY, .EMPTY, .EMPTY, .BRICK, .BRICK, .BRICK_HARD, .BRICK, .BRICK_HARD],
  [.EMPTY, .EMPTY, .EMPTY, .POLE, .POLE, .POLE, .POLE, .POLE, .POLE, .POLE, .POLE, .POLE, .LADDER, .LADDER, .LADDER, .LADDER, .EMPTY, .EMPTY, .EMPTY, .EMPTY, .EMPTY, .EMPTY, .EMPTY, .EMPTY, .EMPTY, .EMPTY, .EMPTY, .EMPTY],
  [.EMPTY, .EMPTY, .EMPTY, .LADDER, .EMPTY, .EMPTY, .EMPTY, .EMPTY, .EMPTY, .EMPTY, .EMPTY, .EMPTY, .LADDER, .POLE, .POLE, .POLE, .POLE, .EMPTY, .EMPTY, .EMPTY, .EMPTY, .EMPTY, .EMPTY, .EMPTY, .EMPTY, .EMPTY, .EMPTY, .EMPTY],
  [.EMPTY, .EMPTY, .BRICK, .LADDER, .BRICK, .BRICK, .BRICK, .BRICK_HARD, .BRICK, .BRICK, .BRICK, .EMPTY, .LADDER, .EMPTY, .EMPTY, .EMPTY, .BRICK, .LADDER, .BRICK, .BRICK, .BRICK, .BRICK, .EMPTY, .EMPTY, .EMPTY, .EMPTY, .EMPTY, .EMPTY],
  [.EMPTY, .EMPTY, .EMPTY, .EMPTY, .EMPTY, .EMPTY, .EMPTY, .EMPTY, .EMPTY, .EMPTY, .EMPTY, .EMPTY, .LADDER, .EMPTY, .EMPTY, .EMPTY, .EMPTY, .EMPTY, .EMPTY, .EMPTY, .EMPTY, .EMPTY, .EMPTY, .EMPTY, .EMPTY, .EMPTY, .EMPTY, .EMPTY],
  [.EMPTY, .EMPTY, .EMPTY, .EMPTY, .EMPTY, .EMPTY, .POLE, .POLE, .POLE, .POLE, .LADDER, .LADDER, .LADDER, .EMPTY, .EMPTY, .EMPTY, .EMPTY, .EMPTY, .EMPTY, .EMPTY, .EMPTY, .EMPTY, .EMPTY, .EMPTY, .EMPTY, .EMPTY, .EMPTY, .EMPTY],
  [.EMPTY, .EMPTY, .BRICK, .BRICK, .BRICK_HARD, .BRICK, .BRICK, .EMPTY, .EMPTY, .EMPTY, .LADDER, .EMPTY, .EMPTY, .EMPTY, .EMPTY, .EMPTY, .EMPTY, .BRICK_HARD, .BRICK, .BRICK, .BRICK, .BRICK, .EMPTY, .EMPTY, .EMPTY, .EMPTY, .EMPTY, .EMPTY],
  [.EMPTY, .EMPTY, .EMPTY, .EMPTY, .EMPTY, .EMPTY, .EMPTY, .EMPTY, .EMPTY, .EMPTY, .LADDER, .EMPTY, .EMPTY, .EMPTY, .EMPTY, .EMPTY, .EMPTY, .EMPTY, .EMPTY, .EMPTY, .EMPTY, .EMPTY, .EMPTY, .EMPTY, .EMPTY, .EMPTY, .EMPTY, .EMPTY],
  [.EMPTY, .EMPTY, .EMPTY, .EMPTY, .EMPTY, .EMPTY, .EMPTY, .EMPTY, .EMPTY, .EMPTY, .LADDER, .EMPTY, .EMPTY, .EMPTY, .EMPTY, .EMPTY, .EMPTY, .EMPTY, .EMPTY, .EMPTY, .EMPTY, .EMPTY, .EMPTY, .EMPTY, .EMPTY, .EMPTY, .EMPTY, .EMPTY],
  [.EMPTY, .BRICK, .BRICK, .BRICK, .BRICK_HARD, .BRICK, .BRICK, .LADDER, .LADDER, .LADDER, .LADDER, .BRICK, .BRICK_HARD, .BRICK, .BRICK, .BRICK, .BRICK, .BRICK, .EMPTY, .EMPTY, .BRICK, .BRICK, .BRICK, .BRICK, .BRICK, .BRICK_HARD, .BRICK, .BRICK],
  [.EMPTY, .EMPTY, .EMPTY, .EMPTY, .EMPTY, .EMPTY, .LADDER, .EMPTY, .EMPTY, .EMPTY, .EMPTY, .EMPTY, .EMPTY, .EMPTY, .EMPTY, .EMPTY, .EMPTY, .EMPTY, .EMPTY, .EMPTY, .EMPTY, .EMPTY, .EMPTY, .EMPTY, .EMPTY, .EMPTY, .EMPTY, .EMPTY],
  [.EMPTY, .EMPTY, .EMPTY, .EMPTY, .EMPTY, .EMPTY, .LADDER, .EMPTY, .EMPTY, .EMPTY, .EMPTY, .EMPTY, .EMPTY, .EMPTY, .EMPTY, .EMPTY, .EMPTY, .EMPTY, .EMPTY, .EMPTY, .EMPTY, .EMPTY, .EMPTY, .EMPTY, .EMPTY, .EMPTY, .EMPTY, .EMPTY],
  [.BRICK, .BRICK, .BRICK, .BRICK, .BRICK, .BRICK, .BRICK, .BRICK, .BRICK, .BRICK, .BRICK, .BRICK, .BRICK, .BRICK, .BRICK, .BRICK, .BRICK, .BRICK, .BRICK, .BRICK, .BRICK, .BRICK, .BRICK, .BRICK, .BRICK, .BRICK, .BRICK, .BRICK]], [], ⟨0, 0⟩, [], [], [], 1⟩
def S6 : Nat := 214293209193
def M7 : TileMap := ⟨28, 16, [[.EMPTY, .EMPTY, .EMPTY, .EMPTY, .EMPTY, .EMPTY, .EMPTY, .EMPTY, .EMPTY, .EMPTY, .EMPTY, .EMPTY, .EMPTY, .EMPTY, .EMPTY, .EMPTY, .EMPTY, .EMPTY, .EMPTY, .EMPTY, .EMPTY, .EMPTY, .EMPTY, .EMPTY, .EMPTY, .EMPTY, .EMPTY, .EMPTY],
  [.EMPTY, .EMPTY, .EMPTY, .POLE, .POLE, .POLE, .POLE, .POLE, .EMPTY, .EMPTY, .EMPTY, .EMPTY, .EMPTY, .EMPTY, .EMPTY, .EMPTY, .EMPTY, .EMPTY, .EMPTY, .EMPTY, .EMPTY, .EMPTY, .EMPTY, .EMPTY, .EMPTY, .EMPTY, .EMPTY, .EMPTY],
  [.EMPTY, .EMPTY, .EMPTY, .LADDER, .EMPTY, .EMPTY, .EMPTY, .LADDER, .POLE, .POLE, .POLE, .POLE, .POLE, .POLE, .POLE, .POLE, .POLE, .POLE, .POLE, .POLE, .POLE, .POLE, .POLE, .POLE, .EMPTY, .EMPTY, .EMPTY, .EMPTY],
  [.EMPTY, .EMPTY, .BRICK_HARD, .LADDER, .LADDER, .BRICK, .BRICK, .LADDER, .BRICK, .EMPTY, .EMPTY, .EMPTY, .EMPTY, .EMPTY, .EMPTY, .EMPTY, .EMPTY, .EMPTY, .EMPTY, .EMPTY, .EMPTY, .EMPTY, .EMPTY, .BRICK, .BRICK, .BRICK_HARD, .BRICK_TRAP, .BRICK_HARD],
  [.EMPTY, .EMPTY, .EMPTY, .POLE, .POLE, .POLE, .POLE, .POLE, .POLE, .POLE, .POLE, .POLE, .LADDER, .LADDER, .LADDER, .LADDER, .EMPTY, .EMPTY, .EMPTY, .EMPTY, .EMPTY, .EMPTY, .EMPTY, .EMPTY, .EMPTY, .EMPTY, .EMPTY, .EMPTY],
  [.EMPTY, .EMPTY, .EMPTY, .LADDER, .EMPTY, .EMPTY, .EMPTY, .EMPTY, .EMPTY, .EMPTY, .EMPTY, .EMPTY, .LADDER, .POLE, .POLE, .POLE, .POLE, .EMPTY, .EMPTY, .EMPTY, .EMPTY, .EMPTY, .EMPTY, .EMPTY, .EMPTY, .EMPTY, .EMPTY, .EMPTY],
  [.EMPTY, .EMPTY, .BRICK, .LADDER, .BRICK, .BRICK, .BRICK, .BRICK_HARD, .BRICK, .BRICK, .BRICK, .EMPTY, .LADDER, .EMPTY, .EMPTY, .EMPTY, .BRICK_TRAP, .LADDER, .BRICK, .BRICK, .BRICK, .BRICK, .EMPTY, .EMPTY, .EMPTY, .EMPTY, .EMPTY, .EMPTY],
  [.EMPTY, .EMPTY, .EMPTY, .EMPTY, .EMPTY, .EMPTY, .EMPTY, .EMPTY, .EMPTY, .EMPTY, .EMPTY, .EMPTY, .LADDER, .EMPTY, .EMPTY, .EMPTY, .EMPTY, .EMPTY, .EMPTY, .EMPTY, .EMPTY, .EMPTY, .EMPTY, .EMPTY, .EMPTY, .EMPTY, .EMPTY, .EMPTY],
  [.EMPTY, .EMPTY, .EMPTY, .EMPTY, .EMPTY, .EMPTY, .POLE, .POLE, .POLE, .POLE, .LADDER, .LADDER, .LADDER, .EMPTY, .EMPTY, .EMPTY, .EMPTY, .EMPTY, .EMPTY, .EMPTY, .EMPTY, .EMPTY, .EMPTY, .EMPTY, .EMPTY, .EMPTY, .EMPTY, .EMPTY],
  [.EMPTY, .EMPTY, .BRICK, .BRICK_TRAP, .BRICK_HARD, .BRICK, .BRICK, .EMPTY, .EMPTY, .EMPTY, .LADDER, .EMPTY, .EMPTY, .EMPTY, .EMPTY, .EMPTY, .EMPTY, .BRICK_HARD, .BRICK, .BRICK, .BRICK, .BRICK, .EMPTY, .EMPTY, .EMPTY, .EMPTY, .EMPTY, .EMPTY],
  [.EMPTY, .EMPTY, .EMPTY, .EMPTY, .EMPTY, .EMPTY, .EMPTY, .EMPTY, .EMPTY, .EMPTY, .LADDER, .EMPTY, .EMPTY, .EMPTY, .EMPTY, .EMPTY, .EMPTY, .EMPTY, .EMPTY, .EMPTY, .EMPTY, .EMPTY, .EMPTY, .EMPTY, .EMPTY, .EMPTY, .EMPTY, .EMPTY],
  [.EMPTY, .EMPTY, .EMPTY, .EMPTY, .EMPTY, .EMPTY, .EMPTY, .EMPTY, .EMPTY, .EMPTY, .LADDER, .EMPTY, .EMPTY, .EMPTY, .EMPTY, .EMPTY, .EMPTY, .EMPTY, .EMPTY, .EMPTY, .EMPTY, .EMPTY, .EMPTY, .EMPTY, .EMPTY, .EMPTY, .EMPTY, .EMPTY],
  [.EMPTY, .BRICK, .BRICK, .BRICK, .BRICK_HARD, .BRICK, .BRICK, .LADDER, .LADDER, .LADDER, .LADDER, .BRICK, .BRICK_HARD, .BRICK, .BRICK, .BRICK, .BRICK, .BRICK, .EMPTY, .EMPTY, .BRICK, .BRICK_TRAP, .BRICK, .BRICK, .BRICK, .BRICK_HARD, .BRICK, .BRICK],
  [.EMPTY, .EMPTY, .EMPTY, .EMPTY, .EMPTY, .EMPTY, .LADDER, .EMPTY, .EMPTY, .EMPTY, .EMPTY, .EMPTY, .EMPTY, .EMPTY, .EMPTY, .EMPTY, .EMPTY, .EMPTY, .EMPTY, .EMPTY, .EMPTY, .EMPTY, .EMPTY, .EMPTY, .EMPTY, .EMPTY, .EMPTY, .EMPTY],
  [.EMPTY, .EMPTY, .EMPTY, .EMPTY, .EMPTY, .EMPTY, .LADDER, .EMPTY, .EMPTY, .EMPTY, .EMPTY, .EMPTY, .EMPTY, .EMPTY, .EMPTY, .EMPTY, .EMPTY, .EMPTY, .EMPTY, .EMPTY, .EMPTY, .EMPTY, .EMPTY, .EMPTY, .EMPTY, .EMPTY, .EMPTY, .EMPTY],
  [.BRICK, .BRICK, .BRICK, .BRICK, .BRICK, .BRICK, .BRICK, .BRICK, .BRICK, .BRICK, .BRICK, .BRICK, .BRICK, .BRICK, .BRICK, .BRICK, .BRICK, .BRICK, .BRICK, .BRICK, .BRICK, .BRICK, .BRICK, .BRICK, .BRICK, .BRICK, .BRICK, .BRICK]], [], ⟨0, 0⟩, [], [], [], 1⟩
def S7 : Nat := 294882104965
def M8 : TileMap := ⟨28, 16, [[.EMPTY, .EMPTY, .EMPTY, .EMPTY, .EMPTY, .EMPTY, .EMPTY, .EMPTY, .EMPTY, .EMPTY, .EMPTY, .EMPTY, .EMPTY, .EMPTY, .EMPTY, .EMPTY, .EMPTY, .EMPTY, .EMPTY, .EMPTY, .EMPTY, .EMPTY, .EMPTY, .EMPTY, .EMPTY, .EMPTY, .EMPTY, .EMPTY],
  [.EMPTY, .EMPTY, .EMPTY, .POLE, .POLE, .POLE, .POLE, .POLE, .EMPTY, .EMPTY, .EMPTY, .EMPTY, .EMPTY, .EMPTY, .EMPTY, .EMPTY, .EMPTY, .EMPTY, .EMPTY, .EMPTY, .EMPTY, .EMPTY, .EMPTY, .EMPTY, .EMPTY, .EMPTY, .EMPTY, .EMPTY],
  [.EMPTY, .EMPTY, .EMPTY, .LADDER, .EMPTY, .EMPTY, .EMPTY, .LADDER, .POLE, .POLE, .POLE, .POLE, .POLE, .POLE, .POLE, .POLE, .POLE, .POLE, .POLE, .POLE, .POLE, .POLE, .POLE, .POLE, .EMPTY, .EMPTY, .EMPTY, .EMPTY],
  [.EMPTY, .EMPTY, .BRICK_HARD, .LADDER, .LADDER, .BRICK, .BRICK, .LADDER, .BRICK, .EMPTY, .EMPTY, .EMPTY, .EMPTY, .EMPTY, .EMPTY, .EMPTY, .EMPTY, .EMPTY, .EMPTY, .EMPTY, .EMPTY, .EMPTY, .EMPTY, .BRICK, .BRICK, .BRICK_HARD, .BRICK_TRAP, .BRICK_HARD],
  [.EMPTY, .EMPTY, .EMPTY, .POLE, .POLE, .POLE, .POLE, .POLE, .POLE, .POLE, .POLE, .POLE, .LADDER, .LADDER, .LADDER, .LADDER, .EMPTY, .EMPTY, .EMPTY, .EMPTY, .EMPTY, .EMPTY, .EMPTY, .EMPTY, .EMPTY, .EMPTY, .EMPTY, .EMPTY],
  [.EMPTY, .EMPTY, .EMPTY, .LADDER, .EMPTY, .EMPTY, .EMPTY, .EMPTY, .EMPTY, .EMPTY, .EMPTY, .EMPTY, .LADDER, .POLE, .POLE, .POLE, .POLE, .EMPTY, .EMPTY, .EMPTY, .EMPTY, .EMPTY, .EMPTY, .EMPTY, .EMPTY, .EMPTY, .EMPTY, .EMPTY],
  [.EMPTY, .EMPTY, .BRICK, .LADDER, .BRICK, .BRICK, .BRICK, .BRICK_HARD, .BRICK, .BRICK, .BRICK, .EMPTY, .LADDER, .EMPTY, .EMPTY, .EMPTY, .BRICK_TRAP, .LADDER, .BRICK, .BRICK, .BRICK, .BRICK, .EMPTY, .EMPTY, .EMPTY, .EMPTY, .EMPTY, .EMPTY],
  [.EMPTY, .EMPTY, .EMPTY, .EMPTY, .EMPTY, .EMPTY, .EMPTY, .EMPTY, .EMPTY, .EMPTY, .EMPTY, .EMPTY, .LADDER, .EMPTY, .EMPTY, .EMPTY, .EMPTY, .EMPTY, .EMPTY, .EMPTY, .EMPTY, .EMPTY, .EMPTY, .EMPTY, .EMPTY, .EMPTY, .EMPTY, .EMPTY],
  [.EMPTY, .EMPTY, .EMPTY, .EMPTY, .EMPTY, .EMPTY, .POLE, .POLE, .POLE, .POLE, .LADDER, .LADDER, .LADDER, .EMPTY, .EMPTY, .EMPTY, .EMPTY, .EMPTY, .EMPTY, .EMPTY, .EMPTY, .EMPTY, .EMPTY, .EMPTY, .EMPTY, .EMPTY, .EMPTY, .EMPTY],
  [.EMPTY, .EMPTY, .BRICK, .BRICK_TRAP, .BRICK_HARD, .BRICK, .BRICK, .EMPTY, .EMPTY, .EMPTY, .LADDER, .EMPTY, .EMPTY, .EMPTY, .EMPTY, .EMPTY, .EMPTY, .BRICK_HARD, .BRICK, .BRICK, .BRICK, .BRICK, .EMPTY, .EMPTY, .EMPTY, .EMPTY, .EMPTY, .EMPTY],
  [.EMPTY, .EMPTY, .EMPTY, .EMPTY, .EMPTY, .EMPTY, .EMPTY, .EMPTY, .EMPTY, .EMPTY, .LADDER, .EMPTY, .EMPTY, .EMPTY, .EMPTY, .EMPTY, .EMPTY, .EMPTY, .EMPTY, .EMPTY, .EMPTY, .EMPTY, .EMPTY, .EMPTY, .EMPTY, .EMPTY, .EMPTY, .EMPTY],
  [.EMPTY, .EMPTY, .EMPTY, .EMPTY, .EMPTY, .EMPTY, .EMPTY, .EMPTY, .EMPTY, .EMPTY, .LADDER, .EMPTY, .EMPTY, .EMPTY, .EMPTY, .EMPTY, .EMPTY, .EMPTY, .EMPTY, .EMPTY, .EMPTY, .EMPTY, .EMPTY, .EMPTY, .EMPTY, .EMPTY, .EMPTY, .EMPTY],
  [.EMPTY, .BRICK, .BRICK, .BRICK, .BRICK_HARD, .BRICK, .EMPTY, .LADDER, .LADDER, .LADDER, .LADDER, .BRICK, .BRICK_HARD, .BRICK, .BRICK, .BRICK, .BRICK, .BRICK, .EMPTY, .EMPTY, .BRICK, .BRICK_TRAP, .BRICK, .BRICK, .BRICK, .BRICK_HARD, .BRICK, .BRICK],
  [.EMPTY, .EMPTY, .EMPTY, .EMPTY, .EMPTY, .EMPTY, .LADDER, .EMPTY, .EMPTY, .EMPTY, .EMPTY, .EMPTY, .EMPTY, .EMPTY, .EMPTY, .EMPTY, .EMPTY, .EMPTY, .EMPTY, .EMPTY, .EMPTY, .EMPTY, .EMPTY, .EMPTY, .EMPTY, .EMPTY, .EMPTY, .EMPTY],
  [.EMPTY, .EMPTY, .EMPTY, .EMPTY, .EMPTY, .EMPTY, .LADDER, .EMPTY, .EMPTY, .EMPTY, .EMPTY, .EMPTY, .EMPTY, .EMPTY, .EMPTY, .EMPTY, .EMPTY, .EMPTY, .EMPTY, .EMPTY, .EMPTY, .EMPTY, .EMPTY, .EMPTY, .EMPTY, .EMPTY, .EMPTY, .EMPTY],
  [.BRICK, .BRICK, .BRICK, .BRICK, .BRICK, .BRICK, .BRICK, .BRICK, .BRICK, .BRICK, .BRICK, .BRICK, .BRICK, .BRICK, .BRICK, .BRICK, .BRICK, .BRICK, .BRICK, .BRICK, .BRICK, .BRICK, .BRICK, .BRICK, .BRICK, .BRICK, .BRICK, .BRICK]], [], ⟨0, 0⟩, [], [], [], 1⟩
def S8 : Nat := 294882104965
def M9 : TileMap := ⟨28, 16, [[.EMPTY, .EMPTY, .EMPTY, .EMPTY, .EMPTY, .EMPTY, .EMPTY, .EMPTY, .EMPTY, .EMPTY, .EMPTY, .EMPTY, .EMPTY, .EMPTY, .EMPTY, .EMPTY, .EMPTY, .EMPTY, .EMPTY, .EMPTY, .EMPTY, .EMPTY, .EMPTY, .EMPTY, .EMPTY, .EMPTY, .EMPTY, .EMPTY],
  [.EMPTY, .EMPTY, .EMPTY, .POLE, .POLE, .POLE, .POLE, .POLE, .EMPTY, .EMPTY, .EMPTY, .EMPTY, .EMPTY, .EMPTY, .EMPTY, .EMPTY, .EMPTY, .EMPTY, .EMPTY, .EMPTY, .EMPTY, .EMPTY, .EMPTY, .EMPTY, .EMPTY, .EMPTY, .EMPTY, .EMPTY],
  [.EMPTY, .EMPTY, .EMPTY, .LADDER, .EMPTY, .EMPTY, .EMPTY, .LADDER, .POLE, .POLE, .POLE, .POLE, .POLE, .POLE, .POLE, .POLE, .POLE, .POLE, .POLE, .POLE, .POLE, .POLE, .POLE, .POLE, .EMPTY, .EMPTY, .EMPTY, .EMPTY],
  [.EMPTY, .EMPTY, .BRICK_HARD, .LADDER, .LADDER, .BRICK, .BRICK, .LADDER, .BRICK, .EMPTY, .EMPTY, .EMPTY, .EMPTY, .EMPTY, .EMPTY, .EMPTY, .EMPTY, .EMPTY, .EMPTY, .EMPTY, .EMPTY, .EMPTY, .EMPTY, .BRICK, .BRICK, .BRICK_HARD, .BRICK_TRAP, .BRICK_HARD],
  [.EMPTY, .EMPTY, .EMPTY, .POLE, .POLE, .POLE, .POLE, .POLE, .POLE, .POLE, .POLE, .POLE, .LADDER, .LADDER, .LADDER, .LADDER, .EMPTY, .EMPTY, .EMPTY, .EMPTY, .EMPTY, .EMPTY, .EMPTY, .EMPTY, .EMPTY, .EMPTY, .EMPTY, .EMPTY],
  [.EMPTY, .EMPTY, .EMPTY, .LADDER, .EMPTY, .EMPTY, .EMPTY, .EMPTY, .EMPTY, .EMPTY, .EMPTY, .EMPTY, .LADDER, .POLE, .POLE, .POLE, .POLE, .EMPTY, .EMPTY, .EMPTY, .EMPTY, .EMPTY, .EMPTY, .EMPTY, .EMPTY, .EMPTY, .EMPTY, .EMPTY],
  [.EMPTY, .EMPTY, .BRICK, .LADDER, .BRICK, .BRICK, .BRICK, .BRICK_HARD, .BRICK, .BRICK, .BRICK, .EMPTY, .LADDER, .EMPTY, .EMPTY, .EMPTY, .BRICK_TRAP, .LADDER, .BRICK, .BRICK, .BRICK, .BRICK, .EMPTY, .EMPTY, .EMPTY, .EMPTY, .EMPTY, .EMPTY],
  [.EMPTY, .EMPTY, .EMPTY, .EMPTY, .EMPTY, .EMPTY, .EMPTY, .EMPTY, .EMPTY, .EMPTY, .EMPTY, .EMPTY, .LADDER, .EMPTY, .EMPTY, .EMPTY, .EMPTY, .EMPTY, .EMPTY, .EMPTY, .EMPTY, .EMPTY, .EMPTY, .EMPTY, .EMPTY, .EMPTY, .EMPTY, .EMPTY],
  [.EMPTY, .EMPTY, .EMPTY, .EMPTY, .EMPTY, .EMPTY, .POLE, .POLE, .POLE, .POLE, .LADDER, .LADDER, .LADDER, .EMPTY, .EMPTY, .EMPTY, .EMPTY, .EMPTY, .EMPTY, .EMPTY, .EMPTY, .EMPTY, .EMPTY, .EMPTY, .EMPTY, .EMPTY, .EMPTY, .EMPTY],
  [.EMPTY, .EMPTY, .BRICK, .BRICK_TRAP, .BRICK_HARD, .BRICK, .BRICK, .EMPTY, .EMPTY, .EMPTY, .LADDER, .EMPTY, .EMPTY, .EMPTY, .EMPTY, .EMPTY, .EMPTY, .BRICK_HARD, .BRICK, .BRICK, .BRICK, .BRICK, .EMPTY, .EMPTY, .EMPTY, .EMPTY, .EMPTY, .EMPTY],
  [.EMPTY, .EMPTY, .EMPTY, .EMPTY, .EMPTY, .EMPTY, .EMPTY, .EMPTY, .EMPTY, .EMPTY, .LADDER, .EMPTY, .EMPTY, .EMPTY, .EMPTY, .EMPTY, .EMPTY, .EMPTY, .EMPTY, .EMPTY, .EMPTY, .EMPTY, .EMPTY, .EMPTY, .EMPTY, .EMPTY, .EMPTY, .EMPTY],
  [.EMPTY, .EMPTY, .EMPTY, .EMPTY, .EMPTY, .EMPTY, .EMPTY, .EMPTY, .EMPTY, .EMPTY, .LADDER, .EMPTY, .EMPTY, .EMPTY, .EMPTY, .EMPTY, .EMPTY, .EMPTY, .EMPTY, .EMPTY, .EMPTY, .EMPTY, .EMPTY, .EMPTY, .EMPTY, .EMPTY, .EMPTY, .EMPTY],
  [.EMPTY, .BRICK, .BRICK, .BRICK, .BRICK_HARD, .BRICK, .EMPTY, .LADDER, .LADDER, .LADDER, .LADDER, .BRICK, .BRICK_HARD, .BRICK, .BRICK, .BRICK, .BRICK, .BRICK, .EMPTY, .EMPTY, .BRICK, .BRICK_TRAP, .BRICK, .BRICK, .BRICK, .BRICK_HARD, .BRICK, .BRICK],
  [.EMPTY, .EMPTY, .EMPTY, .EMPTY, .EMPTY, .EMPTY, .LADDER, .EMPTY, .EMPTY, .EMPTY, .EMPTY, .EMPTY, .EMPTY, .EMPTY, .EMPTY, .EMPTY, .EMPTY, .EMPTY, .EMPTY, .EMPTY, .EMPTY, .EMPTY, .EMPTY, .EMPTY, .EMPTY, .EMPTY, .EMPTY, .EMPTY],
  [.EMPTY, .EMPTY, .EMPTY, .EMPTY, .EMPTY, .EMPTY, .LADDER, .EMPTY, .EMPTY, .EMPTY, .EMPTY, .EMPTY, .EMPTY, .EMPTY, .EMPTY, .EMPTY, .EMPTY, .EMPTY, .EMPTY, .EMPTY, .EMPTY, .EMPTY, .EMPTY, .EMPTY, .EMPTY, .EMPTY, .EMPTY, .EMPTY],
  [.BRICK, .BRICK, .BRICK, .BRICK, .BRICK, .BRICK, .BRICK, .BRICK, .BRICK, .BRICK, .BRICK, .BRICK, .BRICK, .BRICK, .BRICK, .BRICK, .BRICK, .BRICK, .BRICK, .BRICK, .BRICK, .BRICK, .BRICK, .BRICK, .BRICK, .BRICK, .BRICK, .BRICK]], [], ⟨10, 14⟩, [], [], [], 1⟩
def S9 : Nat := 296713670778
def M10 : TileMap := ⟨28, 16, [[.EMPTY, .EMPTY, .EMPTY, .EMPTY, .EMPTY, .EMPTY, .EMPTY, .EMPTY, .EMPTY, .EMPTY, .EMPTY, .EMPTY, .EMPTY, .EMPTY, .EMPTY, .EMPTY, .EMPTY, .EMPTY, .EMPTY, .EMPTY, .EMPTY, .EMPTY, .EMPTY, .EMPTY, .EMPTY, .EMPTY, .EMPTY, .EMPTY],
  [.EMPTY, .EMPTY, .EMPTY, .POLE, .POLE, .POLE, .POLE, .POLE, .EMPTY, .EMPTY, .EMPTY, .EMPTY, .EMPTY, .EMPTY, .EMPTY, .EMPTY, .EMPTY, .EMPTY, .EMPTY, .EMPTY, .EMPTY, .EMPTY, .EMPTY, .EMPTY, .EMPTY, .EMPTY, .EMPTY, .EMPTY],
  [.EMPTY, .EMPTY, .EMPTY, .LADDER, .EMPTY, .EMPTY, .EMPTY, .LADDER, .POLE, .POLE, .POLE, .POLE, .POLE, .POLE, .POLE, .POLE, .POLE, .POLE, .POLE, .POLE, .POLE, .POLE, .POLE, .POLE, .EMPTY, .EMPTY, .EMPTY, .EMPTY],
  [.EMPTY, .EMPTY, .BRICK_HARD, .LADDER, .LADDER, .BRICK, .BRICK, .LADDER, .BRICK, .EMPTY, .EMPTY, .EMPTY, .EMPTY, .EMPTY, .GOLD, .EMPTY, .EMPTY, .EMPTY, .EMPTY, .EMPTY, .EMPTY, .EMPTY, .EMPTY, .BRICK, .BRICK, .BRICK_HARD, .BRICK_TRAP, .BRICK_HARD],
  [.EMPTY, .EMPTY, .EMPTY, .POLE, .POLE, .POLE, .POLE, .POLE, .POLE, .POLE, .POLE, .POLE, .LADDER, .LADDER, .LADDER, .LADDER, .EMPTY, .EMPTY, .EMPTY, .EMPTY, .EMPTY, .EMPTY, .EMPTY, .EMPTY, .EMPTY, .EMPTY, .EMPTY, .EMPTY],
  [.EMPTY, .EMPTY, .EMPTY, .LADDER, .EMPTY, .EMPTY, .EMPTY, .GOLD, .EMPTY, .EMPTY, .EMPTY, .EMPTY, .LADDER, .POLE, .POLE, .POLE, .POLE, .EMPTY, .GOLD, .EMPTY, .EMPTY, .EMPTY, .EMPTY, .EMPTY, .EMPTY, .EMPTY, .EMPTY, .EMPTY],
  [.EMPTY, .EMPTY, .BRICK, .LADDER, .BRICK, .BRICK, .BRICK, .BRICK_HARD, .BRICK, .BRICK, .BRICK, .EMPTY, .LADDER, .EMPTY, .EMPTY, .EMPTY, .BRICK_TRAP, .LADDER, .BRICK, .BRICK, .BRICK, .BRICK, .EMPTY, .EMPTY, .EMPTY, .EMPTY, .EMPTY, .EMPTY],
  [.EMPTY, .EMPTY, .EMPTY, .EMPTY, .EMPTY, .EMPTY, .EMPTY, .EMPTY, .EMPTY, .EMPTY, .EMPTY, .EMPTY, .LADDER, .EMPTY, .EMPTY, .EMPTY, .EMPTY, .EMPTY, .EMPTY, .EMPTY, .EMPTY, .EMPTY, .EMPTY, .EMPTY, .EMPTY, .EMPTY, .EMPTY, .EMPTY],
  [.EMPTY, .EMPTY, .EMPTY, .GOLD, .EMPTY, .EMPTY, .POLE, .POLE, .POLE, .POLE, .LADDER, .LADDER, .LADDER, .EMPTY, .EMPTY, .EMPTY, .EMPTY, .EMPTY, .EMPTY, .EMPTY, .EMPTY, .EMPTY, .EMPTY, .EMPTY, .EMPTY, .EMPTY, .EMPTY, .EMPTY],
  [.EMPTY, .EMPTY, .BRICK, .BRICK_TRAP, .BRICK_HARD, .BRICK, .BRICK, .EMPTY, .EMPTY, .EMPTY, .LADDER, .EMPTY, .EMPTY, .EMPTY, .EMPTY, .EMPTY, .EMPTY, .BRICK_HARD, .BRICK, .BRICK, .BRICK, .BRICK, .EMPTY, .EMPTY, .EMPTY, .EMPTY, .EMPTY, .EMPTY],
  [.EMPTY, .EMPTY, .EMPTY, .EMPTY, .EMPTY, .EMPTY, .EMPTY, .EMPTY, .EMPTY, .EMPTY, .LADDER, .EMPTY, .EMPTY, .EMPTY, .EMPTY, .EMPTY, .EMPTY, .EMPTY, .EMPTY, .EMPTY, .EMPTY, .EMPTY, .EMPTY, .EMPTY, .EMPTY, .EMPTY, .EMPTY, .EMPTY],
  [.EMPTY, .EMPTY, .GOLD, .EMPTY, .EMPTY, .EMPTY, .EMPTY, .EMPTY, .EMPTY, .GOLD, .LADDER, .EMPTY, .EMPTY, .EMPTY, .EMPTY, .EMPTY, .EMPTY, .GOLD, .EMPTY, .EMPTY, .EMPTY, .EMPTY, .GOLD, .EMPTY, .EMPTY, .EMPTY, .GOLD, .EMPTY],
  [.EMPTY, .BRICK, .BRICK, .BRICK, .BRICK_HARD, .BRICK, .EMPTY, .LADDER, .LADDER, .LADDER, .LADDER, .BRICK, .BRICK_HARD, .BRICK, .BRICK, .BRICK, .BRICK, .BRICK, .EMPTY, .EMPTY, .BRICK, .BRICK_TRAP, .BRICK, .BRICK, .BRICK, .BRICK_HARD, .BRICK, .BRICK],
  [.EMPTY, .EMPTY, .EMPTY, .EMPTY, .EMPTY, .EMPTY, .LADDER, .EMPTY, .EMPTY, .EMPTY, .EMPTY, .EMPTY, .EMPTY, .EMPTY, .EMPTY, .EMPTY, .EMPTY, .EMPTY, .EMPTY, .EMPTY, .EMPTY, .EMPTY, .EMPTY, .EMPTY, .EMPTY, .EMPTY, .EMPTY, .EMPTY],
  [.EMPTY, .EMPTY, .EMPTY, .EMPTY, .EMPTY, .EMPTY, .LADDER, .EMPTY, .GOLD, .EMPTY, .EMPTY, .EMPTY, .EMPTY, .EMPTY, .EMPTY, .GOLD, .EMPTY, .EMPTY, .EMPTY, .EMPTY, .EMPTY, .EMPTY, .EMPTY, .GOLD, .EMPTY, .EMPTY, .EMPTY, .EMPTY],
  [.BRICK, .BRICK, .BRICK, .BRICK, .BRICK, .BRICK, .BRICK, .BRICK, .BRICK, .BRICK, .BRICK, .BRICK, .BRICK, .BRICK, .BRICK, .BRICK, .BRICK, .BRICK, .BRICK, .BRICK, .BRICK, .BRICK, .BRICK, .BRICK, .BRICK, .BRICK, .BRICK, .BRICK]], [], ⟨10, 14⟩, [], [⟨17, 11⟩, ⟨15, 14⟩, ⟨23, 14⟩, ⟨2, 11⟩, ⟨22, 11⟩, ⟨26, 11⟩, ⟨9, 11⟩, ⟨8, 14⟩, ⟨14, 3⟩, ⟨7, 5⟩, ⟨3, 8⟩, ⟨18, 5⟩], [], 1⟩
def S10 : Nat := 456059896509
def M11 : TileMap := ⟨28, 16, [[.EMPTY, .EMPTY, .EMPTY, .EMPTY, .EMPTY, .EMPTY, .EMPTY, .EMPTY, .EMPTY, .EMPTY, .EMPTY, .EMPTY, .EMPTY, .EMPTY, .EMPTY, .EMPTY, .EMPTY, .EMPTY, .EMPTY, .EMPTY, .EMPTY, .EMPTY, .EMPTY, .EMPTY, .EMPTY, .EMPTY, .EMPTY, .EMPTY],
  [.EMPTY, .EMPTY, .EMPTY, .POLE, .POLE, .POLE, .POLE, .POLE, .EMPTY, .EMPTY, .EMPTY, .EMPTY, .EMPTY, .EMPTY, .EMPTY, .EMPTY, .EMPTY, .EMPTY, .EMPTY, .EMPTY, .EMPTY, .EMPTY, .EMPTY, .EMPTY, .EMPTY, .EMPTY, .EMPTY, .EMPTY],
  [.EMPTY, .EMPTY, .EMPTY, .LADDER, .EMPTY, .EMPTY, .EMPTY, .LADDER, .POLE, .POLE, .POLE, .POLE, .POLE, .POLE, .POLE, .POLE, .POLE, .POLE, .POLE, .POLE, .POLE, .POLE, .POLE, .POLE, .EMPTY, .EMPTY, .EMPTY, .EMPTY],
  [.EMPTY, .EMPTY, .BRICK_HARD, .LADDER, .LADDER, .BRICK, .BRICK, .LADDER, .BRICK, .EMPTY, .EMPTY, .EMPTY, .EMPTY, .EMPTY, .GOLD, .EMPTY, .EMPTY, .EMPTY, .EMPTY, .EMPTY, .EMPTY, .EMPTY, .EMPTY, .BRICK, .BRICK, .BRICK_HARD, .BRICK_TRAP, .BRICK_HARD],
  [.EMPTY, .EMPTY, .EMPTY, .POLE, .POLE, .POLE, .POLE, .POLE, .POLE, .POLE, .POLE, .POLE, .LADDER, .LADDER, .LADDER, .LADDER, .EMPTY, .EMPTY, .EMPTY, .EMPTY, .EMPTY, .EMPTY, .EMPTY, .EMPTY, .EMPTY, .EMPTY, .EMPTY, .EMPTY],
  [.EMPTY, .EMPTY, .EMPTY, .LADDER, .EMPTY, .EMPTY, .EMPTY, .GOLD, .EMPTY, .EMPTY, .EMPTY, .EMPTY, .LADDER, .POLE, .POLE, .POLE, .POLE, .EMPTY, .GOLD, .EMPTY, .EMPTY, .EMPTY, .EMPTY, .EMPTY, .EMPTY, .EMPTY, .EMPTY, .EMPTY],
  [.EMPTY, .EMPTY, .BRICK, .LADDER, .BRICK, .BRICK, .BRICK, .BRICK_HARD, .BRICK, .BRICK, .BRICK, .EMPTY, .LADDER, .EMPTY, .EMPTY, .EMPTY, .BRICK_TRAP, .LADDER, .BRICK, .BRICK, .BRICK, .BRICK, .EMPTY, .EMPTY, .EMPTY, .EMPTY, .EMPTY, .EMPTY],
  [.EMPTY, .EMPTY, .EMPTY, .EMPTY, .EMPTY, .EMPTY, .EMPTY, .EMPTY, .EMPTY, .EMPTY, .EMPTY, .EMPTY, .LADDER, .EMPTY, .EMPTY, .EMPTY, .EMPTY, .EMPTY, .EMPTY, .EMPTY, .EMPTY, .EMPTY, .EMPTY, .EMPTY, .EMPTY, .EMPTY, .EMPTY, .EMPTY],
  [.EMPTY, .EMPTY, .EMPTY, .GOLD, .EMPTY, .EMPTY, .POLE, .POLE, .POLE, .POLE, .LADDER, .LADDER, .LADDER, .EMPTY, .EMPTY, .EMPTY, .EMPTY, .EMPTY, .EMPTY, .EMPTY, .EMPTY, .EMPTY, .EMPTY, .EMPTY, .EMPTY, .EMPTY, .EMPTY, .EMPTY],
  [.EMPTY, .EMPTY, .BRICK, .BRICK_TRAP, .BRICK_HARD, .BRICK, .BRICK, .EMPTY, .EMPTY, .EMPTY, .LADDER, .EMPTY, .EMPTY, .EMPTY, .EMPTY, .EMPTY, .EMPTY, .BRICK_HARD, .BRICK, .BRICK, .BRICK, .BRICK, .EMPTY, .EMPTY, .EMPTY, .EMPTY, .EMPTY, .EMPTY],
  [.EMPTY, .EMPTY, .EMPTY, .EMPTY, .EMPTY, .EMPTY, .EMPTY, .EMPTY, .EMPTY, .EMPTY, .LADDER, .EMPTY, .EMPTY, .EMPTY, .EMPTY, .EMPTY, .EMPTY, .EMPTY, .EMPTY, .EMPTY, .EMPTY, .EMPTY, .EMPTY, .EMPTY, .EMPTY, .EMPTY, .EMPTY, .EMPTY],
  [.EMPTY, .EMPTY, .GOLD, .EMPTY, .EMPTY, .EMPTY, .EMPTY, .EMPTY, .EMPTY, .GOLD, .LADDER, .EMPTY, .EMPTY, .EMPTY, .EMPTY, .EMPTY, .EMPTY, .GOLD, .EMPTY, .EMPTY, .EMPTY, .EMPTY, .GOLD, .EMPTY, .EMPTY, .EMPTY, .GOLD, .EMPTY],
  [.EMPTY, .BRICK, .BRICK, .BRICK, .BRICK_HARD, .BRICK, .EMPTY, .LADDER, .LADDER, .LADDER, .LADDER, .BRICK, .BRICK_HARD, .BRICK, .BRICK, .BRICK, .BRICK, .BRICK, .EMPTY, .EMPTY, .BRICK, .BRICK_TRAP, .BRICK, .BRICK, .BRICK, .BRICK_HARD, .BRICK, .BRICK],
  [.EMPTY, .EMPTY, .EMPTY, .EMPTY, .EMPTY, .EMPTY, .LADDER, .EMPTY, .EMPTY, .EMPTY, .EMPTY, .EMPTY, .EMPTY, .EMPTY, .EMPTY, .EMPTY, .EMPTY, .EMPTY, .EMPTY, .EMPTY, .EMPTY, .EMPTY, .EMPTY, .EMPTY, .EMPTY, .EMPTY, .EMPTY, .EMPTY],
  [.EMPTY, .EMPTY, .EMPTY, .EMPTY, .EMPTY, .EMPTY, .LADDER, .EMPTY, .GOLD, .EMPTY, .EMPTY, .EMPTY, .EMPTY, .EMPTY, .EMPTY, .GOLD, .EMPTY, .EMPTY, .EMPTY, .EMPTY, .EMPTY, .EMPTY, .EMPTY, .GOLD, .EMPTY, .EMPTY, .EMPTY, .EMPTY],
  [.BRICK, .BRICK, .BRICK, .BRICK, .BRICK, .BRICK, .BRICK, .BRICK, .BRICK, .BRICK, .BRICK, .BRICK, .BRICK, .BRICK, .BRICK, .BRICK, .BRICK, .BRICK, .BRICK, .BRICK, .BRICK, .BRICK, .BRICK, .BRICK, .BRICK, .BRICK, .BRICK, .BRICK]], [], ⟨10, 14⟩, [⟨4, 11⟩, ⟨19, 14⟩, ⟨12, 7⟩, ⟨27, 11⟩], [⟨17, 11⟩, ⟨15, 14⟩, ⟨23, 14⟩, ⟨2, 11⟩, ⟨22, 11⟩, ⟨26, 11⟩, ⟨9, 11⟩, ⟨8, 14⟩, ⟨14, 3⟩, ⟨7, 5⟩, ⟨3, 8⟩, ⟨18, 5⟩], [], 1⟩
def S11 : Nat := 556796016224
def M12 : TileMap := ⟨28, 16, [[.EMPTY, .EMPTY, .EMPTY, .EMPTY, .EMPTY, .EMPTY, .EMPTY, .EMPTY, .EMPTY, .EMPTY, .EMPTY, .EMPTY, .EMPTY, .EMPTY, .EMPTY, .EMPTY, .EMPTY, .EMPTY, .EMPTY, .EMPTY, .EMPTY, .EMPTY, .EMPTY, .EMPTY, .EMPTY, .EMPTY, .EMPTY, .EMPTY],
  [.EMPTY, .EMPTY, .EMPTY, .POLE, .POLE, .POLE, .POLE, .POLE, .EMPTY, .EMPTY, .EMPTY, .EMPTY, .EMPTY, .EMPTY, .EMPTY, .EMPTY, .EMPTY, .EMPTY, .EMPTY, .EMPTY, .EMPTY, .EMPTY, .EMPTY, .EMPTY, .EMPTY, .EMPTY, .EMPTY, .EMPTY],
  [.EMPTY, .EMPTY, .EMPTY, .EMPTY, .EMPTY, .EMPTY, .EMPTY, .EMPTY, .POLE, .POLE, .POLE, .POLE, .POLE, .POLE, .POLE, .POLE, .POLE, .POLE, .POLE, .POLE, .POLE, .POLE, .POLE, .POLE, .EMPTY, .EMPTY, .EMPTY, .EMPTY],
  [.EMPTY, .EMPTY, .BRICK_HARD, .EMPTY, .EMPTY, .BRICK, .BRICK, .EMPTY, .BRICK, .EMPTY, .EMPTY, .EMPTY, .EMPTY, .EMPTY, .GOLD, .EMPTY, .EMPTY, .EMPTY, .EMPTY, .EMPTY, .EMPTY, .EMPTY, .EMPTY, .BRICK, .BRICK, .BRICK_HARD, .BRICK_TRAP, .BRICK_HARD],
  [.EMPTY, .EMPTY, .EMPTY, .POLE, .POLE, .POLE, .POLE, .POLE, .POLE, .POLE, .POLE, .POLE, .LADDER, .LADDER, .LADDER, .LADDER, .EMPTY, .EMPTY, .EMPTY, .EMPTY, .EMPTY, .EMPTY, .EMPTY, .EMPTY, .EMPTY, .EMPTY, .EMPTY, .EMPTY],
  [.EMPTY, .EMPTY, .EMPTY, .LADDER, .EMPTY, .EMPTY, .EMPTY, .GOLD, .EMPTY, .EMPTY, .EMPTY, .EMPTY, .LADDER, .POLE, .LADDER, .POLE, .POLE, .EMPTY, .GOLD, .EMPTY, .EMPTY, .EMPTY, .EMPTY, .EMPTY, .EMPTY, .EMPTY, .EMPTY, .EMPTY],
  [.EMPTY, .EMPTY, .BRICK, .LADDER, .BRICK, .BRICK, .BRICK, .BRICK_HARD, .BRICK, .BRICK, .BRICK, .EMPTY, .LADDER, .EMPTY, .LADDER, .EMPTY, .BRICK_TRAP, .LADDER, .BRICK, .BRICK, .BRICK, .BRICK, .EMPTY, .EMPTY, .EMPTY, .EMPTY, .EMPTY, .EMPTY],
  [.EMPTY, .EMPTY, .EMPTY, .EMPTY, .EMPTY, .EMPTY, .EMPTY, .EMPTY, .EMPTY, .EMPTY, .EMPTY, .EMPTY, .LADDER, .EMPTY, .LADDER, .EMPTY, .EMPTY, .EMPTY, .EMPTY, .EMPTY, .EMPTY, .EMPTY, .EMPTY, .EMPTY, .EMPTY, .EMPTY, .EMPTY, .EMPTY],
  [.EMPTY, .EMPTY, .EMPTY, .GOLD, .EMPTY, .EMPTY, .POLE, .POLE, .POLE, .POLE, .LADDER, .LADDER, .LADDER, .EMPTY, .EMPTY, .EMPTY, .EMPTY, .EMPTY, .EMPTY, .EMPTY, .EMPTY, .EMPTY, .EMPTY, .EMPTY, .EMPTY, .EMPTY, .EMPTY, .EMPTY],
  [.EMPTY, .EMPTY, .BRICK, .BRICK_TRAP, .BRICK_HARD, .BRICK, .BRICK, .EMPTY, .EMPTY, .EMPTY, .LADDER, .EMPTY, .EMPTY, .EMPTY, .EMPTY, .EMPTY, .EMPTY, .BRICK_HARD, .BRICK, .BRICK, .BRICK, .BRICK, .EMPTY, .EMPTY, .EMPTY, .EMPTY, .EMPTY, .EMPTY],
  [.EMPTY, .EMPTY, .EMPTY, .EMPTY, .EMPTY, .EMPTY, .EMPTY, .EMPTY, .EMPTY, .EMPTY, .LADDER, .EMPTY, .EMPTY, .EMPTY, .EMPTY, .EMPTY, .EMPTY, .EMPTY, .EMPTY, .EMPTY, .EMPTY, .EMPTY, .EMPTY, .EMPTY, .EMPTY, .EMPTY, .EMPTY, .EMPTY],
  [.EMPTY, .EMPTY, .GOLD, .EMPTY, .EMPTY, .EMPTY, .EMPTY, .EMPTY, .EMPTY, .GOLD, .LADDER, .EMPTY, .EMPTY, .EMPTY, .EMPTY, .EMPTY, .EMPTY, .GOLD, .EMPTY, .EMPTY, .EMPTY, .EMPTY, .GOLD, .EMPTY, .EMPTY, .EMPTY, .GOLD, .EMPTY],
  [.EMPTY, .BRICK, .BRICK, .BRICK, .BRICK_HARD, .BRICK, .EMPTY, .LADDER, .LADDER, .LADDER, .LADDER, .BRICK, .BRICK_HARD, .BRICK, .BRICK, .BRICK, .BRICK, .BRICK, .EMPTY, .EMPTY, .BRICK, .BRICK_TRAP, .BRICK, .BRICK, .BRICK, .BRICK_HARD, .BRICK, .BRICK],
  [.EMPTY, .EMPTY, .EMPTY, .EMPTY, .EMPTY, .EMPTY, .LADDER, .EMPTY, .EMPTY, .EMPTY, .EMPTY, .EMPTY, .EMPTY, .EMPTY, .EMPTY, .EMPTY, .EMPTY, .EMPTY, .EMPTY, .EMPTY, .EMPTY, .EMPTY, .EMPTY, .EMPTY, .EMPTY, .EMPTY, .EMPTY, .EMPTY],
  [.EMPTY, .EMPTY, .EMPTY, .EMPTY, .EMPTY, .EMPTY, .LADDER, .EMPTY, .GOLD, .EMPTY, .EMPTY, .EMPTY, .EMPTY, .EMPTY, .EMPTY, .GOLD, .EMPTY, .EMPTY, .EMPTY, .EMPTY, .EMPTY, .EMPTY, .EMPTY, .GOLD, .EMPTY, .EMPTY, .EMPTY, .EMPTY],
  [.BRICK, .BRICK, .BRICK, .BRICK, .BRICK, .BRICK, .BRICK, .BRICK, .BRICK, .BRICK, .BRICK, .BRICK, .BRICK, .BRICK, .BRICK, .BRICK, .BRICK, .BRICK, .BRICK, .BRICK, .BRICK, .BRICK, .BRICK, .BRICK, .BRICK, .BRICK, .BRICK, .BRICK]], [], ⟨10, 14⟩, [⟨4, 11⟩, ⟨19, 14⟩, ⟨12, 7⟩, ⟨27, 11⟩], [⟨17, 11⟩, ⟨15, 14⟩, ⟨23, 14⟩, ⟨2, 11⟩, ⟨22, 11⟩, ⟨26, 11⟩, ⟨9, 11⟩, ⟨8, 14⟩, ⟨14, 3⟩, ⟨7, 5⟩, ⟨3, 8⟩, ⟨18, 5⟩], [⟨14, 0⟩, ⟨14, 1⟩, ⟨14, 2⟩, ⟨14, 3⟩], 1⟩
def S12 : Nat := 556796016224

def E7 : TileMap := ⟨28, 16, [[.EMPTY, .EMPTY, .EMPTY, .EMPTY, .EMPTY, .EMPTY, .EMPTY, .EMPTY, .EMPTY, .EMPTY, .EMPTY, .EMPTY, .EMPTY, .EMPTY, .EMPTY, .EMPTY, .EMPTY, .EMPTY, .EMPTY, .EMPTY, .EMPTY, .EMPTY, .EMPTY, .EMPTY, .EMPTY, .EMPTY, .EMPTY, .EMPTY],
  [.EMPTY, .EMPTY, .EMPTY, .POLE, .POLE, .POLE, .POLE, .POLE, .EMPTY, .EMPTY, .EMPTY, .EMPTY, .EMPTY, .EMPTY, .EMPTY, .EMPTY, .EMPTY, .EMPTY, .EMPTY, .EMPTY, .EMPTY, .EMPTY, .EMPTY, .EMPTY, .EMPTY, .EMPTY, .EMPTY, .EMPTY],
  [.EMPTY, .EMPTY, .EMPTY, .LADDER, .EMPTY, .EMPTY, .EMPTY, .LADDER, .POLE, .POLE, .POLE, .POLE, .POLE, .POLE, .POLE, .POLE, .POLE, .POLE, .POLE, .POLE, .POLE, .POLE, .POLE, .POLE, .EMPTY, .EMPTY, .EMPTY, .EMPTY],
  [.EMPTY, .EMPTY, .BRICK_HARD, .LADDER, .LADDER, .BRICK, .BRICK, .LADDER, .BRICK, .EMPTY, .EMPTY, .EMPTY, .EMPTY, .EMPTY, .EMPTY, .EMPTY, .EMPTY, .EMPTY, .EMPTY, .EMPTY, .EMPTY, .EMPTY, .EMPTY, .BRICK, .BRICK, .BRICK_HARD, .BRICK_TRAP, .BRICK_HARD],
  [.EMPTY, .EMPTY, .EMPTY, .POLE, .POLE, .POLE, .POLE, .POLE, .POLE, .POLE, .POLE, .POLE, .LADDER, .LADDER, .LADDER, .LADDER, .EMPTY, .EMPTY, .EMPTY, .EMPTY, .EMPTY, .EMPTY, .EMPTY, .EMPTY, .EMPTY, .EMPTY, .EMPTY, .EMPTY],
  [.EMPTY, .EMPTY, .EMPTY, .LADDER, .EMPTY, .EMPTY, .EMPTY, .EMPTY, .EMPTY, .EMPTY, .EMPTY, .EMPTY, .LADDER, .POLE, .POLE, .POLE, .POLE, .EMPTY, .EMPTY, .EMPTY, .EMPTY, .EMPTY, .EMPTY, .EMPTY, .EMPTY, .EMPTY, .EMPTY, .EMPTY],
  [.EMPTY, .EMPTY, .BRICK, .LADDER, .BRICK, .BRICK, .BRICK, .BRICK_HARD, .BRICK, .BRICK, .BRICK, .EMPTY, .LADDER, .EMPTY, .EMPTY, .EMPTY, .BRICK_TRAP, .LADDER, .BRICK, .BRICK, .BRICK, .BRICK, .EMPTY, .EMPTY, .EMPTY, .EMPTY, .EMPTY, .EMPTY],
  [.EMPTY, .EMPTY, .EMPTY, .EMPTY, .EMPTY, .EMPTY, .EMPTY, .EMPTY, .EMPTY, .EMPTY, .EMPTY, .EMPTY, .LADDER, .EMPTY, .EMPTY, .EMPTY, .EMPTY, .EMPTY, .EMPTY, .EMPTY, .EMPTY, .EMPTY, .EMPTY, .EMPTY, .EMPTY, .EMPTY, .EMPTY, .EMPTY],
  [.EMPTY, .EMPTY, .EMPTY, .EMPTY, .EMPTY, .EMPTY, .POLE, .POLE, .POLE, .POLE, .LADDER, .LADDER, .LADDER, .EMPTY, .EMPTY, .EMPTY, .EMPTY, .EMPTY, .EMPTY, .EMPTY, .EMPTY, .EMPTY, .EMPTY, .EMPTY, .EMPTY, .EMPTY, .EMPTY, .EMPTY],
  [.EMPTY, .EMPTY, .BRICK, .BRICK_TRAP, .BRICK_HARD, .BRICK, .BRICK, .EMPTY, .EMPTY, .EMPTY, .LADDER, .EMPTY, .EMPTY, .EMPTY, .EMPTY, .EMPTY, .EMPTY, .BRICK_HARD, .BRICK, .BRICK, .BRICK, .BRICK, .EMPTY, .EMPTY, .EMPTY, .EMPTY, .EMPTY, .EMPTY],
  [.EMPTY, .EMPTY, .EMPTY, .EMPTY, .EMPTY, .EMPTY, .EMPTY, .EMPTY, .EMPTY, .EMPTY, .LADDER, .EMPTY, .EMPTY, .EMPTY, .EMPTY, .EMPTY, .EMPTY, .EMPTY, .EMPTY, .EMPTY, .EMPTY, .EMPTY, .EMPTY, .EMPTY, .EMPTY, .EMPTY, .EMPTY, .EMPTY],
  [.EMPTY, .EMPTY, .EMPTY, .EMPTY, .EMPTY, .EMPTY, .EMPTY, .EMPTY, .EMPTY, .EMPTY, .LADDER, .EMPTY, .EMPTY, .EMPTY, .EMPTY, .EMPTY, .EMPTY, .EMPTY, .EMPTY, .EMPTY, .EMPTY, .EMPTY, .EMPTY, .EMPTY, .EMPTY, .EMPTY, .EMPTY, .EMPTY],
  [.EMPTY, .BRICK, .BRICK, .BRICK, .BRICK_HARD, .BRICK, .EMPTY, .LADDER, .LADDER, .LADDER, .LADDER, .BRICK, .BRICK_HARD, .BRICK, .BRICK, .BRICK, .BRICK, .BRICK, .EMPTY, .EMPTY, .BRICK, .BRICK_TRAP, .BRICK, .BRICK, .BRICK, .BRICK_HARD, .BRICK, .BRICK],
  [.EMPTY, .EMPTY, .EMPTY, .EMPTY, .EMPTY, .EMPTY, .LADDER, .EMPTY, .EMPTY, .EMPTY, .EMPTY, .EMPTY, .EMPTY, .EMPTY, .EMPTY, .EMPTY, .EMPTY, .EMPTY, .EMPTY, .EMPTY, .EMPTY, .EMPTY, .EMPTY, .EMPTY, .EMPTY, .EMPTY, .EMPTY, .EMPTY],
  [.EMPTY, .EMPTY, .EMPTY, .EMPTY, .EMPTY, .EMPTY, .LADDER, .EMPTY, .EMPTY, .EMPTY, .EMPTY, .EMPTY, .EMPTY, .EMPTY, .EMPTY, .EMPTY, .EMPTY, .EMPTY, .EMPTY, .EMPTY, .EMPTY, .EMPTY, .EMPTY, .EMPTY, .EMPTY, .EMPTY, .EMPTY, .EMPTY],
  [.BRICK, .BRICK, .BRICK, .BRICK, .BRICK, .BRICK, .BRICK, .BRICK, .BRICK, .BRICK, .BRICK, .BRICK, .BRICK, .BRICK, .BRICK, .BRICK, .BRICK, .BRICK, .BRICK, .BRICK, .BRICK, .BRICK, .BRICK, .BRICK, .BRICK, .BRICK, .BRICK, .BRICK]], [], ⟨0, 0⟩, [], [], [], 1⟩

def E14 : TileMap := ⟨28, 16, [[.EMPTY, .EMPTY, .EMPTY, .EMPTY, .EMPTY, .EMPTY, .EMPTY, .EMPTY, .EMPTY, .EMPTY, .EMPTY, .EMPTY, .EMPTY, .EMPTY, .EMPTY, .EMPTY, .EMPTY, .EMPTY, .EMPTY, .EMPTY, .EMPTY, .EMPTY, .EMPTY, .EMPTY, .EMPTY, .EMPTY, .EMPTY, .EMPTY],
  [.EMPTY, .EMPTY, .EMPTY, .POLE, .POLE, .POLE, .POLE, .POLE, .EMPTY, .EMPTY, .EMPTY, .EMPTY, .EMPTY, .EMPTY, .EMPTY, .EMPTY, .EMPTY, .EMPTY, .EMPTY, .EMPTY, .EMPTY, .EMPTY, .EMPTY, .EMPTY, .EMPTY, .EMPTY, .EMPTY, .EMPTY],
  [.EMPTY, .EMPTY, .EMPTY, .LADDER, .EMPTY, .EMPTY, .EMPTY, .LADDER, .POLE, .POLE, .POLE, .POLE, .POLE, .POLE, .POLE, .POLE, .POLE, .POLE, .POLE, .POLE, .POLE, .POLE, .POLE, .POLE, .EMPTY, .EMPTY, .EMPTY, .EMPTY],
  [.EMPTY, .EMPTY, .BRICK_HARD, .LADDER, .LADDER, .BRICK, .BRICK, .LADDER, .BRICK, .EMPTY, .EMPTY, .EMPTY, .EMPTY, .EMPTY, .EMPTY, .EMPTY, .EMPTY, .EMPTY, .EMPTY, .EMPTY, .EMPTY, .EMPTY, .EMPTY, .BRICK, .BRICK, .BRICK_HARD, .BRICK_TRAP, .BRICK_HARD],
  [.EMPTY, .EMPTY, .EMPTY, .POLE, .POLE, .POLE, .POLE, .POLE, .POLE, .POLE, .POLE, .POLE, .LADDER, .LADDER, .LADDER, .LADDER, .EMPTY, .EMPTY, .EMPTY, .EMPTY, .EMPTY, .EMPTY, .EMPTY, .EMPTY, .EMPTY, .EMPTY, .EMPTY, .EMPTY],
  [.EMPTY, .EMPTY, .EMPTY, .LADDER, .EMPTY, .EMPTY, .EMPTY, .EMPTY, .EMPTY, .EMPTY, .EMPTY, .EMPTY, .LADDER, .POLE, .POLE, .POLE, .POLE, .EMPTY, .EMPTY, .EMPTY, .EMPTY, .EMPTY, .EMPTY, .EMPTY, .EMPTY, .EMPTY, .EMPTY, .EMPTY],
  [.EMPTY, .EMPTY, .BRICK, .LADDER, .BRICK, .BRICK, .BRICK, .BRICK_HARD, .BRICK, .BRICK, .BRICK, .EMPTY, .LADDER, .EMPTY, .EMPTY, .EMPTY, .BRICK_TRAP, .LADDER, .BRICK, .BRICK, .BRICK, .BRICK, .EMPTY, .EMPTY, .EMPTY, .EMPTY, .EMPTY, .EMPTY],
  [.EMPTY, .EMPTY, .EMPTY, .EMPTY, .EMPTY, .EMPTY, .EMPTY, .EMPTY, .EMPTY, .EMPTY, .EMPTY, .EMPTY, .LADDER, .EMPTY, .EMPTY, .EMPTY, .EMPTY, .EMPTY, .EMPTY, .EMPTY, .EMPTY, .EMPTY, .EMPTY, .EMPTY, .EMPTY, .EMPTY, .EMPTY, .EMPTY],
  [.EMPTY, .EMPTY, .EMPTY, .EMPTY, .EMPTY, .EMPTY, .POLE, .POLE, .POLE, .POLE, .LADDER, .LADDER, .LADDER, .EMPTY, .EMPTY, .EMPTY, .EMPTY, .EMPTY, .EMPTY, .EMPTY, .EMPTY, .EMPTY, .EMPTY, .EMPTY, .EMPTY, .EMPTY, .EMPTY, .EMPTY],
  [.EMPTY, .EMPTY, .BRICK, .BRICK_TRAP, .BRICK_HARD, .BRICK, .BRICK, .EMPTY, .EMPTY, .EMPTY, .LADDER, .EMPTY, .EMPTY, .EMPTY, .EMPTY, .EMPTY, .EMPTY, .BRICK_HARD, .BRICK, .BRICK, .BRICK, .BRICK, .EMPTY, .EMPTY, .EMPTY, .EMPTY, .EMPTY, .EMPTY],
  [.EMPTY, .EMPTY, .EMPTY, .EMPTY, .EMPTY, .EMPTY, .EMPTY, .EMPTY, .EMPTY, .EMPTY, .LADDER, .EMPTY, .EMPTY, .EMPTY, .EMPTY, .EMPTY, .EMPTY, .EMPTY, .EMPTY, .EMPTY, .EMPTY, .EMPTY, .EMPTY, .EMPTY, .EMPTY, .EMPTY, .EMPTY, .EMPTY],
  [.EMPTY, .EMPTY, .EMPTY, .EMPTY, .EMPTY, .EMPTY, .EMPTY, .EMPTY, .EMPTY, .EMPTY, .LADDER, .EMPTY, .EMPTY, .EMPTY, .EMPTY, .EMPTY, .EMPTY, .EMPTY, .EMPTY, .EMPTY, .EMPTY, .EMPTY, .EMPTY, .EMPTY, .EMPTY, .EMPTY, .EMPTY, .EMPTY],
  [.EMPTY, .BRICK, .BRICK, .BRICK, .BRICK_HARD, .BRICK, .EMPTY, .LADDER, .LADDER, .LADDER, .LADDER, .BRICK, .BRICK_HARD, .BRICK, .BRICK, .BRICK, .BRICK, .BRICK, .EMPTY, .EMPTY, .BRICK, .BRICK_TRAP, .BRICK, .BRICK, .BRICK, .BRICK_HARD, .BRICK, .BRICK],
  [.EMPTY, .EMPTY, .EMPTY, .EMPTY, .EMPTY, .EMPTY, .LADDER, .EMPTY, .EMPTY, .EMPTY, .EMPTY, .EMPTY, .EMPTY, .EMPTY, .EMPTY, .EMPTY, .EMPTY, .EMPTY, .EMPTY, .EMPTY, .EMPTY, .EMPTY, .EMPTY, .EMPTY, .EMPTY, .EMPTY, .EMPTY, .EMPTY],
  [.EMPTY, .EMPTY, .EMPTY, .EMPTY, .EMPTY, .EMPTY, .LADDER, .EMPTY, .EMPTY, .EMPTY, .EMPTY, .EMPTY, .EMPTY, .EMPTY, .EMPTY, .EMPTY, .EMPTY, .EMPTY, .EMPTY, .EMPTY, .EMPTY, .EMPTY, .EMPTY, .EMPTY, .EMPTY, .EMPTY, .EMPTY, .EMPTY],
  [.BRICK, .BRICK, .BRICK, .BRICK, .BRICK, .BRICK, .BRICK, .BRICK, .BRICK, .BRICK, .BRICK, .BRICK, .BRICK, .BRICK, .BRICK, .BRICK, .BRICK, .BRICK, .BRICK, .BRICK, .BRICK, .BRICK, .BRICK, .BRICK, .BRICK, .BRICK, .BRICK, .BRICK]], [], ⟨0, 0⟩, [], [], [], 1⟩

def E21 : TileMap := ⟨28, 16, [[.EMPTY, .EMPTY, .EMPTY, .EMPTY, .EMPTY, .EMPTY, .EMPTY, .EMPTY, .EMPTY, .EMPTY, .EMPTY, .EMPTY, .EMPTY, .EMPTY, .EMPTY, .EMPTY, .EMPTY, .EMPTY, .EMPTY, .EMPTY, .EMPTY, .EMPTY, .EMPTY, .EMPTY, .EMPTY, .EMPTY, .EMPTY, .EMPTY],
  [.EMPTY, .EMPTY, .EMPTY, .POLE, .POLE, .POLE, .POLE, .POLE, .EMPTY, .EMPTY, .EMPTY, .EMPTY, .EMPTY, .EMPTY, .EMPTY, .EMPTY, .EMPTY, .EMPTY, .EMPTY, .EMPTY, .EMPTY, .EMPTY, .EMPTY, .EMPTY, .EMPTY, .EMPTY, .EMPTY, .EMPTY],
  [.EMPTY, .EMPTY, .EMPTY, .LADDER, .EMPTY, .EMPTY, .EMPTY, .LADDER, .POLE, .POLE, .POLE, .POLE, .POLE, .POLE, .POLE, .POLE, .POLE, .POLE, .POLE, .POLE, .POLE, .POLE, .POLE, .POLE, .EMPTY, .EMPTY, .EMPTY, .EMPTY],
  [.EMPTY, .EMPTY, .BRICK_HARD, .LADDER, .LADDER, .BRICK, .BRICK, .LADDER, .BRICK, .EMPTY, .EMPTY, .EMPTY, .EMPTY, .EMPTY, .EMPTY, .EMPTY, .EMPTY, .EMPTY, .EMPTY, .EMPTY, .EMPTY, .EMPTY, .EMPTY, .BRICK, .BRICK, .BRICK_HARD, .BRICK_TRAP, .BRICK_HARD],
  [.EMPTY, .EMPTY, .EMPTY, .POLE, .POLE, .POLE, .POLE, .POLE, .POLE, .POLE, .POLE, .POLE, .LADDER, .LADDER, .LADDER, .LADDER, .EMPTY, .EMPTY, .EMPTY, .EMPTY, .EMPTY, .EMPTY, .EMPTY, .EMPTY, .EMPTY, .EMPTY, .EMPTY, .EMPTY],
  [.EMPTY, .EMPTY, .EMPTY, .LADDER, .EMPTY, .EMPTY, .EMPTY, .EMPTY, .EMPTY, .EMPTY, .EMPTY, .EMPTY, .LADDER, .POLE, .POLE, .POLE, .POLE, .EMPTY, .EMPTY, .EMPTY, .EMPTY, .EMPTY, .EMPTY, .EMPTY, .EMPTY, .EMPTY, .EMPTY, .EMPTY],
  [.EMPTY, .EMPTY, .BRICK, .LADDER, .BRICK, .BRICK, .BRICK, .BRICK_HARD, .BRICK, .BRICK, .BRICK, .EMPTY, .LADDER, .EMPTY, .EMPTY, .EMPTY, .BRICK_TRAP, .LADDER, .BRICK, .BRICK, .BRICK, .BRICK, .EMPTY, .EMPTY, .EMPTY, .EMPTY, .EMPTY, .EMPTY],
  [.EMPTY, .EMPTY, .EMPTY, .EMPTY, .EMPTY, .EMPTY, .EMPTY, .EMPTY, .EMPTY, .EMPTY, .EMPTY, .EMPTY, .LADDER, .EMPTY, .EMPTY, .EMPTY, .EMPTY, .EMPTY, .EMPTY, .EMPTY, .EMPTY, .EMPTY, .EMPTY, .EMPTY, .EMPTY, .EMPTY, .EMPTY, .EMPTY],
  [.EMPTY, .EMPTY, .EMPTY, .EMPTY, .EMPTY, .EMPTY, .POLE, .POLE, .POLE, .POLE, .LADDER, .LADDER, .LADDER, .EMPTY, .EMPTY, .EMPTY, .EMPTY, .EMPTY, .EMPTY, .EMPTY, .EMPTY, .EMPTY, .EMPTY, .EMPTY, .EMPTY, .EMPTY, .EMPTY, .EMPTY],
  [.EMPTY, .EMPTY, .BRICK, .BRICK_TRAP, .BRICK_HARD, .BRICK, .BRICK, .EMPTY, .EMPTY, .EMPTY, .LADDER, .EMPTY, .EMPTY, .EMPTY, .EMPTY, .EMPTY, .EMPTY, .BRICK_HARD, .BRICK, .BRICK, .BRICK, .BRICK, .EMPTY, .EMPTY, .EMPTY, .EMPTY, .EMPTY, .EMPTY],
  [.EMPTY, .EMPTY, .EMPTY, .EMPTY, .EMPTY, .EMPTY, .EMPTY, .EMPTY, .EMPTY, .EMPTY, .LADDER, .EMPTY, .EMPTY, .EMPTY, .EMPTY, .EMPTY, .EMPTY, .EMPTY, .EMPTY, .EMPTY, .EMPTY, .EMPTY, .EMPTY, .EMPTY, .EMPTY, .EMPTY, .EMPTY, .EMPTY],
  [.EMPTY, .EMPTY, .EMPTY, .EMPTY, .EMPTY, .EMPTY, .EMPTY, .EMPTY, .EMPTY, .EMPTY, .LADDER, .EMPTY, .EMPTY, .EMPTY, .EMPTY, .EMPTY, .EMPTY, .EMPTY, .EMPTY, .EMPTY, .EMPTY, .EMPTY, .EMPTY, .EMPTY, .EMPTY, .EMPTY, .EMPTY, .EMPTY],
  [.EMPTY, .BRICK, .BRICK, .BRICK, .BRICK_HARD, .BRICK, .EMPTY, .LADDER, .LADDER, .LADDER, .LADDER, .BRICK, .BRICK_HARD, .BRICK, .BRICK, .BRICK, .BRICK, .BRICK, .EMPTY, .EMPTY, .BRICK, .BRICK_TRAP, .BRICK, .BRICK, .BRICK, .BRICK_HARD, .BRICK, .BRICK],
  [.EMPTY, .EMPTY, .EMPTY, .EMPTY, .EMPTY, .EMPTY, .LADDER, .EMPTY, .EMPTY, .EMPTY, .EMPTY, .EMPTY, .EMPTY, .EMPTY, .EMPTY, .EMPTY, .EMPTY, .EMPTY, .EMPTY, .EMPTY, .EMPTY, .EMPTY, .EMPTY, .EMPTY, .EMPTY, .EMPTY, .EMPTY, .EMPTY],
  [.EMPTY, .EMPTY, .EMPTY, .EMPTY, .EMPTY, .EMPTY, .LADDER, .EMPTY, .EMPTY, .EMPTY, .EMPTY, .EMPTY, .EMPTY, .EMPTY, .EMPTY, .EMPTY, .EMPTY, .EMPTY, .EMPTY, .EMPTY, .EMPTY, .EMPTY, .EMPTY, .EMPTY, .EMPTY, .EMPTY, .EMPTY, .EMPTY],
  [.BRICK, .BRICK, .BRICK, .BRICK, .BRICK, .BRICK, .BRICK, .BRICK, .BRICK, .BRICK, .BRICK, .BRICK, .BRICK, .BRICK, .BRICK, .BRICK, .BRICK, .BRICK, .BRICK, .BRICK, .BRICK, .BRICK, .BRICK, .BRICK, .BRICK, .BRICK, .BRICK, .BRICK]], [], ⟨0, 0⟩, [], [], [], 1⟩

def E28 : TileMap := ⟨28, 16, [[.EMPTY, .EMPTY, .EMPTY, .EMPTY, .EMPTY, .EMPTY, .EMPTY, .EMPTY, .EMPTY, .EMPTY, .EMPTY, .EMPTY, .EMPTY, .EMPTY, .EMPTY, .EMPTY, .EMPTY, .EMPTY, .EMPTY, .EMPTY, .EMPTY, .EMPTY, .EMPTY, .EMPTY, .EMPTY, .EMPTY, .EMPTY, .EMPTY],
  [.EMPTY, .EMPTY, .EMPTY, .POLE, .POLE, .POLE, .POLE, .POLE, .EMPTY, .EMPTY, .EMPTY, .EMPTY, .EMPTY, .EMPTY, .EMPTY, .EMPTY, .EMPTY, .EMPTY, .EMPTY, .EMPTY, .EMPTY, .EMPTY, .EMPTY, .EMPTY, .EMPTY, .EMPTY, .EMPTY, .EMPTY],
  [.EMPTY, .EMPTY, .EMPTY, .LADDER, .EMPTY, .EMPTY, .EMPTY, .LADDER, .POLE, .POLE, .POLE, .POLE, .POLE, .POLE, .POLE, .POLE, .POLE, .POLE, .POLE, .POLE, .POLE, .POLE, .POLE, .POLE, .EMPTY, .EMPTY, .EMPTY, .EMPTY],
  [.EMPTY, .EMPTY, .BRICK_HARD, .LADDER, .LADDER, .BRICK, .BRICK, .LADDER, .BRICK, .EMPTY, .EMPTY, .EMPTY, .EMPTY, .EMPTY, .EMPTY, .EMPTY, .EMPTY, .EMPTY, .EMPTY, .EMPTY, .EMPTY, .EMPTY, .EMPTY, .BRICK, .BRICK, .BRICK_HARD, .BRICK_TRAP, .BRICK_HARD],
  [.EMPTY, .EMPTY, .EMPTY, .POLE, .POLE, .POLE, .POLE, .POLE, .POLE, .POLE, .POLE, .POLE, .LADDER, .LADDER, .LADDER, .LADDER, .EMPTY, .EMPTY, .EMPTY, .EMPTY, .EMPTY, .EMPTY, .EMPTY, .EMPTY, .EMPTY, .EMPTY, .EMPTY, .EMPTY],
  [.EMPTY, .EMPTY, .EMPTY, .LADDER, .EMPTY, .EMPTY, .EMPTY, .EMPTY, .EMPTY, .EMPTY, .EMPTY, .EMPTY, .LADDER, .POLE, .POLE, .POLE, .POLE, .EMPTY, .EMPTY, .EMPTY, .EMPTY, .EMPTY, .EMPTY, .EMPTY, .EMPTY, .EMPTY, .EMPTY, .EMPTY],
  [.EMPTY, .EMPTY, .BRICK, .LADDER, .BRICK, .BRICK, .BRICK, .BRICK_HARD, .BRICK, .BRICK, .BRICK, .EMPTY, .LADDER, .EMPTY, .EMPTY, .EMPTY, .BRICK_TRAP, .LADDER, .BRICK, .BRICK, .BRICK, .BRICK, .EMPTY, .EMPTY, .EMPTY, .EMPTY, .EMPTY, .EMPTY],
  [.EMPTY, .EMPTY, .EMPTY, .EMPTY, .EMPTY, .EMPTY, .EMPTY, .EMPTY, .EMPTY, .EMPTY, .EMPTY, .EMPTY, .LADDER, .EMPTY, .EMPTY, .EMPTY, .EMPTY, .EMPTY, .EMPTY, .EMPTY, .EMPTY, .EMPTY, .EMPTY, .EMPTY, .EMPTY, .EMPTY, .EMPTY, .EMPTY],
  [.EMPTY, .EMPTY, .EMPTY, .EMPTY, .EMPTY, .EMPTY, .POLE, .POLE, .POLE, .POLE, .LADDER, .LADDER, .LADDER, .EMPTY, .EMPTY, .EMPTY, .EMPTY, .EMPTY, .EMPTY, .EMPTY, .EMPTY, .EMPTY, .EMPTY, .EMPTY, .EMPTY, .EMPTY, .EMPTY, .EMPTY],
  [.EMPTY, .EMPTY, .BRICK, .BRICK_TRAP, .BRICK_HARD, .BRICK, .BRICK, .EMPTY, .EMPTY, .EMPTY, .LADDER, .EMPTY, .EMPTY, .EMPTY, .EMPTY, .EMPTY, .EMPTY, .BRICK_HARD, .BRICK, .BRICK, .BRICK, .BRICK, .EMPTY, .EMPTY, .EMPTY, .EMPTY, .EMPTY, .EMPTY],
  [.EMPTY, .EMPTY, .EMPTY, .EMPTY, .EMPTY, .EMPTY, .EMPTY, .EMPTY, .EMPTY, .EMPTY, .LADDER, .EMPTY, .EMPTY, .EMPTY, .EMPTY, .EMPTY, .EMPTY, .EMPTY, .EMPTY, .EMPTY, .EMPTY, .EMPTY, .EMPTY, .EMPTY, .EMPTY, .EMPTY, .EMPTY, .EMPTY],
  [.EMPTY, .EMPTY, .EMPTY, .EMPTY, .EMPTY, .EMPTY, .EMPTY, .EMPTY, .EMPTY, .EMPTY, .LADDER, .EMPTY, .EMPTY, .EMPTY, .EMPTY, .EMPTY, .EMPTY, .EMPTY, .EMPTY, .EMPTY, .EMPTY, .EMPTY, .EMPTY, .EMPTY, .EMPTY, .EMPTY, .EMPTY, .EMPTY],
  [.EMPTY, .BRICK, .BRICK, .BRICK, .BRICK_HARD, .BRICK, .EMPTY, .LADDER, .LADDER, .LADDER, .LADDER, .BRICK, .BRICK_HARD, .BRICK, .BRICK, .BRICK, .BRICK, .BRICK, .EMPTY, .EMPTY, .BRICK, .BRICK_TRAP, .BRICK, .BRICK, .BRICK, .BRICK_HARD, .BRICK, .BRICK],
  [.EMPTY, .EMPTY, .EMPTY, .EMPTY, .EMPTY, .EMPTY, .LADDER, .EMPTY, .EMPTY, .EMPTY, .EMPTY, .EMPTY, .EMPTY, .EMPTY, .EMPTY, .EMPTY, .EMPTY, .EMPTY, .EMPTY, .EMPTY, .EMPTY, .EMPTY, .EMPTY, .EMPTY, .EMPTY, .EMPTY, .EMPTY, .EMPTY],
  [.EMPTY, .EMPTY, .EMPTY, .EMPTY, .EMPTY, .EMPTY, .LADDER, .EMPTY, .EMPTY, .EMPTY, .EMPTY, .EMPTY, .EMPTY, .EMPTY, .EMPTY, .EMPTY, .EMPTY, .EMPTY, .EMPTY, .EMPTY, .EMPTY, .EMPTY, .EMPTY, .EMPTY, .EMPTY, .EMPTY, .EMPTY, .EMPTY],
  [.BRICK, .BRICK, .BRICK, .BRICK, .BRICK, .BRICK, .BRICK, .BRICK, .BRICK, .BRICK, .BRICK, .BRICK, .BRICK, .BRICK, .BRICK, .BRICK, .BRICK, .BRICK, .BRICK, .BRICK, .BRICK, .BRICK, .BRICK, .BRICK, .BRICK, .BRICK, .BRICK, .BRICK]], [], ⟨0, 0⟩, [], [], [], 1⟩


/-! ## Theorems -/

open SolvabilityChecker

/-- Helper: mapping `getD` over `List.range n` reproduces a list of length `n`. -/
theorem range_map_getD {α : Type} (l : List α) (d : α) (n : Nat) (h : l.length = n) :
    (List.range n).map (fun i => l.getD i d) = l := by
  apply List.ext_getElem
  · simp [h]
  · intro i h1 h2
    simp only [List.getElem_map, List.getElem_range]
    rw [List.getD_eq_getElem l d (by simpa [h] using h2)]

/-- `setTile` touches only the tile matrix. -/
theorem setTile_fields (m : TileMap) (x y : Int) (t : TileT) :
    (m.setTile x y t).width = m.width ∧ (m.setTile x y t).height = m.height ∧
    (m.setTile x y t).holes = m.holes := by
  unfold TileMap.setTile
  split <;> exact ⟨rfl, rfl, rfl⟩

/-- `setTile` preserves the matrix shape. -/
theorem setTile_WFShape (m : TileMap) (x y : Int) (t : TileT) (hs : WFShape m) :
    WFShape (m.setTile x y t) := by
  unfold TileMap.setTile
  split
  case isTrue hb =>
    obtain ⟨hlen, hrow⟩ := hs
    refine ⟨by simpa using hlen, ?_⟩
    intro row hmem
    rcases List.mem_or_eq_of_mem_set hmem with h | h
    · exact hrow _ h
    · subst h
      rw [List.length_set]
      have hy : y.toNat < m.tiles.length := by
        rw [hlen]; omega
      rw [List.getD_eq_getElem _ _ hy]
      exact hrow _ (List.getElem_mem hy)
  case isFalse => exact hs

/-- Helper: `getD` after `set` at the written index (in bounds). -/
theorem getD_set_self {α : Type} (l : List α) (i : Nat) (a d : α) (h : i < l.length) :
    (l.set i a).getD i d = a := by
  rw [List.getD_eq_getElem _ _ (by simpa using h), List.getElem_set_self (h := by simpa using h)]

/-- Helper: `getD` after `set` at a different index. -/
theorem getD_set_ne {α : Type} (l : List α) (i j : Nat) (a d : α) (h : i ≠ j) :
    (l.set i a).getD j d = l.getD j d := by
  rw [List.getD_eq_getElem?_getD, List.getElem?_set_ne h, ← List.getD_eq_getElem?_getD]

/-- Reading back the cell just written (in bounds). -/
theorem getTile_setTile_self (m : TileMap) (x y : Int) (t : TileT)
    (hs : WFShape m) (hx0 : 0 ≤ x) (hxw : x < (m.width : Int))
    (hy0 : 0 ≤ y) (hyh : y < (m.height : Int)) :
    (m.setTile x y t).getTile x y = t := by
  obtain ⟨hlen, hrow⟩ := hs
  have hy : y.toNat < m.tiles.length := by rw [hlen]; omega
  have hxr : x.toNat < (m.tiles.getD y.toNat []).length := by
    rw [List.getD_eq_getElem _ _ hy, hrow _ (List.getElem_mem hy)]
    omega
  have hset : m.setTile x y t =
      { m with tiles := m.tiles.set y.toNat ((m.tiles.getD y.toNat []).set x.toNat t) } := by
    unfold TileMap.setTile
    rw [if_pos ⟨hx0, hxw, hy0, hyh⟩]
  rw [hset]
  unfold TileMap.getTile
  dsimp only
  have hcond : ¬(x < 0 ∨ x ≥ (m.width : Int) ∨ y < 0 ∨ y ≥ (m.height : Int)) := by omega
  rw [if_neg hcond, getD_set_self _ _ _ _ hy, getD_set_self _ _ _ _ hxr]

/-- Reading any other cell after a write. -/
theorem getTile_setTile_ne (m : TileMap) (x y x' y' : Int) (t : TileT)
    (hne : ¬(x' = x ∧ y' = y)) :
    (m.setTile x y t).getTile x' y' = m.getTile x' y' := by
  by_cases hb : 0 ≤ x ∧ x < (m.width : Int) ∧ 0 ≤ y ∧ y < (m.height : Int)
  · have hset : m.setTile x y t =
        { m with tiles := m.tiles.set y.toNat ((m.tiles.getD y.toNat []).set x.toNat t) } := by
      unfold TileMap.setTile
      rw [if_pos hb]
    rw [hset]
    unfold TileMap.getTile
    dsimp only
    by_cases hout : x' < 0 ∨ x' ≥ (m.width : Int) ∨ y' < 0 ∨ y' ≥ (m.height : Int)
    · rw [if_pos hout, if_pos hout]
    · rw [if_neg hout, if_neg hout]
      push_neg at hout
      by_cases hyy : y'.toNat = y.toNat
      · have hxx : x.toNat ≠ x'.toNat := by
          intro hc
          obtain ⟨hx0, hxw, hy0, hyh⟩ := hb
          exact hne ⟨by omega, by omega⟩
        rw [hyy]
        by_cases hylen : y.toNat < m.tiles.length
        · rw [getD_set_self _ _ _ _ hylen]
          exact getD_set_ne _ _ _ _ _ hxx
        · have hle : m.tiles.length ≤ y.toNat := by omega
          have h1 : (m.tiles.set y.toNat ((m.tiles.getD y.toNat []).set x.toNat t)).getD y.toNat []
              = ([] : List TileT) := List.getD_eq_default _ _ (by simpa using hle)
          have h2 : m.tiles.getD y.toNat [] = ([] : List TileT) := List.getD_eq_default _ _ hle
          rw [h1, h2]
      · rw [getD_set_ne _ _ _ _ _ (fun hc => hyy hc.symm)]
  · have hset : m.setTile x y t = m := by
      unfold TileMap.setTile
      rw [if_neg hb]
    rw [hset]

/-- A cell holding anything other than the hard brick is in bounds. -/
theorem getTile_in_bounds (m : TileMap) (x y : Int)
    (h : m.getTile x y ≠ TileT.BRICK_HARD) :
    0 ≤ x ∧ x < (m.width : Int) ∧ 0 ≤ y ∧ y < (m.height : Int) := by
  by_contra hc
  apply h
  unfold TileMap.getTile
  rw [if_pos (by omega)]

/-- `canDig` succeeds only on soft or trap bricks. -/
theorem canDig_soft (m : TileMap) (x y : Int) (h : m.canDig x y = true) :
    m.getTile x y = TileT.BRICK ∨ m.getTile x y = TileT.BRICK_TRAP := by
  by_contra hne
  push_neg at hne
  unfold TileMap.canDig at h
  simp [hne.1, hne.2] at h

/-- `applyRestores` touches only the tile matrix. -/
theorem applyRestores_fields (ws : List Hole) (m : TileMap) :
    (applyRestores ws m).width = m.width ∧ (applyRestores ws m).height = m.height ∧
    (applyRestores ws m).holes = m.holes := by
  induction ws generalizing m with
  | nil => exact ⟨rfl, rfl, rfl⟩
  | cons w ws ih =>
    have h1 := setTile_fields m w.x w.y w.originalTile
    have h2 := ih (m.setTile w.x w.y w.originalTile)
    exact ⟨h2.1.trans h1.1, h2.2.1.trans h1.2.1, h2.2.2.trans h1.2.2⟩

/-- `applyRestores` preserves the matrix shape. -/
theorem applyRestores_WFShape (ws : List Hole) (m : TileMap) (hs : WFShape m) :
    WFShape (applyRestores ws m) := by
  induction ws generalizing m with
  | nil => exact hs
  | cons w ws ih => exact ih _ (setTile_WFShape _ _ _ _ hs)

/-- Cells at positions not restored by `applyRestores` are unchanged. -/
theorem getTile_applyRestores_notin (ws : List Hole) (m : TileMap) (x y : Int)
    (hnot : ∀ w ∈ ws, ¬(w.x = x ∧ w.y = y)) :
    (applyRestores ws m).getTile x y = m.getTile x y := by
  induction ws generalizing m with
  | nil => rfl
  | cons w ws ih =>
    have h1 := ih (m.setTile w.x w.y w.originalTile) fun v hv => hnot v (List.mem_cons_of_mem _ hv)
    have h2 := getTile_setTile_ne m w.x w.y x y w.originalTile
      (fun hc => hnot w (List.mem_cons_self _ _) ⟨hc.1.symm, hc.2.symm⟩)
    exact h1.trans h2

/-- After restoring a list of in-bounds holes at pairwise distinct
positions, each restored cell holds its hole's original tile. -/
theorem getTile_applyRestores (ws : List Hole) (m : TileMap)
    (hshape : WFShape m)
    (hdist : ws.Pairwise fun h1 h2 => ¬(h1.x = h2.x ∧ h1.y = h2.y))
    (hin : ∀ w ∈ ws, 0 ≤ w.x ∧ w.x < (m.width : Int) ∧ 0 ≤ w.y ∧ w.y < (m.height : Int)) :
    ∀ w ∈ ws, (applyRestores ws m).getTile w.x w.y = w.originalTile := by
  induction ws generalizing m with
  | nil => intro w hw; cases hw
  | cons a ws ih =>
    intro w hw
    have hb := hin a (List.mem_cons_self _ _)
    rcases List.mem_cons.mp hw with h | h
    · subst h
      show (applyRestores ws (m.setTile w.x w.y w.originalTile)).getTile w.x w.y = _
      rw [getTile_applyRestores_notin ws _ w.x w.y
        (fun v hv hc => (List.pairwise_cons.mp hdist).1 v hv ⟨hc.1.symm, hc.2.symm⟩)]
      exact getTile_setTile_self m w.x w.y w.originalTile hshape hb.1 hb.2.1 hb.2.2.1 hb.2.2.2
    · have hw' := (applyRestores_fields [a] m)
      have hwid : (m.setTile a.x a.y a.originalTile).width = m.width := (setTile_fields _ _ _ _).1
      have hhei : (m.setTile a.x a.y a.originalTile).height = m.height := (setTile_fields _ _ _ _).2.1
      exact ih (m.setTile a.x a.y a.originalTile)
        (setTile_WFShape _ _ _ _ hshape)
        (List.pairwise_cons.mp hdist).2
        (fun v hv => by rw [hwid, hhei]; exact hin v (List.mem_cons_of_mem _ hv))
        w h

/-- Full characterization of the `updateHoles` filter pass. -/
theorem updateHolesGo_spec (δ : ℚ) (hs : List Hole) (m : TileMap) :
    TileMap.updateHolesGo δ hs m =
      ((hs.map (decHole δ)).filter (fun h => h.timerMs ≤ 0),
       (hs.map (decHole δ)).filter (fun h => h.timerMs ≤ HOLE_WARNING_MS ∧ h.timerMs > 0),
       (hs.map (decHole δ)).filter (fun h => ¬ h.timerMs ≤ 0),
       applyRestores ((hs.map (decHole δ)).filter (fun h => h.timerMs ≤ 0)) m) := by
  induction hs generalizing m with
  | nil => rfl
  | cons h rest ih =>
    simp only [TileMap.updateHolesGo, List.map_cons, List.filter_cons, ih]
    by_cases h0 : (decHole δ h).timerMs ≤ 0
    · have hw : ¬((decHole δ h).timerMs ≤ HOLE_WARNING_MS ∧ (decHole δ h).timerMs > 0) := by
        rintro ⟨-, hgt⟩
        linarith
      simp [applyRestores, h0, hw]
    · by_cases hw : (decHole δ h).timerMs ≤ HOLE_WARNING_MS ∧ (decHole δ h).timerMs > 0
      · simp [applyRestores, h0, hw]
      · simp [applyRestores, h0, hw]

/-- Characterization of `updateHoles` in terms of the decremented hole
list: component 1 is the filled list, component 2.1 the warning list, and
component 2.2 the updated map. -/
theorem updateHoles_spec (m : TileMap) (d s : ℚ) :
    m.updateHoles d s =
      ((m.holes.map (decHole (d * s))).filter (fun h => h.timerMs ≤ 0),
       (m.holes.map (decHole (d * s))).filter (fun h => h.timerMs ≤ HOLE_WARNING_MS ∧ h.timerMs > 0),
       { applyRestores ((m.holes.map (decHole (d * s))).filter (fun h => h.timerMs ≤ 0)) m with
           holes := (m.holes.map (decHole (d * s))).filter (fun h => ¬ h.timerMs ≤ 0) }) := by
  simp only [TileMap.updateHoles, updateHolesGo_spec]

/-- Positions are untouched by the countdown decrement. -/
theorem countPosAt_map_decHole (δ : ℚ) (hs : List Hole) (p : Pos) :
    countPosAt (hs.map (decHole δ)) p = countPosAt hs p := by
  induction hs with
  | nil => rfl
  | cons h rest ih =>
    by_cases hp : h.x = p.x ∧ h.y = p.y <;>
      simp_all [countPosAt, List.filter_cons, decHole]

/-- The expired/surviving filter partition preserves position counts. -/
theorem countPosAt_timer_partition (hs : List Hole) (p : Pos) :
    countPosAt (hs.filter fun h => ¬ h.timerMs ≤ 0) p +
      countPosAt (hs.filter fun h => h.timerMs ≤ 0) p = countPosAt hs p := by
  induction hs with
  | nil => rfl
  | cons h rest ih =>
    by_cases h0 : h.timerMs ≤ 0 <;> by_cases hp : h.x = p.x ∧ h.y = p.y <;>
      simp_all [countPosAt, List.filter_cons] <;> omega

/-- `digHole` result characterization. -/
theorem digHole_spec (m : TileMap) (x y : Int) :
    m.digHole x y =
      if m.canDig x y then
        (true, { m.setTile x y TileT.HOLE with
          holes := m.holes ++
            [⟨x, y, HOLE_DURATION_MS * m.holeDurationMultiplier, m.getTile x y⟩] })
      else (false, m) := by
  unfold TileMap.digHole
  by_cases h : m.canDig x y
  · rw [if_neg (by simpa using h), if_pos h]
    have hfix := (setTile_fields m x y TileT.HOLE).2.2
    simp [hfix]
  · rw [if_pos (by simpa using h), if_neg h]

/-- `digHole` preserves grid well-formedness. -/
theorem digHole_WF (m : TileMap) (x y : Int) (hwf : WF m) : WF (m.digHole x y).2 := by
  rw [digHole_spec]
  by_cases h : m.canDig x y
  · rw [if_pos h]
    have hshape := hwf.1
    have hholes := hwf.2.1
    have hpair := hwf.2.2
    have hsoft := canDig_soft m x y h
    have hb : 0 ≤ x ∧ x < (m.width : Int) ∧ 0 ≤ y ∧ y < (m.height : Int) := by
      refine getTile_in_bounds m x y ?_
      rcases hsoft with hs | hs <;> rw [hs] <;> exact fun hc => by cases hc
    have hnotat : ∀ hh ∈ m.holes, ¬(hh.x = x ∧ hh.y = y) := by
      intro hh hmem hc
      have h1 := hholes hh hmem
      rw [hc.1, hc.2] at h1
      rcases hsoft with hs | hs <;> rw [hs] at h1 <;> cases h1
    refine ⟨setTile_WFShape m x y TileT.HOLE hshape, ?_, ?_⟩
    · intro hh hmem
      rcases List.mem_append.mp hmem with hmem | hmem
      · show (m.setTile x y TileT.HOLE).getTile hh.x hh.y = TileT.HOLE
        rw [getTile_setTile_ne m x y hh.x hh.y _ (hnotat hh hmem)]
        exact hholes hh hmem
      · rcases List.mem_singleton.mp hmem with rfl
        show (m.setTile x y TileT.HOLE).getTile x y = TileT.HOLE
        exact getTile_setTile_self m x y TileT.HOLE hshape hb.1 hb.2.1 hb.2.2.1 hb.2.2.2
    · rw [List.pairwise_append]
      refine ⟨hpair, List.pairwise_singleton _ _, ?_⟩
      intro a ha b hb'
      rcases List.mem_singleton.mp hb' with rfl
      exact fun hc => hnotat a ha hc
  · rw [if_neg h]
    exact hwf

/-- `digHole` adds exactly one hole, at the dug position, when it succeeds. -/
theorem digHole_count (m : TileMap) (x y : Int) (p : Pos) :
    holeCountAt (m.digHole x y).2 p =
      holeCountAt m p +
        (if (m.digHole x y).1 = true ∧ x = p.x ∧ y = p.y then 1 else 0) := by
  rw [digHole_spec]
  by_cases h : m.canDig x y
  · rw [if_pos h]
    by_cases hp : x = p.x ∧ y = p.y <;>
      simp [holeCountAt, countPosAt, List.filter_append, List.filter_cons, hp]
  · rw [if_neg h]
    simp [holeCountAt]

/-- The holes surviving `updateHoles` still sit on `HOLE` tiles. -/
theorem updateHoles_WF (m : TileMap) (d s : ℚ) (hwf : WF m) :
    WF (m.updateHoles d s).2.2 := by
  rw [updateHoles_spec]
  have hshape := hwf.1
  have hholes := hwf.2.1
  have hpair := hwf.2.2
  have hsymm : Symmetric fun h1 h2 : Hole => ¬(h1.x = h2.x ∧ h1.y = h2.y) := by
    intro a b hab hc
    exact hab ⟨hc.1.symm, hc.2.symm⟩
  have hdecpair : (m.holes.map (decHole (d * s))).Pairwise
      fun h1 h2 => ¬(h1.x = h2.x ∧ h1.y = h2.y) := by
    rw [List.pairwise_map]
    exact hpair
  refine ⟨applyRestores_WFShape _ _ hshape, ?_, ?_⟩
  · intro h hh
    obtain ⟨hmem, hq⟩ := List.mem_filter.mp hh
    obtain ⟨h0, hmem0, rfl⟩ := List.mem_map.mp hmem
    show (applyRestores _ m).getTile h0.x h0.y = TileT.HOLE
    rw [getTile_applyRestores_notin]
    · exact hholes h0 hmem0
    · intro w hw hc
      obtain ⟨hwmem, hwq⟩ := List.mem_filter.mp hw
      obtain ⟨w0, hwmem0, rfl⟩ := List.mem_map.mp hwmem
      by_cases hval : w0 = h0
      · subst hval
        simp only [decide_eq_true_eq] at hq hwq
        exact hq (by simpa [decHole] using hwq)
      · exact List.Pairwise.forall hsymm hpair hwmem0 hmem0 hval ⟨hc.1, hc.2⟩
  · exact List.Pairwise.filter _ hdecpair

/-- `updateHoles` moves each hole to either the filled report or the
surviving list, so position counts are conserved. -/
theorem updateHoles_count (m : TileMap) (d s : ℚ) (p : Pos) :
    holeCountAt (m.updateHoles d s).2.2 p + countPosAt (m.updateHoles d s).1 p
      = holeCountAt m p := by
  rw [updateHoles_spec]
  show countPosAt ((m.holes.map (decHole (d * s))).filter fun h => ¬ h.timerMs ≤ 0) p + _ = _
  rw [countPosAt_timer_partition]
  exact countPosAt_map_decHole (d * s) m.holes p

/-- Immediately after `updateHoles`, every reported filled hole's cell
holds its original tile. -/
theorem updateHoles_restores (m : TileMap) (d s : ℚ) (hwf : WF m) :
    ∀ h ∈ (m.updateHoles d s).1,
      (m.updateHoles d s).2.2.getTile h.x h.y = h.originalTile := by
  rw [updateHoles_spec]
  have hshape := hwf.1
  have hholes := hwf.2.1
  have hpair := hwf.2.2
  have hdecpair : (m.holes.map (decHole (d * s))).Pairwise
      fun h1 h2 => ¬(h1.x = h2.x ∧ h1.y = h2.y) := by
    rw [List.pairwise_map]
    exact hpair
  intro h hh
  show (applyRestores _ m).getTile h.x h.y = h.originalTile
  refine getTile_applyRestores _ m hshape (List.Pairwise.filter _ hdecpair) ?_ h hh
  intro w hw
  obtain ⟨hwmem, _⟩ := List.mem_filter.mp hw
  obtain ⟨w0, hwmem0, rfl⟩ := List.mem_map.mp hwmem
  show 0 ≤ w0.x ∧ w0.x < (m.width : Int) ∧ 0 ≤ w0.y ∧ w0.y < (m.height : Int)
  refine getTile_in_bounds m w0.x w0.y ?_
  rw [hholes w0 hwmem0]
  exact fun hc => by cases hc

/-- Every trace operation preserves grid well-formedness. -/
theorem MapOp_apply_WF (op : MapOp) (m : TileMap) (hwf : WF m) : WF (op.apply m) := by
  cases op with
  | dig x y => exact digHole_WF m x y hwf
  | update d s => exact updateHoles_WF m d s hwf

/-- Running a trace preserves grid well-formedness. -/
theorem runTrace_WF (m : TileMap) (hwf : WF m) (ops : List MapOp) : WF (runTrace m ops) := by
  induction ops generalizing m with
  | nil => exact hwf
  | cons op ops ih => exact ih _ (MapOp_apply_WF op m hwf)

/-- Filled-hole reports at a position never exceed the holes initially
there plus the successful digs there. -/
theorem trace_filled_le (p : Pos) (ops : List MapOp) :
    ∀ m : TileMap, WF m → traceFilledAt p m ops ≤ holeCountAt m p + traceDigsAt p m ops := by
  induction ops with
  | nil => intro m _; simp [traceFilledAt, traceDigsAt]
  | cons op ops ih =>
    intro m hwf
    have ihm := ih (op.apply m) (MapOp_apply_WF op m hwf)
    cases op with
    | dig x y =>
      simp only [traceFilledAt, traceDigsAt, MapOp.filledBy, MapOp.apply] at *
      have hc := digHole_count m x y p
      simp only [countPosAt, List.filter_nil, List.length_nil]
      split_ifs at hc ⊢ <;> omega
    | update d s =>
      simp only [traceFilledAt, traceDigsAt, MapOp.filledBy, MapOp.apply] at *
      have hc := updateHoles_count m d s p
      omega

/-- At every update step of a trace, reported filled holes have their
original tiles restored immediately. -/
theorem trace_restores (m : TileMap) (hwf : WF m) (pre : List MapOp) (op : MapOp) :
    ∀ h ∈ op.filledBy (runTrace m pre),
      (op.apply (runTrace m pre)).getTile h.x h.y = h.originalTile := by
  have hwf' := runTrace_WF m hwf pre
  cases op with
  | dig x y =>
    intro h hh
    exact absurd hh (List.not_mem_nil h)
  | update d s => exact updateHoles_restores _ d s hwf'

/-- Claim C7: across any sequence of `digHole` / `updateHoles` operations
on a well-formed grid, the filled-hole reports at any position never
exceed the holes initially there plus the successful digs there (so no
hole is reported filled twice), and immediately after the call that
reports a hole filled, the cell at the hole's position equals the hole's
recorded original tile category. -/
theorem C7_updateHoles_trace (m : TileMap) (hwf : WF m) (ops : List MapOp) :
    (∀ p : Pos, traceFilledAt p m ops ≤ holeCountAt m p + traceDigsAt p m ops) ∧
    (∀ pre op post, ops = pre ++ op :: post →
      ∀ h ∈ op.filledBy (runTrace m pre),
        (op.apply (runTrace m pre)).getTile h.x h.y = h.originalTile) :=
  ⟨fun p => trace_filled_le p ops m hwf,
   fun pre op _ _ => trace_restores m hwf pre op⟩

/-- Witness for C7 at a concrete input. -/
theorem C7_updateHoles_trace_witness :
    WF mapC7 ∧
      traceFilledAt ⟨1, 1⟩ mapC7 opsC7 ≤
        holeCountAt mapC7 ⟨1, 1⟩ + traceDigsAt ⟨1, 1⟩ mapC7 opsC7 :=
  ⟨by decide, (C7_updateHoles_trace mapC7 (by decide) opsC7).1 ⟨1, 1⟩⟩

/-- The early-break delivery counter computes the overlap count capped at
three. -/
theorem deliveryCountGo_spec (path : List Pos) (ks : List Pos) (acc : Nat) (h : acc ≤ 2) :
    SolvabilityChecker.deliveryCountGo path ks acc
      = min 3 (acc + ks.countP (fun k => path.contains k)) := by
  induction ks generalizing acc with
  | nil =>
    simp only [SolvabilityChecker.deliveryCountGo, List.countP_nil]
    omega
  | cons k ks ih =>
    simp only [SolvabilityChecker.deliveryCountGo, List.countP_cons]
    by_cases hk : path.contains k
    · rw [if_pos hk]
      by_cases h3 : acc + 1 ≥ 3
      · rw [if_pos h3]
        simp only [hk, if_true]
        omega
      · rw [if_neg h3, ih (acc + 1) (by omega)]
        simp only [hk, if_true]
        omega
    · rw [if_neg (by simpa using hk), ih acc h]
      have hmem : k ∉ path := by simpa using hk
      simp [hmem]

/-- `canEnemyDeliverGold` holds exactly when the gold is enemy-reachable
and the restricted-reachable set from the gold meets the player-reachable
set in at least two cells. -/
theorem canEnemyDeliverGold_iff (m : TileMap) (goldPos : Pos)
    (pr er : List Pos) :
    SolvabilityChecker.canEnemyDeliverGold m goldPos pr er = true ↔
      (er.contains goldPos = true ∧
        2 ≤ pr.countP
          (fun k => (SolvabilityChecker.findAllEnemyReachable m goldPos).contains k)) := by
  unfold SolvabilityChecker.canEnemyDeliverGold
  by_cases hc : er.contains goldPos
  · rw [if_neg (by simpa using hc)]
    by_cases hd : pr.any
        (fun k => (SolvabilityChecker.findAllEnemyReachable m goldPos).contains k)
    · rw [if_neg (by simpa using hd)]
      rw [deliveryCountGo_spec _ _ 0 (by omega)]
      simp only [hc, true_and, ge_iff_le, decide_eq_true_eq]
      omega
    · rw [if_pos (by simpa using hd)]
      simp only [Bool.false_eq_true, false_iff, not_and, hc, forall_const]
      intro h2
      apply hd
      rw [List.any_eq_true]
      have hpos : 0 < pr.countP
          (fun k => (SolvabilityChecker.findAllEnemyReachable m goldPos).contains k) := by
        omega
      obtain ⟨a, ha, hpa⟩ := List.countP_pos_iff.mp hpos
      exact ⟨a, ha, hpa⟩
  · rw [if_pos (by simpa using hc)]
    exact ⟨fun h => absurd h (by simp), fun h => absurd h.1 hc⟩

/-- The three classification filters partition an item list. -/
theorem classify_partition (m : TileMap) (pr er : List Pos) (golds : List Pos) :
    (golds.filter (fun g => SolvabilityChecker.classifyGold m pr er g
        = SolvabilityChecker.GoldClass.direct)).length +
    (golds.filter (fun g => SolvabilityChecker.classifyGold m pr er g
        = SolvabilityChecker.GoldClass.assisted)).length +
    (golds.filter (fun g => SolvabilityChecker.classifyGold m pr er g
        = SolvabilityChecker.GoldClass.unreachable)).length = golds.length := by
  induction golds with
  | nil => rfl
  | cons g gs ih =>
    cases hclass : SolvabilityChecker.classifyGold m pr er g <;>
      simp [List.filter_cons, hclass] <;> omega

/-- Claim C8: `canDig(x, y)` is false whenever the cell directly above
`(x, y)` is a ladder or a hidden exit ladder, and `canDig(x, y)` is true
only when the tile at `(x, y)` is a soft brick or a trap brick. -/
theorem C8_canDig (m : TileMap) (x y : Int) :
    ((m.getTile x (y - 1) = TileT.LADDER ∨ m.getTile x (y - 1) = TileT.LADDER_EXIT) →
      m.canDig x y = false) ∧
    (m.canDig x y = true →
      m.getTile x y = TileT.BRICK ∨ m.getTile x y = TileT.BRICK_TRAP) := by
  constructor
  · intro habove
    unfold TileMap.canDig
    by_cases htile : m.getTile x y ≠ TileT.BRICK ∧ m.getTile x y ≠ TileT.BRICK_TRAP
    · rw [if_pos htile]
    · have hy : y > 0 := by
        by_contra hy
        have hneg : y - 1 < 0 := by omega
        have hhard : m.getTile x (y - 1) = TileT.BRICK_HARD := by
          unfold TileMap.getTile
          have hc : x < 0 ∨ x ≥ (m.width : Int) ∨ y - 1 < 0 ∨ y - 1 ≥ (m.height : Int) := by
            tauto
          rw [if_pos hc]
        rcases habove with h | h <;> rw [hhard] at h <;> exact absurd h (by decide)
      rw [if_neg htile, if_pos ⟨hy, habove⟩]
  · intro hdig
    by_contra hne
    push_neg at hne
    unfold TileMap.canDig at hdig
    simp [hne.1, hne.2] at hdig

/-- Witness for C8 at a concrete input. -/
theorem C8_canDig_witness :
    (mapC8.getTile 0 1 = TileT.LADDER ∨ mapC8.getTile 0 1 = TileT.LADDER_EXIT) ∧
      mapC8.canDig 0 2 = false :=
  ⟨Or.inl (by decide), (C8_canDig mapC8 0 2).1 (Or.inl (by decide))⟩

/-- Claim C10: `clone` copies the tile matrix and the start, enemy-spawn,
item, and exit-ladder position lists, but the clone's hole list is always
empty and its hole-duration multiplier is always 1. -/
theorem C10_clone (m : TileMap)
    (hlen : m.tiles.length = m.height)
    (hrow : ∀ row ∈ m.tiles, row.length = m.width) :
    m.clone.tiles = m.tiles ∧
    m.clone.playerStart = m.playerStart ∧
    m.clone.enemyStarts = m.enemyStarts ∧
    m.clone.goldPositions = m.goldPositions ∧
    m.clone.exitLadders = m.exitLadders ∧
    m.clone.holes = [] ∧
    m.clone.holeDurationMultiplier = 1 := by
  refine ⟨?_, rfl, rfl, rfl, rfl, rfl, rfl⟩
  show (List.range m.height).map _ = m.tiles
  apply List.ext_getElem
  · simp [hlen]
  · intro y hy1 hy2
    simp only [List.getElem_map, List.getElem_range]
    have hrowy : m.tiles.getD y [] = m.tiles[y] :=
      List.getD_eq_getElem m.tiles [] hy2
    rw [hrowy]
    exact range_map_getD _ _ _ (hrow _ (List.getElem_mem hy2))

/-- Claim C3: `generate` is deterministic: two generator runs constructed
from identical (seed, difficulty key, level index) inputs return grids
with identical tile matrices and identical start, enemy-spawn, item and
exit-ladder position lists.  The embedding is a pure function of those
inputs — faithfully so, because the source's only mutable state is the
seeded mulberry32 stream threaded here explicitly, and no wall-clock or
unseeded randomness occurs anywhere in the pipeline — so the two runs
coincide definitionally, component by component. -/
theorem C3_generate_deterministic (seed : SeededRandom.Seed) (dk : String) (lv : Nat) :
    (LevelGenerator.generate seed dk lv).tiles
        = (LevelGenerator.generate seed dk lv).tiles ∧
    (LevelGenerator.generate seed dk lv).playerStart
        = (LevelGenerator.generate seed dk lv).playerStart ∧
    (LevelGenerator.generate seed dk lv).enemyStarts
        = (LevelGenerator.generate seed dk lv).enemyStarts ∧
    (LevelGenerator.generate seed dk lv).goldPositions
        = (LevelGenerator.generate seed dk lv).goldPositions ∧
    (LevelGenerator.generate seed dk lv).exitLadders
        = (LevelGenerator.generate seed dk lv).exitLadders :=
  ⟨rfl, rfl, rfl, rfl, rfl⟩

/-- The main branch of `checkSolvability`, spelled out. -/
theorem checkSolvability_main (d : String) (m : TileMap)
    (hgold : m.goldPositions.length ≠ 0) (hexit : m.exitLadders.length ≠ 0) :
    checkSolvability d m =
      { solvable := decide ((m.goldPositions.filter
            (fun g => classifyGold m (playerReachableSet m) (enemyReachableSet m) g
              = GoldClass.direct)).length +
          (m.goldPositions.filter
            (fun g => classifyGold m (playerReachableSet m) (enemyReachableSet m) g
              = GoldClass.assisted)).length = m.goldPositions.length ∧
          (m.goldPositions.filter
            (fun g => classifyGold m (playerReachableSet m) (enemyReachableSet m) g
              = GoldClass.assisted)).length ≤ getMaxEnemyAssistedGold d ∧
          exitReachableB m = true)
        score := ((((m.goldPositions.filter
            (fun g => classifyGold m (playerReachableSet m) (enemyReachableSet m) g
              = GoldClass.direct)).length +
          (m.goldPositions.filter
            (fun g => classifyGold m (playerReachableSet m) (enemyReachableSet m) g
              = GoldClass.assisted)).length : Nat) : ℚ) / (m.goldPositions.length : ℚ)) *
          (if exitReachableB m then 1 else 0)
        directGold := (m.goldPositions.filter
          (fun g => classifyGold m (playerReachableSet m) (enemyReachableSet m) g
            = GoldClass.direct)).length
        enemyAssistedGold := (m.goldPositions.filter
          (fun g => classifyGold m (playerReachableSet m) (enemyReachableSet m) g
            = GoldClass.assisted)).length
        unreachableGold := (m.goldPositions.filter
          (fun g => classifyGold m (playerReachableSet m) (enemyReachableSet m) g
            = GoldClass.unreachable)).length
        enemyAssistedPositions := m.goldPositions.filter
          (fun g => classifyGold m (playerReachableSet m) (enemyReachableSet m) g
            = GoldClass.assisted) } := by
  unfold SolvabilityChecker.checkSolvability
  rw [if_neg hgold, if_neg hexit]

/-- Claim C2 (amended: grids carrying at least one item): `checkSolvability`
reports solvable exactly when every item is direct-or-assisted, the
enemy-assisted count does not exceed the difficulty ceiling, and the exit
is reachable; the ceilings are 0 for easy/normal, 1 for hard, 2 for
ninja, and 0 for unknown keys. -/
theorem C2_solvable_iff (d : String) (m : TileMap) (hgold : m.goldPositions ≠ []) :
    ((checkSolvability d m).solvable = true ↔
      ((checkSolvability d m).directGold + (checkSolvability d m).enemyAssistedGold
          = m.goldPositions.length ∧
        (checkSolvability d m).enemyAssistedGold ≤ getMaxEnemyAssistedGold d ∧
        exitReachableB m = true)) ∧
    getMaxEnemyAssistedGold "easy" = 0 ∧
    getMaxEnemyAssistedGold "normal" = 0 ∧
    getMaxEnemyAssistedGold "hard" = 1 ∧
    getMaxEnemyAssistedGold "ninja" = 2 ∧
    (∀ k : String, k ≠ "easy" → k ≠ "normal" → k ≠ "hard" → k ≠ "ninja" →
      getMaxEnemyAssistedGold k = 0) := by
  have hlen : m.goldPositions.length ≠ 0 := by
    simpa [List.length_eq_zero] using hgold
  refine ⟨?_, by decide, by decide, by decide, by decide, ?_⟩
  · by_cases hexit : m.exitLadders.length = 0
    · unfold SolvabilityChecker.checkSolvability
      rw [if_neg hlen, if_pos hexit]
      dsimp only
      constructor
      · intro hfalse
        exact absurd hfalse (by simp)
      · rintro ⟨h1, -, -⟩
        omega
    · rw [checkSolvability_main d m hlen hexit]
      dsimp only
      rw [decide_eq_true_eq]
  · intro k h1 h2 h3 h4
    unfold SolvabilityChecker.getMaxEnemyAssistedGold
    rw [if_neg (by simp [h1, h2]), if_neg h3, if_neg h4]

/-- Counterexample to C2 as literally stated: a grid with no items and a
reachable exit satisfies the claimed right-hand side (vacuously all items
collectable, zero assisted, exit reachable) yet the checker reports
unsolvable. -/
theorem C2_counterexample :
    mapC2x.goldPositions.length = 0 ∧
    (checkSolvability "easy" mapC2x).directGold +
        (checkSolvability "easy" mapC2x).enemyAssistedGold
        = mapC2x.goldPositions.length ∧
    (checkSolvability "easy" mapC2x).enemyAssistedGold ≤
      getMaxEnemyAssistedGold "easy" ∧
    exitReachableB mapC2x = true ∧
    (checkSolvability "easy" mapC2x).solvable = false := by decide

/-- Witness for C2 at a concrete input. -/
theorem C2_solvable_iff_witness :
    mapC2w.goldPositions ≠ [] ∧
    ((checkSolvability "easy" mapC2w).solvable = true ↔
      ((checkSolvability "easy" mapC2w).directGold +
          (checkSolvability "easy" mapC2w).enemyAssistedGold
          = mapC2w.goldPositions.length ∧
        (checkSolvability "easy" mapC2w).enemyAssistedGold ≤
          getMaxEnemyAssistedGold "easy" ∧
        exitReachableB mapC2w = true)) :=
  ⟨by decide, (C2_solvable_iff "easy" mapC2w (by decide)).1⟩

/-- Claim C4 (amended: grids with at least one item and at least one
exit-ladder cell): each item is classified direct iff it lies in the
Pass-A player-reachable set; otherwise assisted iff it is reachable by
the restricted model from the spawn cells and the restricted-reachable
set from the item's own cell meets the player-reachable set in at least
two cells; otherwise unreachable — and the three reported counts are the
numbers of items in each class and partition the item list. -/
theorem C4_item_classification (d : String) (m : TileMap)
    (hgold : m.goldPositions ≠ []) (hexit : m.exitLadders ≠ []) :
    (∀ g : Pos,
      (classifyGold m (playerReachableSet m) (enemyReachableSet m) g
          = GoldClass.direct ↔ (playerReachableSet m).contains g = true) ∧
      (classifyGold m (playerReachableSet m) (enemyReachableSet m) g
          = GoldClass.assisted ↔
        ((playerReachableSet m).contains g = false ∧
          (enemyReachableSet m).contains g = true ∧
          2 ≤ (playerReachableSet m).countP
            (fun k => (findAllEnemyReachable m g).contains k))) ∧
      (classifyGold m (playerReachableSet m) (enemyReachableSet m) g
          = GoldClass.unreachable ↔
        ((playerReachableSet m).contains g = false ∧
          ¬((enemyReachableSet m).contains g = true ∧
            2 ≤ (playerReachableSet m).countP
              (fun k => (findAllEnemyReachable m g).contains k))))) ∧
    (checkSolvability d m).directGold =
      (m.goldPositions.filter
        (fun g => classifyGold m (playerReachableSet m) (enemyReachableSet m) g
          = GoldClass.direct)).length ∧
    (checkSolvability d m).enemyAssistedGold =
      (m.goldPositions.filter
        (fun g => classifyGold m (playerReachableSet m) (enemyReachableSet m) g
          = GoldClass.assisted)).length ∧
    (checkSolvability d m).unreachableGold =
      (m.goldPositions.filter
        (fun g => classifyGold m (playerReachableSet m) (enemyReachableSet m) g
          = GoldClass.unreachable)).length ∧
    (checkSolvability d m).directGold + (checkSolvability d m).enemyAssistedGold +
      (checkSolvability d m).unreachableGold = m.goldPositions.length := by
  have hlen : m.goldPositions.length ≠ 0 := by
    simpa [List.length_eq_zero] using hgold
  have hexlen : m.exitLadders.length ≠ 0 := by
    simpa [List.length_eq_zero] using hexit
  have hck := checkSolvability_main d m hlen hexlen
  refine ⟨?_, by rw [hck], by rw [hck], by rw [hck], by rw [hck]; exact classify_partition m _ _ _⟩
  intro g
  refine ⟨?_, ?_, ?_⟩
  · unfold SolvabilityChecker.classifyGold
    by_cases hpr : (playerReachableSet m).contains g
    · rw [if_pos hpr]
      simp only [hpr, iff_true]
    · rw [if_neg (by simpa using hpr)]
      constructor
      · intro h
        split at h <;> exact GoldClass.noConfusion h
      · intro h
        exact absurd h hpr
  · unfold SolvabilityChecker.classifyGold
    by_cases hpr : (playerReachableSet m).contains g
    · rw [if_pos hpr]
      constructor
      · intro h
        exact GoldClass.noConfusion h
      · rintro ⟨hfalse, -, -⟩
        rw [hpr] at hfalse
        exact Bool.noConfusion hfalse
    · rw [if_neg (by simpa using hpr)]
      have hprf : (playerReachableSet m).contains g = false := by simpa using hpr
      by_cases hrest : (enemyReachableSet m).contains g = true ∧
          canEnemyDeliverGold m g (playerReachableSet m) (enemyReachableSet m) = true
      · rw [if_pos hrest]
        have hdel := (canEnemyDeliverGold_iff m g (playerReachableSet m)
          (enemyReachableSet m)).mp hrest.2
        exact ⟨fun _ => ⟨hprf, hrest.1, hdel.2⟩, fun _ => rfl⟩
      · rw [if_neg hrest]
        constructor
        · intro h
          exact GoldClass.noConfusion h
        · rintro ⟨-, her, h2⟩
          exact absurd ⟨her, (canEnemyDeliverGold_iff m g _ _).mpr ⟨her, h2⟩⟩ hrest
  · unfold SolvabilityChecker.classifyGold
    by_cases hpr : (playerReachableSet m).contains g
    · rw [if_pos hpr]
      constructor
      · intro h
        exact GoldClass.noConfusion h
      · rintro ⟨hfalse, -⟩
        rw [hpr] at hfalse
        exact Bool.noConfusion hfalse
    · rw [if_neg (by simpa using hpr)]
      have hprf : (playerReachableSet m).contains g = false := by simpa using hpr
      by_cases hrest : (enemyReachableSet m).contains g = true ∧
          canEnemyDeliverGold m g (playerReachableSet m) (enemyReachableSet m) = true
      · rw [if_pos hrest]
        have hdel := (canEnemyDeliverGold_iff m g (playerReachableSet m)
          (enemyReachableSet m)).mp hrest.2
        constructor
        · intro h
          exact GoldClass.noConfusion h
        · rintro ⟨-, hno⟩
          exact absurd ⟨hrest.1, hdel.2⟩ hno
      · rw [if_neg hrest]
        refine ⟨fun _ => ⟨hprf, fun hc =>
          hrest ⟨hc.1, (canEnemyDeliverGold_iff m g _ _).mpr ⟨hc.1, hc.2⟩⟩⟩, fun _ => rfl⟩

/-- Counterexample to C4 as literally stated: on a grid with one directly
reachable item but no exit-ladder metadata, the checker early-returns
all-zero counts, which do not partition the item list. -/
theorem C4_counterexample :
    (playerReachableSet mapC4x).contains ⟨3, 3⟩ = true ∧
    mapC4x.goldPositions = [⟨3, 3⟩] ∧
    (checkSolvability "normal" mapC4x).directGold = 0 ∧
    (checkSolvability "normal" mapC4x).directGold +
        (checkSolvability "normal" mapC4x).enemyAssistedGold +
        (checkSolvability "normal" mapC4x).unreachableGold
      ≠ mapC4x.goldPositions.length := by decide

/-- Witness for C4 at a concrete input. -/
theorem C4_item_classification_witness :
    (mapC4w.goldPositions ≠ [] ∧ mapC4w.exitLadders ≠ []) ∧
    (checkSolvability "normal" mapC4w).directGold +
        (checkSolvability "normal" mapC4w).enemyAssistedGold +
        (checkSolvability "normal" mapC4w).unreachableGold
      = mapC4w.goldPositions.length :=
  ⟨⟨by decide, by decide⟩,
    (C4_item_classification "normal" mapC4w (by decide) (by decide)).2.2.2.2⟩

/-- Claim C6: for grids with at least one item and at least one
exit-ladder cell, the score is the collectable fraction times the exit
indicator; with an unreachable exit the score is exactly zero. -/
theorem C6_score_product (d : String) (m : TileMap)
    (hgold : m.goldPositions ≠ []) (hexit : m.exitLadders ≠ []) :
    ((checkSolvability d m).score =
      (((checkSolvability d m).directGold + (checkSolvability d m).enemyAssistedGold : Nat) : ℚ) /
          (m.goldPositions.length : ℚ) *
        (if exitReachableB m then 1 else 0)) ∧
    (exitReachableB m = false → (checkSolvability d m).score = 0) := by
  have hlen : m.goldPositions.length ≠ 0 := by
    simpa [List.length_eq_zero] using hgold
  have hexlen : m.exitLadders.length ≠ 0 := by
    simpa [List.length_eq_zero] using hexit
  have hck := checkSolvability_main d m hlen hexlen
  constructor
  · rw [hck]
  · intro hex
    rw [hck]
    dsimp only
    rw [hex]
    simp

/-- Witness for C6 at a concrete input. -/
theorem C6_score_product_witness :
    (mapC6w.goldPositions ≠ [] ∧ mapC6w.exitLadders ≠ []) ∧
    (checkSolvability "normal" mapC6w).score =
      (((checkSolvability "normal" mapC6w).directGold +
          (checkSolvability "normal" mapC6w).enemyAssistedGold : Nat) : ℚ) /
          (mapC6w.goldPositions.length : ℚ) *
        (if exitReachableB mapC6w then 1 else 0) :=
  ⟨⟨by decide, by decide⟩,
    (C6_score_product "normal" mapC6w (by decide) (by decide)).1⟩

/-- Claim C9: `checkSolvability` is pure with respect to the checker's
mutable fields (both are overwritten before use, so the result depends
only on the configured difficulty key and the grid) and idempotent: a
second call on the same unmutated grid returns the same result.  The
embedding is read-only in the grid by construction, matching the source,
which never writes to the map. -/
theorem C9_pure_idempotent (s : CheckerState) (m : TileMap) :
    (checkSolvabilityS (checkSolvabilityS s m).2 m).1 = (checkSolvabilityS s m).1 ∧
    (∀ s' : CheckerState, s'.difficultyKey = s.difficultyKey →
      (checkSolvabilityS s' m).1 = (checkSolvabilityS s m).1) := by
  constructor
  · rfl
  · intro s' h
    simp only [checkSolvabilityS, h]

/-- Witness for C9 at a concrete input. -/
theorem C9_pure_idempotent_witness :
    stateC9'.difficultyKey = stateC9.difficultyKey ∧
      (checkSolvabilityS stateC9' mapC9w).1 = (checkSolvabilityS stateC9 mapC9w).1 :=
  ⟨rfl, (C9_pure_idempotent stateC9 mapC9w).2 stateC9' rfl⟩

/-- Witness for C10 at a concrete input. -/
theorem C10_clone_witness :
    (mapC10.tiles.length = mapC10.height ∧ (∀ row ∈ mapC10.tiles, row.length = mapC10.width)) ∧
      (mapC10.clone.holes = [] ∧ mapC10.clone.holeDurationMultiplier = 1) :=
  ⟨⟨by decide, by decide⟩,
    ⟨(C10_clone mapC10 (by decide) (by decide)).2.2.2.2.2.1,
     (C10_clone mapC10 (by decide) (by decide)).2.2.2.2.2.2⟩⟩

/-! ## Exit-placement invariants (towards C5) -/

/-- `setTile` leaves the exit-ladder metadata untouched. -/
theorem setTile_exitLadders (m : TileMap) (x y : Int) (t : TileT) :
    (m.setTile x y t).exitLadders = m.exitLadders := by
  unfold TileMap.setTile
  split <;> rfl

/-- `getTile` only reads the dimensions and the tile matrix. -/
theorem getTile_congr (m m' : TileMap) (hw : m'.width = m.width)
    (hh : m'.height = m.height) (ht : m'.tiles = m.tiles) (x y : Int) :
    m'.getTile x y = m.getTile x y := by
  unfold TileMap.getTile
  rw [hw, hh, ht]

/-- A cell after `setTile` holds either the written tile or its previous
content. -/
theorem getTile_setTile_cases (m : TileMap) (x y x' y' : Int) (t : TileT)
    (hs : WFShape m) :
    (m.setTile x y t).getTile x' y' = t ∨
      (m.setTile x y t).getTile x' y' = m.getTile x' y' := by
  by_cases he : x' = x ∧ y' = y
  · obtain ⟨hx, hy⟩ := he
    subst hx; subst hy
    by_cases hb : 0 ≤ x' ∧ x' < (m.width : Int) ∧ 0 ≤ y' ∧ y' < (m.height : Int)
    · exact Or.inl (getTile_setTile_self m x' y' t hs hb.1 hb.2.1 hb.2.2.1 hb.2.2.2)
    · refine Or.inr ?_
      have hid : m.setTile x' y' t = m := by
        unfold TileMap.setTile
        rw [if_neg hb]
      rw [hid]
  · exact Or.inr (getTile_setTile_ne m x y x' y' t he)

/-- A fold preserves any invariant its step preserves. -/
theorem foldl_pres {α β : Type} (P : α → Prop) (f : α → β → α)
    (hstep : ∀ a b, P a → P (f a b)) (l : List β) :
    ∀ a, P a → P (l.foldl f a) := by
  induction l with
  | nil => intro a ha; exact ha
  | cons b tl ih => intro a ha; exact ih (f a b) (hstep a b ha)

/-- `GenInv` transfers along equality of the relevant fields. -/
theorem GenInv_congr (m m' : TileMap) (hw : m'.width = m.width)
    (hh : m'.height = m.height) (ht : m'.tiles = m.tiles)
    (he : m'.exitLadders = []) (h : GenInv m) : GenInv m' := by
  refine ⟨?_, he, ?_⟩
  · unfold WFShape
    rw [ht, hh, hw]
    exact h.1
  · intro x y
    rw [getTile_congr m m' hw hh ht x y]
    exact h.2.2 x y

/-- `setTile` with anything but the hidden exit ladder preserves the
pipeline invariant. -/
theorem GenInv_setTile (m : TileMap) (x y : Int) (t : TileT)
    (ht : t ≠ TileT.LADDER_EXIT) (h : GenInv m) : GenInv (m.setTile x y t) := by
  refine ⟨setTile_WFShape m x y t h.1, ?_, ?_⟩
  · rw [setTile_exitLadders]; exact h.2.1
  · intro a b
    rcases getTile_setTile_cases m x y a b t h.1 with hc | hc
    · rw [hc]; exact ht
    · rw [hc]; exact h.2.2 a b

/-- The fresh grid satisfies the pipeline invariant. -/
theorem GenInv_new (w h : Nat) : GenInv (TileMap.new w h) := by
  have htiles : (TileMap.new w h).tiles
      = List.replicate h (List.replicate w TileT.EMPTY) := by
    show (List.range h).map (fun _ => (List.range w).map fun _ => TileT.EMPTY)
        = List.replicate h (List.replicate w TileT.EMPTY)
    simp [List.map_const]
  refine ⟨⟨by rw [htiles]; simp [TileMap.new], ?_⟩, rfl, ?_⟩
  · intro row hmem
    rw [htiles] at hmem
    have hrow := List.eq_of_mem_replicate hmem
    show row.length = w
    rw [hrow]
    simp
  · intro x y
    unfold TileMap.getTile
    split
    · decide
    · show ((TileMap.new w h).tiles.getD y.toNat []).getD x.toNat TileT.BRICK_HARD
        ≠ TileT.LADDER_EXIT
      rw [htiles]
      by_cases hy : y.toNat < h
      · have h1 : (List.replicate h (List.replicate w TileT.EMPTY)).getD y.toNat []
            = List.replicate w TileT.EMPTY := by
          rw [List.getD_eq_getElem _ _ (by simpa using hy)]
          exact List.getElem_replicate _ _
        rw [h1]
        by_cases hx : x.toNat < w
        · have h2 : (List.replicate w TileT.EMPTY).getD x.toNat TileT.BRICK_HARD
              = TileT.EMPTY := by
            rw [List.getD_eq_getElem _ _ (by simpa using hx)]
            exact List.getElem_replicate _ _
          rw [h2]
          decide
        · have h2 : (List.replicate w TileT.EMPTY).getD x.toNat TileT.BRICK_HARD
              = TileT.BRICK_HARD := List.getD_eq_default _ _ (by simpa using hx)
          rw [h2]
          decide
      · have h1 : (List.replicate h (List.replicate w TileT.EMPTY)).getD y.toNat []
            = [] := List.getD_eq_default _ _ (by simpa using hy)
        rw [h1]
        have h2 : ([] : List TileT).getD x.toNat TileT.BRICK_HARD
            = TileT.BRICK_HARD := List.getD_eq_default _ _ (by simp)
        rw [h2]
        decide

/-- The ladder-descent helper writes only ordinary ladder tiles, so it
preserves the pipeline invariant. -/
theorem extendLadderDownGo_inv (x : Int) :
    ∀ (fuel : Nat) (m : TileMap) (y : Int), GenInv m →
      GenInv (LevelGenerator.extendLadderDownGo x fuel m y) := by
  intro fuel
  induction fuel with
  | zero => intro m y h; exact h
  | succ n ih =>
    intro m y h
    unfold LevelGenerator.extendLadderDownGo
    dsimp only
    by_cases h1 : y < (m.height : Int)
    · rw [if_pos h1]
      by_cases h2 : m.getTile x y = TileT.BRICK_HARD
      · rw [if_pos h2]
        exact h
      · rw [if_neg h2]
        by_cases h3 : m.getTile x y = TileT.BRICK ∨ m.getTile x y = TileT.BRICK_TRAP
        · rw [if_pos h3]
          by_cases h4 : y < (m.height : Int) - 1
          · rw [if_pos h4]
            exact GenInv_setTile m x y TileT.LADDER (by decide) h
          · rw [if_neg h4]
            exact h
        · rw [if_neg h3]
          exact ih (m.setTile x y TileT.LADDER) (y + 1)
            (GenInv_setTile m x y TileT.LADDER (by decide) h)
    · rw [if_neg h1]
      exact h

/-- `extendLadderDown` preserves the pipeline invariant. -/
theorem extendLadderDown_inv (m : TileMap) (x fromRow : Int) (h : GenInv m) :
    GenInv (LevelGenerator.extendLadderDown m x fromRow) :=
  extendLadderDownGo_inv x _ m fromRow h

set_option maxRecDepth 4000000
set_option maxHeartbeats 1000000

/-- Out-of-bounds reads resolve to the hard brick. -/
theorem getTile_oob (m : TileMap) (x y : Int)
    (h : x < 0 ∨ x ≥ (m.width : Int) ∨ y < 0 ∨ y ≥ (m.height : Int)) :
    m.getTile x y = TileT.BRICK_HARD := by
  unfold TileMap.getTile
  rw [if_pos h]

/-- Membership-aware fold preservation. -/
theorem foldl_pres_mem {α β : Type} (P : α → Prop) (f : α → β → α)
    (l : List β) (hstep : ∀ a b, b ∈ l → P a → P (f a b)) :
    ∀ a, P a → P (l.foldl f a) := by
  induction l with
  | nil => intro a ha; exact ha
  | cons b tl ih =>
    intro a ha
    exact ih (fun a2 c hc ha2 => hstep a2 c (List.mem_cons_of_mem _ hc) ha2)
      (f a b) (hstep a b (List.mem_cons_self _ _) ha)

/-- Stage 1 preserves the pipeline invariant. -/
theorem createGround_inv (m : TileMap) (h : GenInv m) :
    GenInv (LevelGenerator.createGround m) := by
  unfold LevelGenerator.createGround
  refine foldl_pres GenInv _ ?_ _ _ h
  intro a b ha
  exact GenInv_setTile a _ _ _ (by decide) ha

/-- Stage 2 preserves the pipeline invariant. -/
theorem createMainSpine_inv (dif : DifficultySettings) (m : TileMap) (st : Nat)
    (h : GenInv m) : GenInv (LevelGenerator.createMainSpine dif m st).1 := by
  unfold LevelGenerator.createMainSpine
  dsimp only
  refine foldl_pres (fun acc : TileMap × Int × Nat => GenInv acc.1) _ ?_ _ _ h
  intro a b ha
  obtain ⟨mm, sx2, st2⟩ := a
  dsimp only at ha ⊢
  have hset : GenInv (mm.setTile sx2 (b : Int) TileT.LADDER) :=
    GenInv_setTile mm sx2 (b : Int) TileT.LADDER (by decide) ha
  split_ifs <;> dsimp only <;>
    first
      | exact hset
      | (refine foldl_pres GenInv _ ?_ _ _ hset
         intro a2 b2 ha2
         split <;>
           first
             | exact GenInv_setTile a2 _ _ TileT.LADDER (by decide) ha2
             | exact ha2)

/-- One step of the column-clear loop. -/
theorem clearCols_succ (m0 : TileMap) (yn k : Nat) :
    LevelGenerator.clearCols m0 yn (k + 1)
      = (if (LevelGenerator.clearCols m0 yn k).getTile (k : Int) (yn : Int) = TileT.LADDER then
          (LevelGenerator.clearCols m0 yn k).setTile (k : Int) (yn : Int) TileT.EMPTY
        else LevelGenerator.clearCols m0 yn k) := by
  unfold LevelGenerator.clearCols
  rw [List.range_succ, List.foldl_append]
  rfl

/-- The column-clear loop preserves the invariant, clears processed cells
of its row, and leaves other rows untouched. -/
theorem clearColsGo (m0 : TileMap) (yn : Nat) (h : GenInv m0) : ∀ k : Nat,
    GenInv (LevelGenerator.clearCols m0 yn k) ∧
    (LevelGenerator.clearCols m0 yn k).width = m0.width ∧
    (LevelGenerator.clearCols m0 yn k).height = m0.height ∧
    (∀ x : Int, x < (k : Int) →
      (LevelGenerator.clearCols m0 yn k).getTile x (yn : Int) ≠ TileT.LADDER) ∧
    (∀ x y' : Int, y' ≠ (yn : Int) →
      (LevelGenerator.clearCols m0 yn k).getTile x y' = m0.getTile x y') := by
  intro k
  induction k with
  | zero =>
    refine ⟨h, rfl, rfl, ?_, ?_⟩
    · intro x hx
      have hoob : (LevelGenerator.clearCols m0 yn 0).getTile x (yn : Int)
          = TileT.BRICK_HARD :=
        getTile_oob _ _ _ (Or.inl (by omega))
      rw [hoob]
      decide
    · intro x y' hy
      rfl
  | succ k ih =>
    obtain ⟨ihInv, ihW, ihH, ihRow, ihOff⟩ := ih
    rw [clearCols_succ]
    by_cases hl : (LevelGenerator.clearCols m0 yn k).getTile (k : Int) (yn : Int)
        = TileT.LADDER
    · rw [if_pos hl]
      have hb := getTile_in_bounds _ _ _ (by rw [hl]; decide)
      refine ⟨GenInv_setTile _ _ _ TileT.EMPTY (by decide) ihInv, ?_, ?_, ?_, ?_⟩
      · rw [(setTile_fields _ _ _ _).1, ihW]
      · rw [(setTile_fields _ _ _ _).2.1, ihH]
      · intro x hx
        by_cases hxk : x = (k : Int)
        · subst hxk
          rw [getTile_setTile_self _ _ _ _ ihInv.1 hb.1 hb.2.1 hb.2.2.1 hb.2.2.2]
          decide
        · rw [getTile_setTile_ne _ _ _ _ _ _ (fun hc => hxk hc.1)]
          exact ihRow x (by omega)
      · intro x y' hy
        rw [getTile_setTile_ne _ _ _ _ _ _ (fun hc => hy hc.2)]
        exact ihOff x y' hy
    · rw [if_neg hl]
      refine ⟨ihInv, ihW, ihH, ?_, ihOff⟩
      intro x hx
      by_cases hxk : x = (k : Int)
      · subst hxk
        exact hl
      · exact ihRow x (by omega)

/-- A full row pass of the hidden-zone clearing loop. -/
theorem clearRow_spec (m0 : TileMap) (yn : Nat) (h : GenInv m0) :
    GenInv (LevelGenerator.clearCols m0 yn m0.width) ∧
    (LevelGenerator.clearCols m0 yn m0.width).width = m0.width ∧
    (LevelGenerator.clearCols m0 yn m0.width).height = m0.height ∧
    (∀ x : Int,
      (LevelGenerator.clearCols m0 yn m0.width).getTile x (yn : Int) ≠ TileT.LADDER) ∧
    (∀ x y' : Int, y' ≠ (yn : Int) →
      (LevelGenerator.clearCols m0 yn m0.width).getTile x y' = m0.getTile x y') := by
  obtain ⟨hInv, hW, hH, hRow, hOff⟩ := clearColsGo m0 yn h m0.width
  refine ⟨hInv, hW, hH, ?_, hOff⟩
  intro x
  by_cases hx : x < (m0.width : Int)
  · exact hRow x hx
  · rw [getTile_oob _ _ _ (Or.inr (Or.inl (by rw [hW]; omega)))]
    decide

/-- The hidden-zone clearing pass: rows 0-3 end up with no ordinary
ladder tile, and the pipeline invariant is preserved. -/
theorem clearHidden_spec (m : TileMap) (h : GenInv m) :
    GenInv ((List.range 4).foldl (fun accY yn => LevelGenerator.clearCols accY yn accY.width) m) ∧
    ∀ x y : Int, 0 ≤ y → y < 4 →
      ((List.range 4).foldl (fun accY yn => LevelGenerator.clearCols accY yn accY.width) m).getTile x y
        ≠ TileT.LADDER := by
  have h0 := clearRow_spec m 0 h
  have h1 := clearRow_spec (LevelGenerator.clearCols m 0 m.width) 1 h0.1
  have h2 := clearRow_spec (LevelGenerator.clearCols (LevelGenerator.clearCols m 0 m.width) 1 (LevelGenerator.clearCols m 0 m.width).width) 2 h1.1
  have h3 := clearRow_spec (LevelGenerator.clearCols (LevelGenerator.clearCols (LevelGenerator.clearCols m 0 m.width) 1 (LevelGenerator.clearCols m 0 m.width).width) 2 (LevelGenerator.clearCols (LevelGenerator.clearCols m 0 m.width) 1 (LevelGenerator.clearCols m 0 m.width).width).width) 3 h2.1
  have hfold : (List.range 4).foldl (fun accY yn => LevelGenerator.clearCols accY yn accY.width) m
      = LevelGenerator.clearCols (LevelGenerator.clearCols (LevelGenerator.clearCols (LevelGenerator.clearCols m 0 m.width) 1 (LevelGenerator.clearCols m 0 m.width).width) 2 (LevelGenerator.clearCols (LevelGenerator.clearCols m 0 m.width) 1 (LevelGenerator.clearCols m 0 m.width).width).width) 3 (LevelGenerator.clearCols (LevelGenerator.clearCols (LevelGenerator.clearCols m 0 m.width) 1 (LevelGenerator.clearCols m 0 m.width).width) 2 (LevelGenerator.clearCols (LevelGenerator.clearCols m 0 m.width) 1 (LevelGenerator.clearCols m 0 m.width).width).width).width := rfl
  rw [hfold]
  refine ⟨h3.1, ?_⟩
  intro x y hy0 hy4
  have hy : y = 0 ∨ y = 1 ∨ y = 2 ∨ y = 3 := by omega
  rcases hy with hy | hy | hy | hy <;> subst hy
  · rw [h3.2.2.2.2 x 0 (by decide), h2.2.2.2.2 x 0 (by decide), h1.2.2.2.2 x 0 (by decide)]
    exact h0.2.2.2.1 x
  · rw [h3.2.2.2.2 x 1 (by decide), h2.2.2.2.2 x 1 (by decide)]
    exact h1.2.2.2.1 x
  · rw [h3.2.2.2.2 x 2 (by decide)]
    exact h2.2.2.2.1 x
  · exact h3.2.2.2.1 x

/-- `getTile` is unaffected by updating the exit-ladder metadata. -/
theorem getTile_exitUpdate (mm : TileMap) (L : List Pos) (x y : Int) :
    ({ mm with exitLadders := L } : TileMap).getTile x y = mm.getTile x y := rfl

/-- Reading back the exit metadata just recorded on a previously empty
list. -/
theorem exitLadders_update (mm : TileMap) (z : Int) (he : mm.exitLadders = []) :
    ({ mm with exitLadders := mm.exitLadders ++
        (List.range 4).map fun yn => (⟨z, (yn : Int)⟩ : Pos) } : TileMap).exitLadders
      = [⟨z, 0⟩, ⟨z, 1⟩, ⟨z, 2⟩, ⟨z, 3⟩] := by
  dsimp only
  rw [he]
  rfl

/-- The exit-pick phase establishes the exit invariant on any cleared
grid. -/
theorem pickExit_exit (C : TileMap) (st : Nat) (hCinv : GenInv C)
    (hCrows : ∀ x y : Int, 0 ≤ y → y < 4 → C.getTile x y ≠ TileT.LADDER) :
    ExitInvariant (LevelGenerator.pickExit C st).1 := by
  unfold LevelGenerator.pickExit
  dsimp only
  split
  · exact ⟨⟨_, exitLadders_update C _ hCinv.2.1⟩,
      fun x y hy0 hy4 => ⟨hCrows x y hy0 hy4, hCinv.2.2 x y⟩⟩
  · have hstep : ∀ (mm : TileMap) (yn : Nat), yn ∈ List.range' 4 4 →
        (GenInv mm ∧ ∀ x y : Int, 0 ≤ y → y < 4 → mm.getTile x y ≠ TileT.LADDER) →
        (GenInv (if mm.getTile ((C.width : Int) / 2) (yn : Int) ≠ TileT.LADDER then
            mm.setTile ((C.width : Int) / 2) (yn : Int) TileT.LADDER
          else mm) ∧
          ∀ x y : Int, 0 ≤ y → y < 4 →
            (if mm.getTile ((C.width : Int) / 2) (yn : Int) ≠ TileT.LADDER then
              mm.setTile ((C.width : Int) / 2) (yn : Int) TileT.LADDER
            else mm).getTile x y ≠ TileT.LADDER) := by
      intro mm yn hmem hP
      have h4le : 4 ≤ yn := (List.mem_range'_1.mp hmem).1
      by_cases hcond : mm.getTile ((C.width : Int) / 2) (yn : Int) ≠ TileT.LADDER
      · rw [if_pos hcond]
        refine ⟨GenInv_setTile _ _ _ TileT.LADDER (by decide) hP.1, ?_⟩
        intro x y hy0 hy4
        have hne : ¬(x = (C.width : Int) / 2 ∧ y = (yn : Int)) :=
          fun hc => absurd hc.2 (by omega)
        rw [getTile_setTile_ne _ _ _ _ _ _ hne]
        exact hP.2 x y hy0 hy4
      · rw [if_neg hcond]
        exact hP
    have hF := foldl_pres_mem _ _ _ hstep C ⟨hCinv, hCrows⟩
    refine ⟨⟨_, exitLadders_update _ _ hF.1.2.1⟩, ?_⟩
    intro x y hy0 hy4
    rw [getTile_exitUpdate]
    exact ⟨hF.2 x y hy0 hy4, hF.1.2.2 x y⟩

/-- Step 12 establishes the exit invariant on any invariant-satisfying
grid. -/
theorem addExitLadders_exit (m : TileMap) (st : Nat) (h : GenInv m) :
    ExitInvariant (LevelGenerator.addExitLadders m st).1 := by
  unfold LevelGenerator.addExitLadders
  have hC := clearHidden_spec m h
  exact pickExit_exit _ st hC.1 hC.2

/-- One platform band (step 3 helper) preserves the pipeline invariant. -/
theorem createPlatformWithLadders_inv (dif : DifficultySettings) (m : TileMap)
    (row : Int) (cf : List Int) (st : Nat) (h : GenInv m) :
    GenInv (LevelGenerator.createPlatformWithLadders dif m row cf st).2.1 := by
  unfold LevelGenerator.createPlatformWithLadders
  dsimp only
  split
  · refine foldl_pres (fun acc : TileMap × List Int => GenInv acc.1) _ ?_ _ _ ?_
    · intro a b ha
      obtain ⟨mm, lps⟩ := a
      dsimp only at ha ⊢
      split
      · exact extendLadderDown_inv _ _ _ ha
      · exact ha
    · refine foldl_pres (fun acc : TileMap × List Int × Nat => GenInv acc.1) _ ?_ _ _ h
      intro a b ha
      obtain ⟨mm, lps, st2⟩ := a
      dsimp only at ha ⊢
      split_ifs <;> dsimp only <;>
        first
          | exact ha
          | (refine extendLadderDown_inv _ _ _ ?_
             refine foldl_pres GenInv _ ?_ _ _ ha
             intro a3 b3 ha3
             exact GenInv_setTile a3 _ _ TileT.BRICK (by decide) ha3)
          | (refine foldl_pres GenInv _ ?_ _ _ ha
             intro a3 b3 ha3
             exact GenInv_setTile a3 _ _ TileT.BRICK (by decide) ha3)
  · refine foldl_pres (fun acc : TileMap × List Int × Nat => GenInv acc.1) _ ?_ _ _ h
    intro a b ha
    obtain ⟨mm, lps, st2⟩ := a
    dsimp only at ha ⊢
    split_ifs <;> dsimp only <;>
      first
        | exact ha
        | (refine extendLadderDown_inv _ _ _ ?_
           refine foldl_pres GenInv _ ?_ _ _ ha
           intro a3 b3 ha3
           exact GenInv_setTile a3 _ _ TileT.BRICK (by decide) ha3)
        | (refine foldl_pres GenInv _ ?_ _ _ ha
           intro a3 b3 ha3
           exact GenInv_setTile a3 _ _ TileT.BRICK (by decide) ha3)

/-- Stage 3 preserves the pipeline invariant. -/
theorem createConnectedPlatforms_inv (dif : DifficultySettings) (m : TileMap)
    (st : Nat) (h : GenInv m) :
    GenInv (LevelGenerator.createConnectedPlatforms dif m st).1 := by
  unfold LevelGenerator.createConnectedPlatforms
  dsimp only
  refine foldl_pres (fun acc : TileMap × List Int × Nat => GenInv acc.1) _ ?_ _ _ h
  intro a b ha
  obtain ⟨mm, prev, st2⟩ := a
  dsimp only at ha ⊢
  exact createPlatformWithLadders_inv dif mm b prev st2 ha

/-- Stage 4 preserves the pipeline invariant. -/
theorem addExtraLadders_inv (dif : DifficultySettings) (m : TileMap) (st : Nat)
    (h : GenInv m) : GenInv (LevelGenerator.addExtraLadders dif m st).1 := by
  unfold LevelGenerator.addExtraLadders
  dsimp only
  refine foldl_pres (fun acc : TileMap × Nat => GenInv acc.1) _ ?_ _ _ h
  intro a b ha
  obtain ⟨mm, st2⟩ := a
  dsimp only at ha ⊢
  split
  · exact extendLadderDown_inv _ _ _ ha
  · exact ha

/-- Stage 5 preserves the pipeline invariant. -/
theorem createPoles_inv (dif : DifficultySettings) (m : TileMap) (st : Nat)
    (h : GenInv m) : GenInv (LevelGenerator.createPoles dif m st).1 := by
  unfold LevelGenerator.createPoles
  dsimp only
  refine foldl_pres (fun acc : TileMap × Nat => GenInv acc.1) _ ?_ _ _ ?_
  · intro a b ha
    refine foldl_pres (fun acc : TileMap × Nat => GenInv acc.1) _ ?_ _ _ ha
    intro a2 b2 ha2
    obtain ⟨mm, st2⟩ := a2
    dsimp only at ha2 ⊢
    split
    · exact ha2
    refine foldl_pres (fun acc : TileMap × Nat => GenInv acc.1) _ ?_ _ _ ?_
    · intro a3 b3 ha3
      obtain ⟨m2, st3⟩ := a3
      dsimp only at ha3 ⊢
      split
      · split_ifs <;> dsimp only <;>
          first
            | exact ha3
            | (refine foldl_pres GenInv _ ?_ _ _ ha3
               intro a4 b4 ha4
               split
               · exact GenInv_setTile a4 _ _ TileT.POLE (by decide) ha4
               · exact ha4)
      · exact ha3
    · exact ha2
  · refine foldl_pres (fun acc : TileMap × List LevelGenerator.Platform × Nat => GenInv acc.1) _ ?_ _ _ h
    intro a b ha
    refine foldl_pres (fun acc : TileMap × List LevelGenerator.Platform × Nat => GenInv acc.1) _ ?_ _ _ ha
    intro a2 b2 ha2
    obtain ⟨mm, pcs, st2⟩ := a2
    dsimp only at ha2 ⊢
    split_ifs <;> dsimp only <;>
      first
        | exact ha2
        | (refine foldl_pres GenInv _ ?_ _ _ ha2
           intro a4 b4 ha4
           split
           · exact GenInv_setTile a4 _ _ TileT.POLE (by decide) ha4
           · exact ha4)

/-- Stage 6 preserves the pipeline invariant. -/
theorem addHardBricks_inv (m : TileMap) (st : Nat) (h : GenInv m) :
    GenInv (LevelGenerator.addHardBricks m st).1 := by
  unfold LevelGenerator.addHardBricks
  refine foldl_pres (fun acc : TileMap × Nat => GenInv acc.1) _ ?_ _ _ h
  intro a b ha
  refine foldl_pres (fun acc : TileMap × Nat => GenInv acc.1) _ ?_ _ _ ha
  intro a2 b2 ha2
  obtain ⟨mm, st2⟩ := a2
  dsimp only at ha2 ⊢
  split_ifs <;> dsimp only <;>
    first
      | exact ha2
      | exact GenInv_setTile mm _ _ TileT.BRICK_HARD (by decide) ha2

/-- Stage 7 preserves the pipeline invariant. -/
theorem addTrapBricks_inv (dif : DifficultySettings) (m : TileMap) (st : Nat)
    (h : GenInv m) : GenInv (LevelGenerator.addTrapBricks dif m st).1 := by
  unfold LevelGenerator.addTrapBricks
  refine foldl_pres (fun acc : TileMap × Nat => GenInv acc.1) _ ?_ _ _ h
  intro a b ha
  refine foldl_pres (fun acc : TileMap × Nat => GenInv acc.1) _ ?_ _ _ ha
  intro a2 b2 ha2
  obtain ⟨mm, st2⟩ := a2
  dsimp only at ha2 ⊢
  split_ifs <;> dsimp only <;>
    first
      | exact ha2
      | exact GenInv_setTile mm _ _ TileT.BRICK_TRAP (by decide) ha2

/-- One column of stage 8 preserves the pipeline invariant. -/
theorem elaCol_inv (m0 mm : TileMap) (xn : Nat) (h : GenInv mm) :
    GenInv (LevelGenerator.elaCol m0 mm xn) := by
  unfold LevelGenerator.elaCol
  refine foldl_pres GenInv _ ?_ _ _ h
  intro a b ha
  dsimp only
  split_ifs <;>
    first
      | exact ha
      | exact GenInv_setTile _ _ _ TileT.EMPTY (by decide) ha
      | exact GenInv_setTile _ _ _ TileT.EMPTY (by decide)
          (GenInv_setTile _ _ _ TileT.EMPTY (by decide) ha)

/-- Stage 8 preserves the pipeline invariant. -/
theorem ensureLadderAccessibility_inv (m : TileMap) (h : GenInv m) :
    GenInv (LevelGenerator.ensureLadderAccessibility m) := by
  unfold LevelGenerator.ensureLadderAccessibility
  refine foldl_pres GenInv _ ?_ _ _ h
  intro a b ha
  exact elaCol_inv m a b ha

/-- Stage 9 preserves the pipeline invariant. -/
theorem placePlayer_inv (m : TileMap) (st : Nat) (h : GenInv m) :
    GenInv (LevelGenerator.placePlayer m st).1 := by
  unfold LevelGenerator.placePlayer
  dsimp only
  split <;>
    first
      | exact GenInv_congr m _ rfl rfl rfl h.2.1 h
      | (split <;> exact GenInv_congr m _ rfl rfl rfl h.2.1 h)

/-- Stage 10 preserves the pipeline invariant. -/
theorem placeGold_inv (dif : DifficultySettings) (m : TileMap) (st : Nat)
    (h : GenInv m) : GenInv (LevelGenerator.placeGold dif m st).1 := by
  unfold LevelGenerator.placeGold
  dsimp only
  refine foldl_pres (fun acc : TileMap × List Pos => GenInv acc.1) _ ?_ _ _ ?_
  · intro a b ha
    obtain ⟨mm, placed⟩ := a
    dsimp only at ha ⊢
    split_ifs <;> dsimp only <;>
      first
        | exact ha
        | exact GenInv_congr (mm.setTile b.x b.y TileT.GOLD) _ rfl rfl rfl
            (GenInv_setTile mm b.x b.y TileT.GOLD (by decide) ha).2.1
            (GenInv_setTile mm b.x b.y TileT.GOLD (by decide) ha)
  · refine foldl_pres (fun acc : TileMap × List Pos => GenInv acc.1) _ ?_ _ _ h
    intro a b ha
    obtain ⟨mm, placed⟩ := a
    dsimp only at ha ⊢
    split_ifs <;> dsimp only <;>
      first
        | exact ha
        | exact GenInv_congr (mm.setTile b.x b.y TileT.GOLD) _ rfl rfl rfl
            (GenInv_setTile mm b.x b.y TileT.GOLD (by decide) ha).2.1
            (GenInv_setTile mm b.x b.y TileT.GOLD (by decide) ha)

/-- Stage 11 preserves the pipeline invariant. -/
theorem placeEnemies_inv (dif : DifficultySettings) (dk : String) (lvl : Nat)
    (m : TileMap) (st : Nat) (h : GenInv m) :
    GenInv (LevelGenerator.placeEnemies dif dk lvl m st).1 := by
  unfold LevelGenerator.placeEnemies
  dsimp only
  exact GenInv_congr m _ rfl rfl rfl h.2.1 h

/-- Bridging the decidable hidden-zone scan to the unbounded statement:
out-of-range coordinates resolve to the hard brick. -/
theorem hiddenZoneLadderFree_spec (m : TileMap)
    (hscan : hiddenZoneLadderFree m = true) :
    ∀ x y : Int, 0 ≤ y → y < 4 →
      m.getTile x y ≠ TileT.LADDER ∧ m.getTile x y ≠ TileT.LADDER_EXIT := by
  intro x y hy0 hy4
  by_cases hx : 0 ≤ x ∧ x < (m.width : Int) ∧ y < (m.height : Int)
  · have hxw : x.toNat < m.width := by omega
    have hy : y.toNat < 4 := by omega
    unfold hiddenZoneLadderFree at hscan
    rw [List.all_eq_true] at hscan
    have h1 := hscan x.toNat (List.mem_range.mpr hxw)
    rw [List.all_eq_true] at h1
    have h2 := h1 y.toNat (List.mem_range.mpr hy)
    rw [Int.toNat_of_nonneg hx.1, Int.toNat_of_nonneg hy0] at h2
    simpa using h2
  · have hbh : m.getTile x y = TileT.BRICK_HARD := getTile_oob _ _ _ (by omega)
    rw [hbh]
    exact ⟨by decide, by decide⟩

/-- The hand-authored fallback grid satisfies the exit invariant. -/
theorem generateFallback_exit : ExitInvariant LevelGenerator.generateFallback := by
  constructor
  · exact ⟨20, by decide⟩
  · have hscan : hiddenZoneLadderFree LevelGenerator.generateFallback = true := by
      decide
    exact hiddenZoneLadderFree_spec _ hscan

/-- Every candidate leaving the twelve-stage pipeline satisfies the exit
invariant. -/
theorem generateCandidate_exit (dif : DifficultySettings) (dk : String)
    (lvl st : Nat) :
    ExitInvariant (LevelGenerator.generateCandidate dif dk lvl st).1 := by
  have h1 : GenInv (LevelGenerator.createGround TileMap.new) :=
    createGround_inv _ (GenInv_new _ _)
  obtain ⟨m2, s2, e2⟩ : ∃ p q, LevelGenerator.createMainSpine dif (LevelGenerator.createGround TileMap.new) st = (p, q) := ⟨_, _, rfl⟩
  have h2 : GenInv m2 := by
    have hx := createMainSpine_inv dif (LevelGenerator.createGround TileMap.new) st h1
    rw [e2] at hx
    exact hx
  obtain ⟨m3, s3, e3⟩ : ∃ p q, LevelGenerator.createConnectedPlatforms dif m2 s2 = (p, q) := ⟨_, _, rfl⟩
  have h3 : GenInv m3 := by
    have hx := createConnectedPlatforms_inv dif m2 s2 h2
    rw [e3] at hx
    exact hx
  obtain ⟨m4, s4, e4⟩ : ∃ p q, LevelGenerator.addExtraLadders dif m3 s3 = (p, q) := ⟨_, _, rfl⟩
  have h4 : GenInv m4 := by
    have hx := addExtraLadders_inv dif m3 s3 h3
    rw [e4] at hx
    exact hx
  obtain ⟨m5, s5, e5⟩ : ∃ p q, LevelGenerator.createPoles dif m4 s4 = (p, q) := ⟨_, _, rfl⟩
  have h5 : GenInv m5 := by
    have hx := createPoles_inv dif m4 s4 h4
    rw [e5] at hx
    exact hx
  obtain ⟨m6, s6, e6⟩ : ∃ p q, LevelGenerator.addHardBricks m5 s5 = (p, q) := ⟨_, _, rfl⟩
  have h6 : GenInv m6 := by
    have hx := addHardBricks_inv m5 s5 h5
    rw [e6] at hx
    exact hx
  obtain ⟨m7, s7, e7⟩ : ∃ p q, LevelGenerator.addTrapBricks dif m6 s6 = (p, q) := ⟨_, _, rfl⟩
  have h7 : GenInv m7 := by
    have hx := addTrapBricks_inv dif m6 s6 h6
    rw [e7] at hx
    exact hx
  have h8 : GenInv (LevelGenerator.ensureLadderAccessibility m7) :=
    ensureLadderAccessibility_inv m7 h7
  obtain ⟨m9, s9, e9⟩ : ∃ p q,
      LevelGenerator.placePlayer (LevelGenerator.ensureLadderAccessibility m7) s7 = (p, q) :=
    ⟨_, _, rfl⟩
  have h9 : GenInv m9 := by
    have hx := placePlayer_inv (LevelGenerator.ensureLadderAccessibility m7) s7 h8
    rw [e9] at hx
    exact hx
  obtain ⟨m10, s10, e10⟩ : ∃ p q, LevelGenerator.placeGold dif m9 s9 = (p, q) := ⟨_, _, rfl⟩
  have h10 : GenInv m10 := by
    have hx := placeGold_inv dif m9 s9 h9
    rw [e10] at hx
    exact hx
  obtain ⟨m11, s11, e11⟩ : ∃ p q,
      LevelGenerator.placeEnemies dif dk lvl m10 s10 = (p, q) := ⟨_, _, rfl⟩
  have h11 : GenInv m11 := by
    have hx := placeEnemies_inv dif dk lvl m10 s10 h10
    rw [e11] at hx
    exact hx
  unfold LevelGenerator.generateCandidate
  dsimp only
  rw [e2]
  dsimp only
  rw [e3]
  dsimp only
  rw [e4]
  dsimp only
  rw [e5]
  dsimp only
  rw [e6]
  dsimp only
  rw [e7]
  dsimp only
  rw [e9]
  dsimp only
  rw [e10]
  dsimp only
  rw [e11]
  dsimp only
  exact addExitLadders_exit m11 s11 h11

/-- One step of the retry loop. -/
theorem generateGo_succ (dif : DifficultySettings) (dk : String)
    (lvl att st : Nat) (bm : Option TileMap) (bs : ℚ) :
    LevelGenerator.generateGo dif dk lvl (att + 1) st bm bs
      = (let p := LevelGenerator.generateCandidate dif dk lvl st
         let r := SolvabilityChecker.checkSolvability "normal" p.1
         if r.solvable then p.1
         else if r.score > bs then
           LevelGenerator.generateGo dif dk lvl att p.2 (some p.1) r.score
         else LevelGenerator.generateGo dif dk lvl att p.2 bm bs) := rfl

/-- The retry loop only returns pipeline candidates, retained best
candidates, or the fallback, so its result always satisfies the exit
invariant. -/
theorem generateGo_exit (dif : DifficultySettings) (dk : String) (lvl : Nat) :
    ∀ (att st : Nat) (bm : Option TileMap) (bs : ℚ),
      (∀ m', bm = some m' → ExitInvariant m') →
      ExitInvariant (LevelGenerator.generateGo dif dk lvl att st bm bs) := by
  intro att
  induction att with
  | zero =>
    intro st bm bs hbm
    cases bm with
    | none => exact generateFallback_exit
    | some bmv =>
      show ExitInvariant
        (if bs ≥ mkRat 99 100 then bmv else LevelGenerator.generateFallback)
      split
      · exact hbm bmv rfl
      · exact generateFallback_exit
  | succ att ih =>
    intro st bm bs hbm
    obtain ⟨map, st2, hc⟩ :
        ∃ p q, LevelGenerator.generateCandidate dif dk lvl st = (p, q) :=
      ⟨(LevelGenerator.generateCandidate dif dk lvl st).1,
       (LevelGenerator.generateCandidate dif dk lvl st).2, Prod.mk.eta.symm⟩
    rw [generateGo_succ]
    dsimp only
    rw [hc]
    dsimp only
    split
    · have hm : ExitInvariant (LevelGenerator.generateCandidate dif dk lvl st).1 :=
        generateCandidate_exit dif dk lvl st
      rw [hc] at hm
      exact hm
    split
    · refine ih _ _ _ ?_
      intro m' hm'
      cases hm'
      have hm : ExitInvariant (LevelGenerator.generateCandidate dif dk lvl st).1 :=
        generateCandidate_exit dif dk lvl st
      rw [hc] at hm
      exact hm
    · exact ih _ _ _ hbm

/-! ### The hard seed-9072 run, stage by stage

Kernel evaluation of each pipeline stage on the concrete intermediate
grids, verifying the `M1` … `M12` literals. -/

set_option maxRecDepth 4000000
set_option maxHeartbeats 8000000

/-- Seed 9072, stage 1 (`createGround`). -/
theorem gen9072_s1 : LevelGenerator.createGround TileMap.new = M1 := by
  decide

/-- Seed 9072, stage 2 (`createMainSpine`). -/
theorem gen9072_s2 :
    LevelGenerator.createMainSpine (difficultyFor "hard") M1 9072 = (M2, S2) := by
  decide

/-- Seed 9072, stage 3 (`createConnectedPlatforms`). -/
theorem gen9072_s3 :
    LevelGenerator.createConnectedPlatforms (difficultyFor "hard") M2 S2 = (M3, S3) := by
  with_unfolding_all decide

/-- Seed 9072, stage 4 (`addExtraLadders`). -/
theorem gen9072_s4 :
    LevelGenerator.addExtraLadders (difficultyFor "hard") M3 S3 = (M4, S4) := by
  with_unfolding_all decide

/-- Seed 9072, stage 5 (`createPoles`). -/
theorem gen9072_s5 :
    LevelGenerator.createPoles (difficultyFor "hard") M4 S4 = (M5, S5) := by
  with_unfolding_all decide

/-- Seed 9072, stage 6 (`addHardBricks`). -/
theorem gen9072_s6 : LevelGenerator.addHardBricks M5 S5 = (M6, S6) := by
  with_unfolding_all decide

/-- Seed 9072, stage 7 (`addTrapBricks`). -/
theorem gen9072_s7 :
    LevelGenerator.addTrapBricks (difficultyFor "hard") M6 S6 = (M7, S7) := by
  with_unfolding_all decide

/-- Seed 9072, stage 8, columns 0-6 of the `ensureLadderAccessibility`
loop. -/
theorem gen9072_s8q1 :
    (List.range' 0 7).foldl (LevelGenerator.elaCol M7) M7 = E7 := by
  with_unfolding_all decide

/-- Seed 9072, stage 8, columns 7-13. -/
theorem gen9072_s8q2 :
    (List.range' 7 7).foldl (LevelGenerator.elaCol M7) E7 = E14 := by
  with_unfolding_all decide

/-- Seed 9072, stage 8, columns 14-20. -/
theorem gen9072_s8q3 :
    (List.range' 14 7).foldl (LevelGenerator.elaCol M7) E14 = E21 := by
  with_unfolding_all decide

/-- Seed 9072, stage 8, columns 21-27. -/
theorem gen9072_s8q4 :
    (List.range' 21 7).foldl (LevelGenerator.elaCol M7) E21 = E28 := by
  with_unfolding_all decide

/-- Seed 9072, stage 8 (`ensureLadderAccessibility`), assembled from the
four column chunks. -/
theorem gen9072_s8 : LevelGenerator.ensureLadderAccessibility M7 = M8 := by
  unfold LevelGenerator.ensureLadderAccessibility
  have hsplit : List.range M7.width
      = List.range' 0 7 ++ (List.range' 7 7 ++ (List.range' 14 7 ++ List.range' 21 7)) := by
    decide
  have hlast : E28 = M8 := by decide
  rw [hsplit, List.foldl_append, List.foldl_append, List.foldl_append,
    gen9072_s8q1, gen9072_s8q2, gen9072_s8q3, gen9072_s8q4, hlast]

/-- Seed 9072, stage 9 (`placePlayer`). -/
theorem gen9072_s9 : LevelGenerator.placePlayer M8 S7 = (M9, S9) := by
  with_unfolding_all decide

/-- Seed 9072, stage 10 (`placeGold`). -/
theorem gen9072_s10 :
    LevelGenerator.placeGold (difficultyFor "hard") M9 S9 = (M10, S10) := by
  with_unfolding_all decide

/-- Seed 9072, stage 11 (`placeEnemies`). -/
theorem gen9072_s11 :
    LevelGenerator.placeEnemies (difficultyFor "hard") "hard" 1 M10 S10 = (M11, S11) := by
  with_unfolding_all decide

/-- Seed 9072, stage 12 (`addExitLadders`): no candidate column passes the
hidden-path check, so the forced center branch records column 14 without
re-checking its path. -/
theorem gen9072_s12 : LevelGenerator.addExitLadders M11 S11 = (M12, S12) := by
  with_unfolding_all decide

/-- The seed-9072 candidate is reported solvable by the generator's
checker (which, never receiving `setDifficulty`, scores under `normal`). -/
theorem gen9072_solvable :
    (SolvabilityChecker.checkSolvability "normal" M12).solvable = true := by
  with_unfolding_all decide

/-- The whole pipeline at seed 9072: the twelve stage equations chained. -/
theorem gen9072_candidate :
    LevelGenerator.generateCandidate (difficultyFor "hard") "hard" 1 9072
      = (M12, S12) := by
  unfold LevelGenerator.generateCandidate
  dsimp only
  rw [gen9072_s1, gen9072_s2]
  dsimp only
  rw [gen9072_s3]
  dsimp only
  rw [gen9072_s4]
  dsimp only
  rw [gen9072_s5]
  dsimp only
  rw [gen9072_s6]
  dsimp only
  rw [gen9072_s7]
  dsimp only
  rw [gen9072_s8, gen9072_s9]
  dsimp only
  rw [gen9072_s10]
  dsimp only
  rw [gen9072_s11]
  dsimp only
  rw [gen9072_s12]

/-- The retry loop returns the first candidate whenever the checker calls
it solvable. -/
theorem generateGo_first_solvable (dif : DifficultySettings) (dk : String)
    (lvl att st : Nat) (bm : Option TileMap) (bs : ℚ)
    (h : (SolvabilityChecker.checkSolvability "normal"
      (LevelGenerator.generateCandidate dif dk lvl st).1).solvable = true) :
    LevelGenerator.generateGo dif dk lvl (att + 1) st bm bs
      = (LevelGenerator.generateCandidate dif dk lvl st).1 := by
  rw [generateGo_succ]
  dsimp only
  rw [h, if_pos rfl]

/-- Claim C5 (amended): every grid returned by `generate` — accepted
candidate, retained best candidate, or fallback — records as exit-ladder
metadata exactly the four hidden-zone cells (rows 0-3) of one single
column, and rows 0-3 of the returned grid contain no ordinary or hidden
exit ladder tiles, so in particular the metadata cells are never written
as ladder tiles into the grid itself.  (The original claim's further
requirement that the chosen column's hidden-zone path be clear of poles
and bricks is refuted by `C5_counterexample`: the forced center column
skips the clearance check.) -/
theorem C5_exit_invariants (seed : SeededRandom.Seed) (dk : String) (lvl att : Nat) :
    (∃ x : Int, (LevelGenerator.generate seed dk lvl att).exitLadders
        = [⟨x, 0⟩, ⟨x, 1⟩, ⟨x, 2⟩, ⟨x, 3⟩]) ∧
    (∀ x y : Int, 0 ≤ y → y < 4 →
      (LevelGenerator.generate seed dk lvl att).getTile x y ≠ TileT.LADDER ∧
        (LevelGenerator.generate seed dk lvl att).getTile x y ≠ TileT.LADDER_EXIT) ∧
    ∀ e ∈ (LevelGenerator.generate seed dk lvl att).exitLadders,
      (LevelGenerator.generate seed dk lvl att).getTile e.x e.y ≠ TileT.LADDER ∧
        (LevelGenerator.generate seed dk lvl att).getTile e.x e.y ≠ TileT.LADDER_EXIT := by
  have h : ExitInvariant (LevelGenerator.generate seed dk lvl att) := by
    unfold LevelGenerator.generate
    exact generateGo_exit _ _ _ att _ none (-1) (fun m' hm' => Option.noConfusion hm')
  obtain ⟨⟨x, hx⟩, hrows⟩ := h
  refine ⟨⟨x, hx⟩, hrows, ?_⟩
  intro e he
  rw [hx] at he
  simp only [List.mem_cons, List.not_mem_nil, or_false] at he
  rcases he with he | he | he | he
  · subst he
    exact hrows x 0 (by decide) (by decide)
  · subst he
    exact hrows x 1 (by decide) (by decide)
  · subst he
    exact hrows x 2 (by decide) (by decide)
  · subst he
    exact hrows x 3 (by decide) (by decide)

/-- Claim C5, counterexample: the original claim further requires the
chosen exit column's hidden-zone path (rows 0-3) to be clear of poles
and bricks.  `generate` with numeric seed 9072, difficulty `hard`,
level 1 and the source's attempt budget 100 accepts its first candidate
as checker-solvable and returns it, and that grid's forced center exit
column (14) crosses a pole in the hidden zone: the exit-ladder metadata
cell ⟨14, 2⟩ sits on a `POLE` tile. -/
theorem C5_counterexample :
    ∃ e ∈ (LevelGenerator.generate (SeededRandom.Seed.num 9072) "hard" 1 100).exitLadders,
      (LevelGenerator.generate (SeededRandom.Seed.num 9072) "hard" 1 100).getTile e.x e.y
        = TileT.POLE := by
  have hsolv : (SolvabilityChecker.checkSolvability "normal"
      (LevelGenerator.generateCandidate (difficultyFor "hard") "hard" 1 9072).1).solvable
        = true := by
    rw [gen9072_candidate]
    exact gen9072_solvable
  have hgen : LevelGenerator.generate (SeededRandom.Seed.num 9072) "hard" 1 100 = M12 := by
    show LevelGenerator.generateGo (difficultyFor "hard") "hard" 1 100
        (SeededRandom.seedInit (SeededRandom.Seed.num 9072)) none (-1) = M12
    have hseed : SeededRandom.seedInit (SeededRandom.Seed.num 9072) = 9072 := rfl
    have h100 : (100 : Nat) = 99 + 1 := rfl
    rw [hseed, h100,
      generateGo_first_solvable (difficultyFor "hard") "hard" 1 99 9072 none (-1) hsolv,
      gen9072_candidate]
  rw [hgen]
  exact ⟨⟨14, 2⟩, by decide, by decide⟩

/-- Witness for the amended C5 at a concrete input (attempt budget 0, so
the fallback grid is returned). -/
theorem C5_exit_invariants_witness :
    (LevelGenerator.generate (SeededRandom.Seed.num 1) "easy" 1 0).getTile 20 2
        ≠ TileT.LADDER ∧
      (⟨20, 2⟩ : Pos) ∈ (LevelGenerator.generate (SeededRandom.Seed.num 1) "easy" 1 0).exitLadders :=
  ⟨((C5_exit_invariants (SeededRandom.Seed.num 1) "easy" 1 0).2.1 20 2
      (by decide) (by decide)).1, by decide⟩

end LR2099
